import Mathlib

/-! # Debug Module Interface register model (`src/target/Dmi.cpp`)

A shallow embedding of the shadow registers of `Dmi.cpp` and of the transport
they talk to.

* `uint32_t` values are natural numbers; every C++ operation that can leave the
  32-bit range (`<<`, `~`) is reduced modulo `2^32` explicitly.
* The transport `IDtm` is an abstract state machine; every call made through
  `mDtm` is appended to a trace, and every line sent to `std::cerr` is appended
  to a log, so that "no transport access" and "a warning is emitted" are
  statements about the environment a method returns.
* The header `Dmi.h` is not among the sources, so the register addresses,
  masks, offsets and sizes it declares are written down from the RISC-V Debug
  Specification 0.13 register layout.
-/

/-! ## Machine arithmetic -/

/-- Bitwise complement of a `uint32_t` operand (`~x`). -/
def not32 (x : Nat) : Nat := 0xFFFFFFFF ^^^ x

/-- Left shift of a `uint32_t` operand, the result again a `uint32_t`. -/
def shl32 (x k : Nat) : Nat := (x <<< k) % 2 ^ 32

/-- Conversion `static_cast<uint8_t> (x)`. -/
def toU8 (x : Nat) : Nat := x % 2 ^ 8

/-- Conversion `static_cast<uint16_t> (x)`. -/
def toU16 (x : Nat) : Nat := x % 2 ^ 16

/-- The mask with `w` one bits starting at bit `off`; used only to reason about
the mask constants, never by the embedded code. -/
def fieldMask (w off : Nat) : Nat := (2 ^ w - 1) <<< off

/-! ## The transport and the environment -/

/-- One call through the `IDtm` interface. -/
inductive DtmOp where
  | dmiRead (address : Nat)
  | dmiWrite (address : Nat) (value : Nat)
  | reset
  deriving DecidableEq, Repr

/-- The transport capability `IDtm` over a transport state `σ`:
`uint32_t dmiRead (uint64_t)`, `uint32_t dmiWrite (uint64_t, uint32_t)` and
`void reset ()`. -/
structure IDtm (σ : Type) where
  dmiRead : σ → Nat → Nat × σ
  dmiWrite : σ → Nat → Nat → Nat × σ
  reset : σ → σ

/-- Everything a register method can affect outside its own object: the state of
the transport behind `mDtm`, the calls made on it so far (oldest first) and the
lines written to `std::cerr` so far (oldest first). -/
structure Env (σ : Type) where
  dtm : σ
  trace : List DtmOp
  cerr : List String

namespace Env

/-- The call `mDtm->dmiRead (address)`; the result is a `uint32_t`. -/
def dmiRead {σ : Type} (d : IDtm σ) (e : Env σ) (address : Nat) : Nat × Env σ :=
  ((d.dmiRead e.dtm address).1 % 2 ^ 32,
   { e with dtm := (d.dmiRead e.dtm address).2,
            trace := e.trace ++ [DtmOp.dmiRead address] })

/-- The call `mDtm->dmiWrite (address, value)`; the result is a `uint32_t`. -/
def dmiWrite {σ : Type} (d : IDtm σ) (e : Env σ) (address value : Nat) : Nat × Env σ :=
  ((d.dmiWrite e.dtm address value).1 % 2 ^ 32,
   { e with dtm := (d.dmiWrite e.dtm address value).2,
            trace := e.trace ++ [DtmOp.dmiWrite address value] })

/-- One line `cerr << ... << endl`. -/
def warn {σ : Type} (e : Env σ) (line : String) : Env σ :=
  { e with cerr := e.cerr ++ [line] }

end Env

namespace Dmi

/-! ## The `Dmi::Dmcontrol` class -/

/-- The data members of `Dmi::Dmcontrol` (the reference `mDtm` is passed to the
methods that use it). -/
structure Dmcontrol where
  mPrettyPrint : Bool
  mDmcontrolReg : Nat
  deriving DecidableEq, Repr

namespace Dmcontrol

/-- Modelled from the spec: `Dmi.h` is missing; `hartsello` is
dmcontrol[25:16]. -/
def HARTSELLO_MASK : Nat := 0x03ff0000

/-- Modelled from the spec: `Dmi.h` is missing; `hartselhi` is
dmcontrol[15:6]. -/
def HARTSELHI_MASK : Nat := 0x0000ffc0

/-- Modelled from the spec: `Dmi.h` is missing; bit offset of `hartsello`. -/
def HARTSELLO_OFFSET : Nat := 16

/-- Modelled from the spec: `Dmi.h` is missing; bit offset of `hartselhi`. -/
def HARTSELHI_OFFSET : Nat := 6

/-- Modelled from the spec: `Dmi.h` is missing; width of `hartsello`. -/
def HARTSELLO_SIZE : Nat := 10

/-- Modelled from the spec: `Dmi.h` is missing; width of `hartselhi`. -/
def HARTSELHI_SIZE : Nat := 10

/-- The getter `uint32_t Dmi::Dmcontrol::hartsel () const`. -/
def hartsel (self : Dmcontrol) : Nat :=
  let hartsello := (self.mDmcontrolReg &&& HARTSELLO_MASK) >>> HARTSELLO_OFFSET
  let hartselhi := (self.mDmcontrolReg &&& HARTSELHI_MASK) >>> HARTSELHI_OFFSET
  shl32 hartselhi HARTSELLO_SIZE ||| hartsello

/-- The setter `void Dmi::Dmcontrol::hartsel (const uint32_t hartselVal)`. -/
def hartsel_set {σ : Type} (self : Dmcontrol) (hartselVal : Nat) (e : Env σ) :
    Dmcontrol × Env σ :=
  let e1 :=
    if hartselVal ≥ 1 <<< (HARTSELLO_SIZE + HARTSELHI_SIZE) then
      e.warn ("Warning: requested value of hartsel, " ++ toString hartselVal
        ++ ", exceeds the maximum permitted value: higher bits ignored.")
    else e
  let hartsello := shl32 hartselVal HARTSELLO_OFFSET &&& HARTSELLO_MASK
  let hartselhi :=
    shl32 (hartselVal >>> HARTSELLO_SIZE) HARTSELHI_OFFSET &&& HARTSELHI_MASK
  let reg1 := self.mDmcontrolReg &&& not32 (HARTSELLO_MASK ||| HARTSELHI_MASK)
  let reg2 := reg1 ||| (hartselhi ||| hartsello)
  ({ self with mDmcontrolReg := reg2 }, e1)

/-- The method `void Dmi::Dmcontrol::hartselMax ()`. -/
def hartselMax {σ : Type} (self : Dmcontrol) (e : Env σ) : Dmcontrol × Env σ :=
  ({ self with mDmcontrolReg := self.mDmcontrolReg ||| (HARTSELHI_MASK ||| HARTSELLO_MASK) }, e)

/-- The field `hartsello` of a `dmcontrol` value: bits 25:16. -/
def hartselloField (reg : Nat) : Nat := (reg >>> 16) % 2 ^ 10

/-- The field `hartselhi` of a `dmcontrol` value: bits 15:6. -/
def hartselhiField (reg : Nat) : Nat := (reg >>> 6) % 2 ^ 10

end Dmcontrol

/-! ## The `Dmi::Abstractcs` class -/

/-- The data members of `Dmi::Abstractcs`. -/
structure Abstractcs where
  mPrettyPrint : Bool
  mAbstractcsReg : Nat
  deriving DecidableEq, Repr

namespace Abstractcs

/-- Modelled from the spec: `Dmi.h` is missing; address of `abstractcs` in the
DMI (Debug Specification 0.13). -/
def DMI_ADDR : Nat := 0x16

/-- Modelled from the spec: `Dmi.h` is missing; `progbufsize` is
abstractcs[28:24]. -/
def PROGBUFSIZE_MASK : Nat := 0x1f000000

/-- Modelled from the spec: `Dmi.h` is missing; `cmderr` is abstractcs[10:8]. -/
def CMDERR_MASK : Nat := 0x00000700

/-- Modelled from the spec: `Dmi.h` is missing; bit offset of `progbufsize`. -/
def PROGBUFSIZE_OFFSET : Nat := 24

/-- Modelled from the spec: `Dmi.h` is missing; bit offset of `cmderr`. -/
def CMDERR_OFFSET : Nat := 8

/-- The method `void Dmi::Abstractcs::read ()`. -/
def read {σ : Type} (d : IDtm σ) (self : Abstractcs) (e : Env σ) : Abstractcs × Env σ :=
  ({ self with mAbstractcsReg := (e.dmiRead d DMI_ADDR).1 }, (e.dmiRead d DMI_ADDR).2)

/-- The method `void Dmi::Abstractcs::write ()`. -/
def write {σ : Type} (d : IDtm σ) (self : Abstractcs) (e : Env σ) : Abstractcs × Env σ :=
  ({ self with mAbstractcsReg := (e.dmiWrite d DMI_ADDR self.mAbstractcsReg).1 },
   (e.dmiWrite d DMI_ADDR self.mAbstractcsReg).2)

/-- The getter `uint8_t Dmi::Abstractcs::progbufsize () const`. -/
def progbufsize (self : Abstractcs) : Nat :=
  toU8 ((self.mAbstractcsReg &&& PROGBUFSIZE_MASK) >>> PROGBUFSIZE_OFFSET)

/-- The getter `bool Dmi::Abstractcs::busy () const`; the source tests the
register against `PROGBUFSIZE_MASK`. -/
def busy (self : Abstractcs) : Bool :=
  (self.mAbstractcsReg &&& PROGBUFSIZE_MASK) != 0

/-- The getter `uint8_t Dmi::Abstractcs::cmderr () const`. -/
def cmderr (self : Abstractcs) : Nat :=
  toU8 ((self.mAbstractcsReg &&& CMDERR_MASK) >>> CMDERR_OFFSET)

/-- The method `void Dmi::Abstractcs::cmderrClear ()`. -/
def cmderrClear {σ : Type} (self : Abstractcs) (e : Env σ) : Abstractcs × Env σ :=
  ({ self with mAbstractcsReg := self.mAbstractcsReg ||| CMDERR_MASK }, e)

/-- The field `cmderr` of an `abstractcs` value: bits 10:8. -/
def cmderrField (reg : Nat) : Nat := (reg >>> 8) % 2 ^ 3

/-- A transport models `abstractcs.cmderr` as write-1-to-clear: whatever state
it is in, after a write of `v` to `abstractcs` the `cmderr` bits a read returns
are those a read returned before the write, less the bits set in `v`. -/
def CmderrW1C {σ : Type} (d : IDtm σ) : Prop :=
  ∀ (t : σ) (v : Nat),
    cmderrField (d.dmiRead (d.dmiWrite t DMI_ADDR v).2 DMI_ADDR).1
      = cmderrField (d.dmiRead t DMI_ADDR).1 &&& (7 ^^^ cmderrField v)

/-- A test double for the transport: its state is the value of the hardware
`abstractcs` register; a write clears the `cmderr` bits that are written as 1,
leaves everything else and acknowledges with the value before the write. -/
def w1cDtm : IDtm Nat where
  dmiRead := fun t address => (if address = DMI_ADDR then t else 0, t)
  dmiWrite := fun t address value =>
    if address = DMI_ADDR then (t, t &&& not32 (value &&& CMDERR_MASK)) else (0, t)
  reset := fun t => t

/-- The call sequence `cmderrClear (); write (); read ();` on one `abstractcs`
object. -/
def clearWriteRead {σ : Type} (d : IDtm σ) (self : Abstractcs) (e : Env σ) :
    Abstractcs × Env σ :=
  let s1 := self.cmderrClear e
  let s2 := write d s1.1 s1.2
  read d s2.1 s2.2

end Abstractcs

/-! ## The `Dmi::Sbcs` class -/

/-- The data members of `Dmi::Sbcs`. -/
structure Sbcs where
  mPrettyPrint : Bool
  mSbcsReg : Nat
  deriving DecidableEq, Repr

namespace Sbcs

/-- Modelled from the spec: `Dmi.h` is missing; `sbaccess` is sbcs[19:17]. -/
def SBACCESS_MASK : Nat := 0x000e0000

/-- Modelled from the spec: `Dmi.h` is missing; `sberror` is sbcs[14:12]. -/
def SBERROR_MASK : Nat := 0x00007000

/-- Modelled from the spec: `Dmi.h` is missing; bit offset of `sbaccess`. -/
def SBACCESS_OFFSET : Nat := 17

/-- Modelled from the spec: `Dmi.h` is missing; bit offset of `sberror`. -/
def SBERROR_OFFSET : Nat := 12

/-- Modelled from the spec: `Dmi.h` is missing; width of `sbaccess`. -/
def SBACCESS_SIZE : Nat := 3

/-- The getter `uint8_t Dmi::Sbcs::sbaccess () const`; the source combines the
register and the mask with `|`. -/
def sbaccess (self : Sbcs) : Nat :=
  toU8 ((self.mSbcsReg ||| SBACCESS_MASK) >>> SBACCESS_OFFSET)

/-- The setter `void Dmi::Sbcs::sbaccess (const uint8_t val)`; `val` goes to the
stream as a character. -/
def sbaccess_set {σ : Type} (self : Sbcs) (val : Nat) (e : Env σ) : Sbcs × Env σ :=
  let e1 :=
    if val ≥ 1 <<< SBACCESS_SIZE then
      e.warn ("Warning: " ++ String.singleton (Char.ofNat val)
        ++ " too large for sbaccess field of sbcs: " ++ "truncated")
    else e
  let reg1 := self.mSbcsReg &&& not32 SBACCESS_MASK
  let reg2 := reg1 ||| (shl32 val SBACCESS_OFFSET &&& SBACCESS_MASK)
  ({ self with mSbcsReg := reg2 }, e1)

/-- The getter `uint8_t Dmi::Sbcs::sberror () const`; the source combines the
register and the mask with `|`. -/
def sberror (self : Sbcs) : Nat :=
  toU8 ((self.mSbcsReg ||| SBERROR_MASK) >>> SBERROR_OFFSET)

/-- The field `sbaccess` of an `sbcs` value: bits 19:17. -/
def sbaccessField (reg : Nat) : Nat := (reg >>> 17) % 2 ^ 3

/-- The field `sberror` of an `sbcs` value: bits 14:12. -/
def sberrorField (reg : Nat) : Nat := (reg >>> 12) % 2 ^ 3

end Sbcs

/-! ## Transport access and reset of the single registers

`RESET_VALUE` of every class is declared in `Dmi.h`, which is not among the
sources; the `reset ()` methods take it as their first argument. -/

namespace Dmcontrol

/-- Modelled from the spec: `Dmi.h` is missing; address of `dmcontrol` in the
DMI (Debug Specification 0.13). -/
def DMI_ADDR : Nat := 0x10

/-- The method `void Dmi::Dmcontrol::read ()`. -/
def read {σ : Type} (d : IDtm σ) (self : Dmcontrol) (e : Env σ) : Dmcontrol × Env σ :=
  ({ self with mDmcontrolReg := (e.dmiRead d DMI_ADDR).1 }, (e.dmiRead d DMI_ADDR).2)

/-- The method `void Dmi::Dmcontrol::reset ()`. -/
def reset {σ : Type} (RESET_VALUE : Nat) (self : Dmcontrol) (e : Env σ) : Dmcontrol × Env σ :=
  ({ self with mDmcontrolReg := RESET_VALUE }, e)

/-- The method `void Dmi::Dmcontrol::write ()`. -/
def write {σ : Type} (d : IDtm σ) (self : Dmcontrol) (e : Env σ) : Dmcontrol × Env σ :=
  ({ self with mDmcontrolReg := (e.dmiWrite d DMI_ADDR self.mDmcontrolReg).1 },
   (e.dmiWrite d DMI_ADDR self.mDmcontrolReg).2)

/-- The getter `bool Dmi::Dmcontrol::hartreset () const`. -/
def hartreset (_self : Dmcontrol) : Bool := false

/-- The setter `void Dmi::Dmcontrol::hartreset (const bool flag)`. -/
def hartreset_set {σ : Type} (self : Dmcontrol) (_flag : Bool) (e : Env σ) :
    Dmcontrol × Env σ :=
  (self, e.warn "Warning: Setting dmcontrol:hartreset not supported: ignored.")

/-- The getter `bool Dmi::Dmcontrol::hasel () const`. -/
def hasel (_self : Dmcontrol) : Bool := false

/-- The setter `void Dmi::Dmcontrol::hasel (const bool flag)`. -/
def hasel_set {σ : Type} (self : Dmcontrol) (_flag : Bool) (e : Env σ) : Dmcontrol × Env σ :=
  (self, e.warn "Warning: Setting dmcontrol:hasel not supported: ignored.")

/-- The method `void Dmi::Dmcontrol::setresethaltreq ()`. -/
def setresethaltreq {σ : Type} (self : Dmcontrol) (e : Env σ) : Dmcontrol × Env σ :=
  (self, e.warn "Warning: Setting dmcontrol:setresethaltreq not supported: ignored.")

/-- The method `void Dmi::Dmcontrol::clrresethaltreq ()`. -/
def clrresethaltreq {σ : Type} (self : Dmcontrol) (e : Env σ) : Dmcontrol × Env σ :=
  (self, e.warn "Warning: Setting dmcontrol:clrresethaltreq not supported: ignored.")

end Dmcontrol

/-- The data members of `Dmi::Dmstatus`. -/
structure Dmstatus where
  mPrettyPrint : Bool
  mDmstatusReg : Nat
  deriving DecidableEq, Repr

namespace Dmstatus

/-- Modelled from the spec: `Dmi.h` is missing; address of `dmstatus` in the
DMI (Debug Specification 0.13). -/
def DMI_ADDR : Nat := 0x11

/-- Modelled from the spec: `Dmi.h` is missing; `allresumeack` is
dmstatus[17]. -/
def ALLRESUMEACK_MASK : Nat := 0x00020000

/-- Modelled from the spec: `Dmi.h` is missing; `anyresumeack` is
dmstatus[16]. -/
def ANYRESUMEACK_MASK : Nat := 0x00010000

/-- Modelled from the spec: `Dmi.h` is missing; `allhalted` is dmstatus[9]. -/
def ALLHALTED_MASK : Nat := 0x00000200

/-- Modelled from the spec: `Dmi.h` is missing; `anyhalted` is dmstatus[8]. -/
def ANYHALTED_MASK : Nat := 0x00000100

/-- The method `void Dmi::Dmstatus::read ()`. -/
def read {σ : Type} (d : IDtm σ) (self : Dmstatus) (e : Env σ) : Dmstatus × Env σ :=
  ({ self with mDmstatusReg := (e.dmiRead d DMI_ADDR).1 }, (e.dmiRead d DMI_ADDR).2)

/-- The getter `bool Dmi::Dmstatus::resumeack () const`. -/
def resumeack (self : Dmstatus) : Bool :=
  (self.mDmstatusReg &&& (ALLRESUMEACK_MASK ||| ANYRESUMEACK_MASK)) != 0

/-- The getter `bool Dmi::Dmstatus::halted () const`. -/
def halted (self : Dmstatus) : Bool :=
  (self.mDmstatusReg &&& (ALLHALTED_MASK ||| ANYHALTED_MASK)) != 0

end Dmstatus

/-- The data members of `Dmi::Hartinfo`. -/
structure Hartinfo where
  mPrettyPrint : Bool
  mHartinfoReg : Nat
  deriving DecidableEq, Repr

namespace Hartinfo

/-- Modelled from the spec: `Dmi.h` is missing; address of `hartinfo` in the
DMI (Debug Specification 0.13). -/
def DMI_ADDR : Nat := 0x12

/-- The method `void Dmi::Hartinfo::read ()`. -/
def read {σ : Type} (d : IDtm σ) (self : Hartinfo) (e : Env σ) : Hartinfo × Env σ :=
  ({ self with mHartinfoReg := (e.dmiRead d DMI_ADDR).1 }, (e.dmiRead d DMI_ADDR).2)

end Hartinfo

/-- The data member of `Dmi::Hawindowsel`. -/
structure Hawindowsel where
  mHawindowselReg : Nat
  deriving DecidableEq, Repr

namespace Hawindowsel

/-- Modelled from the spec: `Dmi.h` is missing; address of `hawindowsel` in the
DMI (Debug Specification 0.13). -/
def DMI_ADDR : Nat := 0x14

/-- The method `void Dmi::Hawindowsel::read ()`. -/
def read {σ : Type} (d : IDtm σ) (_self : Hawindowsel) (e : Env σ) : Hawindowsel × Env σ :=
  ({ mHawindowselReg := (e.dmiRead d DMI_ADDR).1 }, (e.dmiRead d DMI_ADDR).2)

/-- The method `void Dmi::Hawindowsel::reset ()`. -/
def reset {σ : Type} (RESET_VALUE : Nat) (_self : Hawindowsel) (e : Env σ) :
    Hawindowsel × Env σ :=
  ({ mHawindowselReg := RESET_VALUE }, e)

/-- The method `void Dmi::Hawindowsel::write ()`. -/
def write {σ : Type} (d : IDtm σ) (self : Hawindowsel) (e : Env σ) : Hawindowsel × Env σ :=
  ({ mHawindowselReg := (e.dmiWrite d DMI_ADDR self.mHawindowselReg).1 },
   (e.dmiWrite d DMI_ADDR self.mHawindowselReg).2)

end Hawindowsel

/-- The data member of `Dmi::Hawindow`. -/
structure Hawindow where
  mHawindowReg : Nat
  deriving DecidableEq, Repr

namespace Hawindow

/-- Modelled from the spec: `Dmi.h` is missing; address of `hawindow` in the
DMI (Debug Specification 0.13). -/
def DMI_ADDR : Nat := 0x15

/-- The method `void Dmi::Hawindow::read ()`. -/
def read {σ : Type} (d : IDtm σ) (_self : Hawindow) (e : Env σ) : Hawindow × Env σ :=
  ({ mHawindowReg := (e.dmiRead d DMI_ADDR).1 }, (e.dmiRead d DMI_ADDR).2)

/-- The method `void Dmi::Hawindow::reset ()`. -/
def reset {σ : Type} (RESET_VALUE : Nat) (_self : Hawindow) (e : Env σ) : Hawindow × Env σ :=
  ({ mHawindowReg := RESET_VALUE }, e)

/-- The method `void Dmi::Hawindow::write ()`. -/
def write {σ : Type} (d : IDtm σ) (self : Hawindow) (e : Env σ) : Hawindow × Env σ :=
  ({ mHawindowReg := (e.dmiWrite d DMI_ADDR self.mHawindowReg).1 },
   (e.dmiWrite d DMI_ADDR self.mHawindowReg).2)

end Hawindow

namespace Abstractcs

/-- The method `void Dmi::Abstractcs::reset ()`. -/
def reset {σ : Type} (RESET_VALUE : Nat) (self : Abstractcs) (e : Env σ) :
    Abstractcs × Env σ :=
  ({ self with mAbstractcsReg := RESET_VALUE }, e)

end Abstractcs

/-- The data members of `Dmi::Command`. -/
structure Command where
  mPrettyPrint : Bool
  mCommandReg : Nat
  deriving DecidableEq, Repr

namespace Command

/-- Modelled from the spec: `Dmi.h` is missing; address of `command` in the DMI
(Debug Specification 0.13). -/
def DMI_ADDR : Nat := 0x17

/-- The method `void Dmi::Command::reset ()`. -/
def reset {σ : Type} (RESET_VALUE : Nat) (self : Command) (e : Env σ) : Command × Env σ :=
  ({ self with mCommandReg := RESET_VALUE }, e)

/-- The method `void Dmi::Command::write ()`. -/
def write {σ : Type} (d : IDtm σ) (self : Command) (e : Env σ) : Command × Env σ :=
  ({ self with mCommandReg := (e.dmiWrite d DMI_ADDR self.mCommandReg).1 },
   (e.dmiWrite d DMI_ADDR self.mCommandReg).2)

end Command

/-- The data members of `Dmi::Abstractauto`. -/
structure Abstractauto where
  mPrettyPrint : Bool
  mAbstractautoReg : Nat
  deriving DecidableEq, Repr

namespace Abstractauto

/-- Modelled from the spec: `Dmi.h` is missing; address of `abstractauto` in the
DMI (Debug Specification 0.13). -/
def DMI_ADDR : Nat := 0x18

/-- Modelled from the spec: `Dmi.h` is missing; `autoexecprogbuf` is
abstractauto[31:16]. -/
def AUTOEXECPROGBUF_MASK : Nat := 0xffff0000

/-- Modelled from the spec: `Dmi.h` is missing; bit offset of
`autoexecprogbuf`. -/
def AUTOEXECPROGBUF_OFFSET : Nat := 16

/-- The method `void Dmi::Abstractauto::read ()`. -/
def read {σ : Type} (d : IDtm σ) (self : Abstractauto) (e : Env σ) : Abstractauto × Env σ :=
  ({ self with mAbstractautoReg := (e.dmiRead d DMI_ADDR).1 }, (e.dmiRead d DMI_ADDR).2)

/-- The method `void Dmi::Abstractauto::reset ()`. -/
def reset {σ : Type} (RESET_VALUE : Nat) (self : Abstractauto) (e : Env σ) :
    Abstractauto × Env σ :=
  ({ self with mAbstractautoReg := RESET_VALUE }, e)

/-- The method `void Dmi::Abstractauto::write ()`. -/
def write {σ : Type} (d : IDtm σ) (self : Abstractauto) (e : Env σ) : Abstractauto × Env σ :=
  ({ self with mAbstractautoReg := (e.dmiWrite d DMI_ADDR self.mAbstractautoReg).1 },
   (e.dmiWrite d DMI_ADDR self.mAbstractautoReg).2)

/-- The getter `uint16_t Dmi::Abstractauto::autoexecprogbuf () const`; the
source shifts the masked register left, `<< AUTOEXECPROGBUF_OFFSET`. -/
def autoexecprogbuf (self : Abstractauto) : Nat :=
  toU16 (shl32 (self.mAbstractautoReg &&& AUTOEXECPROGBUF_MASK) AUTOEXECPROGBUF_OFFSET)

/-- The setter
`void Dmi::Abstractauto::autoexecprogbuf (const uint16_t autoexecprogbufVal)`. -/
def autoexecprogbuf_set {σ : Type} (self : Abstractauto) (autoexecprogbufVal : Nat)
    (e : Env σ) : Abstractauto × Env σ :=
  let reg1 := self.mAbstractautoReg &&& not32 AUTOEXECPROGBUF_MASK
  let reg2 := reg1 ||| (shl32 autoexecprogbufVal AUTOEXECPROGBUF_OFFSET &&& AUTOEXECPROGBUF_MASK)
  ({ self with mAbstractautoReg := reg2 }, e)

/-- The field `autoexecprogbuf` of an `abstractauto` value: bits 31:16. -/
def autoexecprogbufField (reg : Nat) : Nat := (reg >>> 16) % 2 ^ 16

end Abstractauto

/-- The data member of `Dmi::Nextdm`. -/
structure Nextdm where
  mNextdmReg : Nat
  deriving DecidableEq, Repr

namespace Nextdm

/-- Modelled from the spec: `Dmi.h` is missing; address of `nextdm` in the DMI
(Debug Specification 0.13). -/
def DMI_ADDR : Nat := 0x1d

/-- The method `void Dmi::Nextdm::read ()`. -/
def read {σ : Type} (d : IDtm σ) (_self : Nextdm) (e : Env σ) : Nextdm × Env σ :=
  ({ mNextdmReg := (e.dmiRead d DMI_ADDR).1 }, (e.dmiRead d DMI_ADDR).2)

end Nextdm

/-- The data member of `Dmi::Authdata`. -/
structure Authdata where
  mAuthdataReg : Nat
  deriving DecidableEq, Repr

namespace Authdata

/-- Modelled from the spec: `Dmi.h` is missing; address of `authdata` in the
DMI (Debug Specification 0.13). -/
def DMI_ADDR : Nat := 0x30

/-- The method `void Dmi::Authdata::read ()`. -/
def read {σ : Type} (d : IDtm σ) (_self : Authdata) (e : Env σ) : Authdata × Env σ :=
  let e1 := e.warn "Warning: authentication not supported while reading authdata"
  ({ mAuthdataReg := (e1.dmiRead d DMI_ADDR).1 }, (e1.dmiRead d DMI_ADDR).2)

/-- The method `void Dmi::Authdata::reset ()`. -/
def reset {σ : Type} (RESET_VALUE : Nat) (_self : Authdata) (e : Env σ) : Authdata × Env σ :=
  let e1 := e.warn "Warning: authentication not supported while reseting authdata"
  ({ mAuthdataReg := RESET_VALUE }, e1)

/-- The method `void Dmi::Authdata::write ()`. -/
def write {σ : Type} (d : IDtm σ) (self : Authdata) (e : Env σ) : Authdata × Env σ :=
  let e1 := e.warn "Warning: authentication not supported while writing authdata"
  ({ mAuthdataReg := (e1.dmiWrite d DMI_ADDR self.mAuthdataReg).1 },
   (e1.dmiWrite d DMI_ADDR self.mAuthdataReg).2)

/-- The getter `uint32_t Dmi::Authdata::authdata () const`. -/
def authdata {σ : Type} (self : Authdata) (e : Env σ) : Nat × Env σ :=
  let e1 := e.warn "Warning: authentication not supported while getting authdata"
  (self.mAuthdataReg, e1)

/-- The setter `void Dmi::Authdata::authdata (const uint32_t authdataVal)`. -/
def authdata_set {σ : Type} (self : Authdata) (_authdataVal : Nat) (e : Env σ) :
    Authdata × Env σ :=
  (self, e.warn ("Warning: authentication not supported while setting authdata: "
    ++ "value ignored"))

end Authdata

namespace Sbcs

/-- Modelled from the spec: `Dmi.h` is missing; address of `sbcs` in the DMI
(Debug Specification 0.13). -/
def DMI_ADDR : Nat := 0x38

/-- Modelled from the spec: `Dmi.h` is missing; `sbbusyerror` is sbcs[22]. -/
def SBBUSYERROR_MASK : Nat := 0x00400000

/-- The method `void Dmi::Sbcs::read ()`. -/
def read {σ : Type} (d : IDtm σ) (self : Sbcs) (e : Env σ) : Sbcs × Env σ :=
  ({ self with mSbcsReg := (e.dmiRead d DMI_ADDR).1 }, (e.dmiRead d DMI_ADDR).2)

/-- The method `void Dmi::Sbcs::reset ()`. -/
def reset {σ : Type} (RESET_VALUE : Nat) (self : Sbcs) (e : Env σ) : Sbcs × Env σ :=
  ({ self with mSbcsReg := RESET_VALUE }, e)

/-- The method `void Dmi::Sbcs::write ()`. -/
def write {σ : Type} (d : IDtm σ) (self : Sbcs) (e : Env σ) : Sbcs × Env σ :=
  ({ self with mSbcsReg := (e.dmiWrite d DMI_ADDR self.mSbcsReg).1 },
   (e.dmiWrite d DMI_ADDR self.mSbcsReg).2)

/-- The method `void Dmi::Sbcs::sbbusyerrorClear ()`. -/
def sbbusyerrorClear {σ : Type} (self : Sbcs) (e : Env σ) : Sbcs × Env σ :=
  ({ self with mSbcsReg := self.mSbcsReg ||| SBBUSYERROR_MASK }, e)

/-- The method `void Dmi::Sbcs::sberrorClear ()`. -/
def sberrorClear {σ : Type} (self : Sbcs) (e : Env σ) : Sbcs × Env σ :=
  ({ self with mSbcsReg := self.mSbcsReg ||| SBERROR_MASK }, e)

end Sbcs

/-! ## The register arrays

An array `m…Reg[NUM_REGS]` is a function on `Fin NUM_REGS`: a slot is reached only
through an index that carries the proof of `n < NUM_REGS` the source tests. -/

/-- Modelled from the spec: `Dmi.h` is missing; the number of `data` registers,
`data[0..11]`. -/
@[reducible] def Data.NUM_REGS : Nat := 12

/-- The data member of `Dmi::Data`: the array `mDataReg[NUM_REGS]`. -/
structure Data where
  mDataReg : Fin Data.NUM_REGS → Nat

namespace Data

/-- Modelled from the spec: `Dmi.h` is missing; the table of the addresses of
the `data` registers in the DMI (Debug Specification 0.13), `DMI_ADDR[n]`. -/
def DMI_ADDR (n : Nat) : Nat :=
  [0x04, 0x05, 0x06, 0x07, 0x08, 0x09, 0x0a, 0x0b, 0x0c, 0x0d, 0x0e, 0x0f].getD n 0

/-- The method `void Dmi::Data::read (const size_t n)`. -/
def read {σ : Type} (d : IDtm σ) (self : Data) (n : Nat) (e : Env σ) : Data × Env σ :=
  if h : n < NUM_REGS then
    ({ mDataReg := Function.update self.mDataReg ⟨n, h⟩ (e.dmiRead d (DMI_ADDR n)).1 },
     (e.dmiRead d (DMI_ADDR n)).2)
  else
    (self, e.warn ("Warning: reading data[" ++ toString n ++ "] invalid: ignored."))

/-- The method `void Dmi::Data::reset (const size_t n)`. -/
def reset {σ : Type} (RESET_VALUE : Nat) (self : Data) (n : Nat) (e : Env σ) :
    Data × Env σ :=
  if h : n < NUM_REGS then
    ({ mDataReg := Function.update self.mDataReg ⟨n, h⟩ RESET_VALUE }, e)
  else
    (self, e.warn ("Warning: reseting data[" ++ toString n ++ "] invalid: ignored."))

/-- The method `void Dmi::Data::write (const size_t n)`. -/
def write {σ : Type} (d : IDtm σ) (self : Data) (n : Nat) (e : Env σ) : Data × Env σ :=
  if h : n < NUM_REGS then
    ({ mDataReg := Function.update self.mDataReg ⟨n, h⟩
        (e.dmiWrite d (DMI_ADDR n) (self.mDataReg ⟨n, h⟩)).1 },
     (e.dmiWrite d (DMI_ADDR n) (self.mDataReg ⟨n, h⟩)).2)
  else
    (self, e.warn ("Warning: writing data[" ++ toString n ++ "] invalid: ignored."))

/-- The getter `uint32_t Dmi::Data::data (const size_t n) const`. -/
def data {σ : Type} (self : Data) (n : Nat) (e : Env σ) : Nat × Env σ :=
  if h : n < NUM_REGS then
    (self.mDataReg ⟨n, h⟩, e)
  else
    (0, e.warn ("Warning: getting data[" ++ toString n ++ "] invalid: zero returned."))

/-- The setter `void Dmi::Data::data (const size_t n, const uint32_t dataVal)`. -/
def data_set {σ : Type} (self : Data) (n : Nat) (dataVal : Nat) (e : Env σ) :
    Data × Env σ :=
  if h : n < NUM_REGS then
    ({ mDataReg := Function.update self.mDataReg ⟨n, h⟩ dataVal }, e)
  else
    (self, e.warn ("Warning: setting data[" ++ toString n ++ "] invalid: ignored."))

end Data

/-- Modelled from the spec: `Dmi.h` is missing; the number of `haltsum` registers,
`haltsum[0..3]`. -/
@[reducible] def Haltsum.NUM_REGS : Nat := 4

/-- The data member of `Dmi::Haltsum`: the array `mHaltsumReg[NUM_REGS]`. -/
structure Haltsum where
  mHaltsumReg : Fin Haltsum.NUM_REGS → Nat

namespace Haltsum

/-- Modelled from the spec: `Dmi.h` is missing; the table of the addresses of
the `haltsum` registers in the DMI (Debug Specification 0.13), `DMI_ADDR[n]`. -/
def DMI_ADDR (n : Nat) : Nat :=
  [0x40, 0x13, 0x34, 0x35].getD n 0

/-- The method `void Dmi::Haltsum::read (const size_t n)`. -/
def read {σ : Type} (d : IDtm σ) (self : Haltsum) (n : Nat) (e : Env σ) : Haltsum × Env σ :=
  if h : n < NUM_REGS then
    ({ mHaltsumReg := Function.update self.mHaltsumReg ⟨n, h⟩ (e.dmiRead d (DMI_ADDR n)).1 },
     (e.dmiRead d (DMI_ADDR n)).2)
  else
    (self, e.warn ("Warning: reading haltsum[" ++ toString n ++ "] invalid: ignored."))

/-- The getter `uint32_t Dmi::Haltsum::haltsum (const size_t n) const`. -/
def haltsum {σ : Type} (self : Haltsum) (n : Nat) (e : Env σ) : Nat × Env σ :=
  if h : n < NUM_REGS then
    (self.mHaltsumReg ⟨n, h⟩, e)
  else
    (0, e.warn ("Warning: getting haltsum[" ++ toString n ++ "] invalid: zero returned."))

end Haltsum

/-- Modelled from the spec: `Dmi.h` is missing; the number of `confstrptr` registers,
`confstrptr[0..3]`. -/
@[reducible] def Confstrptr.NUM_REGS : Nat := 4

/-- The data member of `Dmi::Confstrptr`: the array `mConfstrptrReg[NUM_REGS]`. -/
structure Confstrptr where
  mConfstrptrReg : Fin Confstrptr.NUM_REGS → Nat

namespace Confstrptr

/-- Modelled from the spec: `Dmi.h` is missing; the table of the addresses of
the `confstrptr` registers in the DMI (Debug Specification 0.13), `DMI_ADDR[n]`. -/
def DMI_ADDR (n : Nat) : Nat :=
  [0x19, 0x1a, 0x1b, 0x1c].getD n 0

/-- The method `void Dmi::Confstrptr::read (const size_t n)`. -/
def read {σ : Type} (d : IDtm σ) (self : Confstrptr) (n : Nat) (e : Env σ) : Confstrptr × Env σ :=
  if h : n < NUM_REGS then
    ({ mConfstrptrReg := Function.update self.mConfstrptrReg ⟨n, h⟩ (e.dmiRead d (DMI_ADDR n)).1 },
     (e.dmiRead d (DMI_ADDR n)).2)
  else
    (self, e.warn ("Warning: reading confstrptr[" ++ toString n ++ "] invalid: ignored."))

/-- The getter `uint32_t Dmi::Confstrptr::confstrptr (const size_t n) const`. -/
def confstrptr {σ : Type} (self : Confstrptr) (n : Nat) (e : Env σ) : Nat × Env σ :=
  if h : n < NUM_REGS then
    (self.mConfstrptrReg ⟨n, h⟩, e)
  else
    (0, e.warn ("Warning: getting confstrptr[" ++ toString n ++ "] invalid: zero returned."))

end Confstrptr

/-- Modelled from the spec: `Dmi.h` is missing; the number of `progbuf` registers,
`progbuf[0..15]`. -/
@[reducible] def Progbuf.NUM_REGS : Nat := 16

/-- The data member of `Dmi::Progbuf`: the array `mProgbufReg[NUM_REGS]`. -/
structure Progbuf where
  mProgbufReg : Fin Progbuf.NUM_REGS → Nat

namespace Progbuf

/-- Modelled from the spec: `Dmi.h` is missing; the table of the addresses of
the `progbuf` registers in the DMI (Debug Specification 0.13), `DMI_ADDR[n]`. -/
def DMI_ADDR (n : Nat) : Nat :=
  [0x20, 0x21, 0x22, 0x23, 0x24, 0x25, 0x26, 0x27,
   0x28, 0x29, 0x2a, 0x2b, 0x2c, 0x2d, 0x2e, 0x2f].getD n 0

/-- The method `void Dmi::Progbuf::read (const size_t n)`. -/
def read {σ : Type} (d : IDtm σ) (self : Progbuf) (n : Nat) (e : Env σ) : Progbuf × Env σ :=
  if h : n < NUM_REGS then
    ({ mProgbufReg := Function.update self.mProgbufReg ⟨n, h⟩ (e.dmiRead d (DMI_ADDR n)).1 },
     (e.dmiRead d (DMI_ADDR n)).2)
  else
    (self, e.warn ("Warning: reading progbuf[" ++ toString n ++ "] invalid: ignored."))

/-- The method `void Dmi::Progbuf::reset (const size_t n)`. -/
def reset {σ : Type} (RESET_VALUE : Nat) (self : Progbuf) (n : Nat) (e : Env σ) :
    Progbuf × Env σ :=
  if h : n < NUM_REGS then
    ({ mProgbufReg := Function.update self.mProgbufReg ⟨n, h⟩ RESET_VALUE }, e)
  else
    (self, e.warn ("Warning: reseting progbuf[" ++ toString n ++ "] invalid: ignored."))

/-- The method `void Dmi::Progbuf::write (const size_t n)`. -/
def write {σ : Type} (d : IDtm σ) (self : Progbuf) (n : Nat) (e : Env σ) : Progbuf × Env σ :=
  if h : n < NUM_REGS then
    ({ mProgbufReg := Function.update self.mProgbufReg ⟨n, h⟩
        (e.dmiWrite d (DMI_ADDR n) (self.mProgbufReg ⟨n, h⟩)).1 },
     (e.dmiWrite d (DMI_ADDR n) (self.mProgbufReg ⟨n, h⟩)).2)
  else
    (self, e.warn ("Warning: writing progbuf[" ++ toString n ++ "] invalid: ignored."))

/-- The getter `uint32_t Dmi::Progbuf::progbuf (const size_t n) const`. -/
def progbuf {σ : Type} (self : Progbuf) (n : Nat) (e : Env σ) : Nat × Env σ :=
  if h : n < NUM_REGS then
    (self.mProgbufReg ⟨n, h⟩, e)
  else
    (0, e.warn ("Warning: getting progbuf[" ++ toString n ++ "] invalid: zero returned."))

/-- The setter `void Dmi::Progbuf::progbuf (const size_t n, const uint32_t progbufVal)`. -/
def progbuf_set {σ : Type} (self : Progbuf) (n : Nat) (progbufVal : Nat) (e : Env σ) :
    Progbuf × Env σ :=
  if h : n < NUM_REGS then
    ({ mProgbufReg := Function.update self.mProgbufReg ⟨n, h⟩ progbufVal }, e)
  else
    (self, e.warn ("Warning: setting progbuf[" ++ toString n ++ "] invalid: ignored."))

end Progbuf

/-- Modelled from the spec: `Dmi.h` is missing; the number of `sbaddress` registers,
`sbaddress[0..2]`. -/
@[reducible] def Sbaddress.NUM_REGS : Nat := 3

/-- The data member of `Dmi::Sbaddress`: the array `mSbaddressReg[NUM_REGS]`. -/
structure Sbaddress where
  mSbaddressReg : Fin Sbaddress.NUM_REGS → Nat

namespace Sbaddress

/-- Modelled from the spec: `Dmi.h` is missing; the table of the addresses of
the `sbaddress` registers in the DMI (Debug Specification 0.13), `DMI_ADDR[n]`. -/
def DMI_ADDR (n : Nat) : Nat :=
  [0x39, 0x3a, 0x3b].getD n 0

/-- The method `void Dmi::Sbaddress::read (const size_t n)`. -/
def read {σ : Type} (d : IDtm σ) (self : Sbaddress) (n : Nat) (e : Env σ) : Sbaddress × Env σ :=
  if h : n < NUM_REGS then
    ({ mSbaddressReg := Function.update self.mSbaddressReg ⟨n, h⟩ (e.dmiRead d (DMI_ADDR n)).1 },
     (e.dmiRead d (DMI_ADDR n)).2)
  else
    (self, e.warn ("Warning: reading sbaddress[" ++ toString n ++ "] invalid: ignored."))

/-- The method `void Dmi::Sbaddress::reset (const size_t n)`. -/
def reset {σ : Type} (RESET_VALUE : Nat) (self : Sbaddress) (n : Nat) (e : Env σ) :
    Sbaddress × Env σ :=
  if h : n < NUM_REGS then
    ({ mSbaddressReg := Function.update self.mSbaddressReg ⟨n, h⟩ RESET_VALUE }, e)
  else
    (self, e.warn ("Warning: reseting sbaddress[" ++ toString n ++ "] invalid: ignored."))

/-- The method `void Dmi::Sbaddress::write (const size_t n)`. -/
def write {σ : Type} (d : IDtm σ) (self : Sbaddress) (n : Nat) (e : Env σ) : Sbaddress × Env σ :=
  if h : n < NUM_REGS then
    ({ mSbaddressReg := Function.update self.mSbaddressReg ⟨n, h⟩
        (e.dmiWrite d (DMI_ADDR n) (self.mSbaddressReg ⟨n, h⟩)).1 },
     (e.dmiWrite d (DMI_ADDR n) (self.mSbaddressReg ⟨n, h⟩)).2)
  else
    (self, e.warn ("Warning: writing sbaddress[" ++ toString n ++ "] invalid: ignored."))

/-- The getter `uint32_t Dmi::Sbaddress::sbaddress (const size_t n) const`. -/
def sbaddress {σ : Type} (self : Sbaddress) (n : Nat) (e : Env σ) : Nat × Env σ :=
  if h : n < NUM_REGS then
    (self.mSbaddressReg ⟨n, h⟩, e)
  else
    (0, e.warn ("Warning: getting sbaddress[" ++ toString n ++ "] invalid: zero returned."))

/-- The setter `void Dmi::Sbaddress::sbaddress (const size_t n, const uint32_t sbaddressVal)`. -/
def sbaddress_set {σ : Type} (self : Sbaddress) (n : Nat) (sbaddressVal : Nat) (e : Env σ) :
    Sbaddress × Env σ :=
  if h : n < NUM_REGS then
    ({ mSbaddressReg := Function.update self.mSbaddressReg ⟨n, h⟩ sbaddressVal }, e)
  else
    (self, e.warn ("Warning: setting sbaddress[" ++ toString n ++ "] invalid: ignored."))

end Sbaddress

/-- Modelled from the spec: `Dmi.h` is missing; the number of `sbdata` registers,
`sbdata[0..3]`. -/
@[reducible] def Sbdata.NUM_REGS : Nat := 4

/-- The data member of `Dmi::Sbdata`: the array `mSbdataReg[NUM_REGS]`. -/
structure Sbdata where
  mSbdataReg : Fin Sbdata.NUM_REGS → Nat

namespace Sbdata

/-- Modelled from the spec: `Dmi.h` is missing; the table of the addresses of
the `sbdata` registers in the DMI (Debug Specification 0.13), `DMI_ADDR[n]`. -/
def DMI_ADDR (n : Nat) : Nat :=
  [0x3c, 0x3d, 0x3e, 0x3f].getD n 0

/-- The method `void Dmi::Sbdata::read (const size_t n)`. -/
def read {σ : Type} (d : IDtm σ) (self : Sbdata) (n : Nat) (e : Env σ) : Sbdata × Env σ :=
  if h : n < NUM_REGS then
    ({ mSbdataReg := Function.update self.mSbdataReg ⟨n, h⟩ (e.dmiRead d (DMI_ADDR n)).1 },
     (e.dmiRead d (DMI_ADDR n)).2)
  else
    (self, e.warn ("Warning: reading sbdata[" ++ toString n ++ "] invalid: ignored."))

/-- The method `void Dmi::Sbdata::reset (const size_t n)`. -/
def reset {σ : Type} (RESET_VALUE : Nat) (self : Sbdata) (n : Nat) (e : Env σ) :
    Sbdata × Env σ :=
  if h : n < NUM_REGS then
    ({ mSbdataReg := Function.update self.mSbdataReg ⟨n, h⟩ RESET_VALUE }, e)
  else
    (self, e.warn ("Warning: reseting sbdata[" ++ toString n ++ "] invalid: ignored."))

/-- The method `void Dmi::Sbdata::write (const size_t n)`. -/
def write {σ : Type} (d : IDtm σ) (self : Sbdata) (n : Nat) (e : Env σ) : Sbdata × Env σ :=
  if h : n < NUM_REGS then
    ({ mSbdataReg := Function.update self.mSbdataReg ⟨n, h⟩
        (e.dmiWrite d (DMI_ADDR n) (self.mSbdataReg ⟨n, h⟩)).1 },
     (e.dmiWrite d (DMI_ADDR n) (self.mSbdataReg ⟨n, h⟩)).2)
  else
    (self, e.warn ("Warning: writing sbdata[" ++ toString n ++ "] invalid: ignored."))

/-- The getter `uint32_t Dmi::Sbdata::sbdata (const size_t n) const`. -/
def sbdata {σ : Type} (self : Sbdata) (n : Nat) (e : Env σ) : Nat × Env σ :=
  if h : n < NUM_REGS then
    (self.mSbdataReg ⟨n, h⟩, e)
  else
    (0, e.warn ("Warning: getting sbdata[" ++ toString n ++ "] invalid: zero returned."))

/-- The setter `void Dmi::Sbdata::sbdata (const size_t n, const uint32_t sbdataVal)`. -/
def sbdata_set {σ : Type} (self : Sbdata) (n : Nat) (sbdataVal : Nat) (e : Env σ) :
    Sbdata × Env σ :=
  if h : n < NUM_REGS then
    ({ mSbdataReg := Function.update self.mSbdataReg ⟨n, h⟩ sbdataVal }, e)
  else
    (self, e.warn ("Warning: setting sbdata[" ++ toString n ++ "] invalid: ignored."))

end Sbdata

/-! ## Contracts of the register methods

The properties that hold of a method of every register class alike are stated
once, over the method, the projection of the shadow value and the address. -/

/-- A `read ()` at `addr`: one `dmiRead (addr)` and nothing else on the
transport, and the shadow becomes the `uint32_t` the transport returned, whatever
the object was before. -/
def ReadsThrough {α σ : Type} (d : IDtm σ) (rd : α → Env σ → α × Env σ)
    (shadow : α → Nat) (addr : Nat) : Prop :=
  ∀ (self : α) (e : Env σ),
    (rd self e).2.trace = e.trace ++ [DtmOp.dmiRead addr]
    ∧ (rd self e).2.dtm = (d.dmiRead e.dtm addr).2
    ∧ shadow (rd self e).1 = (d.dmiRead e.dtm addr).1 % 2 ^ 32
    ∧ ∀ other : α, shadow (rd other e).1 = shadow (rd self e).1

/-- A `read (n)` of slot `n` of an array of `N` registers, `n` in range: one
`dmiRead (addr n)` and nothing else on the transport, slot `n` becomes the
`uint32_t` the transport returned and the other slots keep their values. -/
def ReadsThroughAt {α σ : Type} (N : Nat) (d : IDtm σ) (rd : α → Nat → Env σ → α × Env σ)
    (slots : α → Fin N → Nat) (addr : Nat → Nat) : Prop :=
  ∀ (self : α) (n : Fin N) (e : Env σ),
    (rd self n e).2.trace = e.trace ++ [DtmOp.dmiRead (addr n)]
    ∧ (rd self n e).2.dtm = (d.dmiRead e.dtm (addr n)).2
    ∧ slots (rd self n e).1 n = (d.dmiRead e.dtm (addr n)).1 % 2 ^ 32
    ∧ ∀ m : Fin N, m ≠ n → slots (rd self n e).1 m = slots self m

/-- A `write ()` at `addr`: one `dmiWrite (addr, shadow)` and nothing else on the
transport, and the shadow becomes the `uint32_t` the transport returned. -/
def WritesThrough {α σ : Type} (d : IDtm σ) (wr : α → Env σ → α × Env σ)
    (shadow : α → Nat) (addr : Nat) : Prop :=
  ∀ (self : α) (e : Env σ),
    (wr self e).2.trace = e.trace ++ [DtmOp.dmiWrite addr (shadow self)]
    ∧ (wr self e).2.dtm = (d.dmiWrite e.dtm addr (shadow self)).2
    ∧ shadow (wr self e).1 = (d.dmiWrite e.dtm addr (shadow self)).1 % 2 ^ 32

/-- A `write (n)` of slot `n` of an array of `N` registers, `n` in range. -/
def WritesThroughAt {α σ : Type} (N : Nat) (d : IDtm σ) (wr : α → Nat → Env σ → α × Env σ)
    (slots : α → Fin N → Nat) (addr : Nat → Nat) : Prop :=
  ∀ (self : α) (n : Fin N) (e : Env σ),
    (wr self n e).2.trace = e.trace ++ [DtmOp.dmiWrite (addr n) (slots self n)]
    ∧ (wr self n e).2.dtm = (d.dmiWrite e.dtm (addr n) (slots self n)).2
    ∧ slots (wr self n e).1 n = (d.dmiWrite e.dtm (addr n) (slots self n)).1 % 2 ^ 32
    ∧ ∀ m : Fin N, m ≠ n → slots (wr self n e).1 m = slots self m

/-- A `reset ()` to `resetValue`: the shadow becomes `resetValue`, the transport
and its trace are as before, and a second `reset ()` changes nothing more. -/
def ResetsLocally {α σ : Type} (rs : α → Env σ → α × Env σ) (shadow : α → Nat)
    (resetValue : Nat) : Prop :=
  ∀ (self : α) (e : Env σ),
    shadow (rs self e).1 = resetValue
    ∧ (rs self e).2.dtm = e.dtm
    ∧ (rs self e).2.trace = e.trace
    ∧ (rs (rs self e).1 (rs self e).2).1 = (rs self e).1

/-- A `reset (n)` of slot `n` of an array of `N` registers, `n` in range: slot
`n` becomes `resetValue`, every other slot keeps its value, the transport and its
trace are as before, and a second `reset (n)` changes nothing more. -/
def ResetsLocallyAt {α σ : Type} (N : Nat) (rs : α → Nat → Env σ → α × Env σ)
    (slots : α → Fin N → Nat) (resetValue : Nat) : Prop :=
  ∀ (self : α) (n : Fin N) (e : Env σ),
    slots (rs self n e).1 n = resetValue
    ∧ (∀ m : Fin N, m ≠ n → slots (rs self n e).1 m = slots self m)
    ∧ (rs self n e).2.dtm = e.dtm
    ∧ (rs self n e).2.trace = e.trace
    ∧ slots (rs (rs self n e).1 n (rs self n e).2).1 = slots (rs self n e).1

/-- A getter of an array of `N` registers at an index out of range: it returns
0, writes one line to `cerr` and leaves the transport and its trace alone. -/
def ZeroOutOfRange {σ α : Type} (N : Nat) (get : α → Nat → Env σ → Nat × Env σ) : Prop :=
  ∀ (self : α) (n : Nat) (e : Env σ), N ≤ n →
    (get self n e).1 = 0
    ∧ (get self n e).2.dtm = e.dtm
    ∧ (get self n e).2.trace = e.trace
    ∧ (get self n e).2.cerr.length = e.cerr.length + 1

/-- A method of an array of `N` registers at an index out of range: the object
is returned as it was, the transport and its trace are as before, and one line
goes to `cerr`. -/
def NoOpOutOfRange {σ α : Type} (N : Nat) (op : α → Nat → Env σ → α × Env σ) : Prop :=
  ∀ (self : α) (n : Nat) (e : Env σ), N ≤ n →
    (op self n e).1 = self
    ∧ (op self n e).2.dtm = e.dtm
    ∧ (op self n e).2.trace = e.trace
    ∧ (op self n e).2.cerr.length = e.cerr.length + 1

/-- A test double for the transport: every read and every write is answered with
the value `v`. -/
def constDtm (v : Nat) : IDtm Unit where
  dmiRead := fun t _ => (v, t)
  dmiWrite := fun t _ _ => (v, t)
  reset := fun t => t

/-! ## Further field accessors -/

namespace Dmcontrol

/-- Modelled from the spec: `Dmi.h` is missing; `haltreq` is dmcontrol[31]. -/
def HALTREQ_MASK : Nat := 0x80000000

/-- Modelled from the spec: `Dmi.h` is missing; `resumereq` is dmcontrol[30]. -/
def RESUMEREQ_MASK : Nat := 0x40000000

/-- Modelled from the spec: `Dmi.h` is missing; `ackhavereset` is
dmcontrol[28]. -/
def ACKHAVERESET_MASK : Nat := 0x10000000

/-- The method `void Dmi::Dmcontrol::haltreq (const bool flag)`. -/
def haltreq {σ : Type} (self : Dmcontrol) (flag : Bool) (e : Env σ) : Dmcontrol × Env σ :=
  if flag then
    ({ self with mDmcontrolReg := self.mDmcontrolReg ||| HALTREQ_MASK }, e)
  else
    ({ self with mDmcontrolReg := self.mDmcontrolReg &&& not32 HALTREQ_MASK }, e)

/-- The method `void Dmi::Dmcontrol::resumereq ()`. -/
def resumereq {σ : Type} (self : Dmcontrol) (e : Env σ) : Dmcontrol × Env σ :=
  ({ self with mDmcontrolReg := self.mDmcontrolReg ||| RESUMEREQ_MASK }, e)

/-- The method `void Dmi::Dmcontrol::ackhavereset ()`. -/
def ackhavereset {σ : Type} (self : Dmcontrol) (e : Env σ) : Dmcontrol × Env σ :=
  ({ self with mDmcontrolReg := self.mDmcontrolReg ||| ACKHAVERESET_MASK }, e)

end Dmcontrol

namespace Hawindowsel

/-- Modelled from the spec: `Dmi.h` is missing; `hawindowsel` is
hawindowsel[14:0]. -/
def HAWINDOWSEL_MASK : Nat := 0x00007fff

/-- Modelled from the spec: `Dmi.h` is missing; bit offset of `hawindowsel`. -/
def HAWINDOWSEL_OFFSET : Nat := 0

/-- Modelled from the spec: `Dmi.h` is missing; width of `hawindowsel`. -/
def HAWINDOWSEL_SIZE : Nat := 15

/-- The getter `uint16_t Dmi::Hawindowsel::hawindowsel () const`. -/
def hawindowsel (self : Hawindowsel) : Nat :=
  toU16 ((self.mHawindowselReg &&& HAWINDOWSEL_MASK) >>> HAWINDOWSEL_OFFSET)

/-- The setter
`void Dmi::Hawindowsel::hawindowsel (const uint16_t hawindowselVal)`. -/
def hawindowsel_set {σ : Type} (self : Hawindowsel) (hawindowselVal : Nat) (e : Env σ) :
    Hawindowsel × Env σ :=
  let e1 :=
    if hawindowselVal ≥ 1 <<< HAWINDOWSEL_SIZE then
      e.warn ("Warning: requested value of hawindowsel, " ++ toString hawindowselVal
        ++ ", exceeds the maximum permitted value: higher bits ignored.")
    else e
  let reg1 := self.mHawindowselReg &&& not32 HAWINDOWSEL_MASK
  let reg2 := reg1 ||| (shl32 hawindowselVal HAWINDOWSEL_OFFSET &&& HAWINDOWSEL_MASK)
  ({ mHawindowselReg := reg2 }, e1)

end Hawindowsel

namespace Command

/-- Modelled from the spec: `Dmi.h` is missing; `cmdtype` is command[31:24]. -/
def CMDTYPE_MASK : Nat := 0xff000000

/-- Modelled from the spec: `Dmi.h` is missing; `control` is command[23:0]. -/
def CONTROL_MASK : Nat := 0x00ffffff

/-- Modelled from the spec: `Dmi.h` is missing; bit offset of `cmdtype`. -/
def CMDTYPE_OFFSET : Nat := 24

/-- Modelled from the spec: `Dmi.h` is missing; bit offset of `control`. -/
def CONTROL_OFFSET : Nat := 0

/-- Modelled from the spec: `Dmi.h` is missing; width of `control`. -/
def CONTROL_SIZE : Nat := 24

/-- The setter `void Dmi::Command::cmdtype (const uint8_t cmdtypeVal)`. -/
def cmdtype_set {σ : Type} (self : Command) (cmdtypeVal : Nat) (e : Env σ) :
    Command × Env σ :=
  let reg1 := self.mCommandReg &&& not32 CMDTYPE_MASK
  let reg2 := reg1 ||| (shl32 cmdtypeVal CMDTYPE_OFFSET &&& CMDTYPE_MASK)
  ({ self with mCommandReg := reg2 }, e)

/-- The setter `void Dmi::Command::control (const uint32_t controlVal)`. -/
def control_set {σ : Type} (self : Command) (controlVal : Nat) (e : Env σ) :
    Command × Env σ :=
  let e1 :=
    if controlVal ≥ 1 <<< CONTROL_SIZE then
      e.warn ("Warning: requested value of control, " ++ toString controlVal
        ++ ", exceeds the maximum permitted value: higher bits ignored.")
    else e
  let reg1 := self.mCommandReg &&& not32 CONTROL_MASK
  let reg2 := reg1 ||| (shl32 controlVal CONTROL_OFFSET &&& CONTROL_MASK)
  ({ self with mCommandReg := reg2 }, e1)

end Command

namespace Sbcs

/-- Modelled from the spec: `Dmi.h` is missing; `sbversion` is sbcs[31:29]. -/
def SBVERSION_MASK : Nat := 0xe0000000

/-- Modelled from the spec: `Dmi.h` is missing; `sbbusy` is sbcs[21]. -/
def SBBUSY_MASK : Nat := 0x00200000

/-- Modelled from the spec: `Dmi.h` is missing; `sbreadonaddr` is sbcs[20]. -/
def SBREADONADDR_MASK : Nat := 0x00100000

/-- Modelled from the spec: `Dmi.h` is missing; `sbautoincrement` is
sbcs[16]. -/
def SBAUTOINCREMENT_MASK : Nat := 0x00010000

/-- Modelled from the spec: `Dmi.h` is missing; `sbreadondata` is sbcs[15]. -/
def SBREADONDATA_MASK : Nat := 0x00008000

/-- Modelled from the spec: `Dmi.h` is missing; `sbasize` is sbcs[11:5]. -/
def SBASIZE_MASK : Nat := 0x00000fe0

/-- Modelled from the spec: `Dmi.h` is missing; bit offset of `sbversion`. -/
def SBVERSION_OFFSET : Nat := 29

/-- Modelled from the spec: `Dmi.h` is missing; bit offset of `sbasize`. -/
def SBASIZE_OFFSET : Nat := 5

/-- The getter `uint8_t Dmi::Sbcs::sbversion () const`; the source combines the
register and the mask with `|`. -/
def sbversion (self : Sbcs) : Nat :=
  toU8 ((self.mSbcsReg ||| SBVERSION_MASK) >>> SBVERSION_OFFSET)

/-- The getter `bool Dmi::Sbcs::sbbusy () const`. -/
def sbbusy (self : Sbcs) : Bool :=
  (self.mSbcsReg &&& SBBUSY_MASK) != 0

/-- The setter `void Dmi::Sbcs::sbreadonaddr (const bool flag)`. -/
def sbreadonaddr_set {σ : Type} (self : Sbcs) (flag : Bool) (e : Env σ) : Sbcs × Env σ :=
  if flag then
    ({ self with mSbcsReg := self.mSbcsReg ||| SBREADONADDR_MASK }, e)
  else
    ({ self with mSbcsReg := self.mSbcsReg &&& not32 SBREADONADDR_MASK }, e)

/-- The setter `void Dmi::Sbcs::sbautoincrement (const bool flag)`. -/
def sbautoincrement_set {σ : Type} (self : Sbcs) (flag : Bool) (e : Env σ) : Sbcs × Env σ :=
  if flag then
    ({ self with mSbcsReg := self.mSbcsReg ||| SBAUTOINCREMENT_MASK }, e)
  else
    ({ self with mSbcsReg := self.mSbcsReg &&& not32 SBAUTOINCREMENT_MASK }, e)

/-- The setter `void Dmi::Sbcs::sbreadondata (const bool flag)`. -/
def sbreadondata_set {σ : Type} (self : Sbcs) (flag : Bool) (e : Env σ) : Sbcs × Env σ :=
  if flag then
    ({ self with mSbcsReg := self.mSbcsReg ||| SBREADONDATA_MASK }, e)
  else
    ({ self with mSbcsReg := self.mSbcsReg &&& not32 SBREADONDATA_MASK }, e)

/-- The getter `uint8_t Dmi::Sbcs::sbasize () const`; the source combines the
register and the mask with `|`. -/
def sbasize (self : Sbcs) : Nat :=
  toU8 ((self.mSbcsReg ||| SBASIZE_MASK) >>> SBASIZE_OFFSET)

/-- The field `sbversion` of an `sbcs` value: bits 31:29. -/
def sbversionField (reg : Nat) : Nat := (reg >>> 29) % 2 ^ 3

/-- The field `sbasize` of an `sbcs` value: bits 11:5. -/
def sbasizeField (reg : Nat) : Nat := (reg >>> 5) % 2 ^ 7

end Sbcs

/-! ## Construction

The constructors of the register classes store the reference to the transport
and set the data members; none of them calls the transport.  The `RESET_VALUE`
constants of the single registers are the argument `RESET_VALUE`; those of the
four arrays with a `reset (n)` are taken from the Debug Specification. -/

/-- Modelled from the spec: `Dmi.h` is missing; `Data::RESET_VALUE`, the reset
value of a `data` register (0 in the Debug Specification 0.13). -/
def Data.RESET_VALUE : Nat := 0x0

/-- Modelled from the spec: `Dmi.h` is missing; `Progbuf::RESET_VALUE`, the
reset value of a `progbuf` register (0 in the Debug Specification 0.13). -/
def Progbuf.RESET_VALUE : Nat := 0x0

/-- Modelled from the spec: `Dmi.h` is missing; `Sbaddress::RESET_VALUE`, the
reset value of an `sbaddress` register (0 in the Debug Specification 0.13). -/
def Sbaddress.RESET_VALUE : Nat := 0x0

/-- Modelled from the spec: `Dmi.h` is missing; `Sbdata::RESET_VALUE`, the reset
value of an `sbdata` register (0 in the Debug Specification 0.13). -/
def Sbdata.RESET_VALUE : Nat := 0x0

/-- The constructor `Dmi::Data::Data`: every slot is set to `0x0`. -/
def Data.construct : Data := { mDataReg := fun _ => 0x0 }

/-- The constructor `Dmi::Dmcontrol::Dmcontrol`. -/
def Dmcontrol.construct (RESET_VALUE : Nat) : Dmcontrol :=
  { mPrettyPrint := false, mDmcontrolReg := RESET_VALUE }

/-- The constructor `Dmi::Dmstatus::Dmstatus`. -/
def Dmstatus.construct : Dmstatus := { mPrettyPrint := false, mDmstatusReg := 0 }

/-- The constructor `Dmi::Hartinfo::Hartinfo`. -/
def Hartinfo.construct : Hartinfo := { mPrettyPrint := false, mHartinfoReg := 0 }

/-- The constructor `Dmi::Haltsum::Haltsum`: every slot is set to `0x0`. -/
def Haltsum.construct : Haltsum := { mHaltsumReg := fun _ => 0x0 }

/-- The constructor `Dmi::Hawindowsel::Hawindowsel`. -/
def Hawindowsel.construct (RESET_VALUE : Nat) : Hawindowsel :=
  { mHawindowselReg := RESET_VALUE }

/-- The constructor `Dmi::Hawindow::Hawindow`. -/
def Hawindow.construct (RESET_VALUE : Nat) : Hawindow := { mHawindowReg := RESET_VALUE }

/-- The constructor `Dmi::Abstractcs::Abstractcs`. -/
def Abstractcs.construct (RESET_VALUE : Nat) : Abstractcs :=
  { mPrettyPrint := false, mAbstractcsReg := RESET_VALUE }

/-- The constructor `Dmi::Command::Command`. -/
def Command.construct (RESET_VALUE : Nat) : Command :=
  { mPrettyPrint := false, mCommandReg := RESET_VALUE }

/-- The constructor `Dmi::Abstractauto::Abstractauto`. -/
def Abstractauto.construct (RESET_VALUE : Nat) : Abstractauto :=
  { mPrettyPrint := false, mAbstractautoReg := RESET_VALUE }

/-- The constructor `Dmi::Confstrptr::Confstrptr`: every slot is set to `0x0`. -/
def Confstrptr.construct : Confstrptr := { mConfstrptrReg := fun _ => 0x0 }

/-- The constructor `Dmi::Nextdm::Nextdm`. -/
def Nextdm.construct (RESET_VALUE : Nat) : Nextdm := { mNextdmReg := RESET_VALUE }

/-- The constructor `Dmi::Progbuf::Progbuf`: every slot is set to `0x0`. -/
def Progbuf.construct : Progbuf := { mProgbufReg := fun _ => 0x0 }

/-- The constructor `Dmi::Authdata::Authdata`. -/
def Authdata.construct (RESET_VALUE : Nat) : Authdata := { mAuthdataReg := RESET_VALUE }

/-- The constructor `Dmi::Sbaddress::Sbaddress`: every slot is set to `0x0`. -/
def Sbaddress.construct : Sbaddress := { mSbaddressReg := fun _ => 0x0 }

/-- The constructor `Dmi::Sbcs::Sbcs`. -/
def Sbcs.construct (RESET_VALUE : Nat) : Sbcs :=
  { mPrettyPrint := false, mSbcsReg := RESET_VALUE }

/-- The constructor `Dmi::Sbdata::Sbdata`: every slot is set to `0x0`. -/
def Sbdata.construct : Sbdata := { mSbdataReg := fun _ => 0x0 }

/-- The `RESET_VALUE` constants of the single registers that are constructed with
one; they are declared in `Dmi.h`, which is not among the sources. -/
structure ResetValues where
  dmcontrol : Nat
  hawindowsel : Nat
  hawindow : Nat
  abstractcs : Nat
  command : Nat
  abstractauto : Nat
  nextdm : Nat
  authdata : Nat
  sbcs : Nat

end Dmi

/-! ## The class `Dmi` -/

/-- The register objects owned by the class `Dmi` (the transport `mDtm` is the
`dtm` component of the environment). -/
structure Dmi where
  mData : Dmi.Data
  mDmcontrol : Dmi.Dmcontrol
  mDmstatus : Dmi.Dmstatus
  mHartinfo : Dmi.Hartinfo
  mHaltsum : Dmi.Haltsum
  mHawindowsel : Dmi.Hawindowsel
  mHawindow : Dmi.Hawindow
  mAbstractcs : Dmi.Abstractcs
  mCommand : Dmi.Command
  mAbstractauto : Dmi.Abstractauto
  mConfstrptr : Dmi.Confstrptr
  mNextdm : Dmi.Nextdm
  mProgbuf : Dmi.Progbuf
  mAuthdata : Dmi.Authdata
  mSbaddress : Dmi.Sbaddress
  mSbcs : Dmi.Sbcs
  mSbdata : Dmi.Sbdata

namespace Dmi

/-- The constructor `Dmi::Dmi (unique_ptr<IDtm> dtm_)`: it takes the transport
over and creates one instance of every register class. -/
def construct {σ : Type} (rv : ResetValues) (e : Env σ) : Dmi × Env σ :=
  ({ mData := Data.construct
     mDmcontrol := Dmcontrol.construct rv.dmcontrol
     mDmstatus := Dmstatus.construct
     mHartinfo := Hartinfo.construct
     mHaltsum := Haltsum.construct
     mHawindowsel := Hawindowsel.construct rv.hawindowsel
     mHawindow := Hawindow.construct rv.hawindow
     mAbstractcs := Abstractcs.construct rv.abstractcs
     mCommand := Command.construct rv.command
     mAbstractauto := Abstractauto.construct rv.abstractauto
     mConfstrptr := Confstrptr.construct
     mNextdm := Nextdm.construct rv.nextdm
     mProgbuf := Progbuf.construct
     mAuthdata := Authdata.construct rv.authdata
     mSbaddress := Sbaddress.construct
     mSbcs := Sbcs.construct rv.sbcs
     mSbdata := Sbdata.construct }, e)

/-! ## Hart control

The member functions of `Dmi` that drive the registers (`selectHart`,
`haltHart`, the abstract command engine, `readMem`, `writeMem`) are not among
the sources.  They are written down from sections 4.3 to 4.5 of the
specification on top of the register methods of the source; the bound on a
polling loop is the argument `bound`. -/

/-- Modelled from the spec: `Dmi::selectHart` is missing.  Section 4.5: encode
`h` into `dmcontrol.hartsel` and `write()`. -/
def selectHart {σ : Type} (d : IDtm σ) (self : Dmi) (h : Nat) (e : Env σ) : Dmi × Env σ :=
  let s1 := self.mDmcontrol.hartsel_set h e
  let s2 := Dmcontrol.write d s1.1 s1.2
  ({ self with mDmcontrol := s2.1 }, s2.2)

/-- Modelled from the spec: the polling loop of `Dmi::haltHart` is missing.
Section 4.5: poll `dmstatus.halted` until set or a bound is reached.  One poll is
one `read ()` of `dmstatus` followed by `halted ()`; the result says whether
`halted ()` was seen within `bound` polls. -/
def pollHalted {σ : Type} (d : IDtm σ) : Nat → Dmstatus → Env σ → Bool × Dmstatus × Env σ
  | 0, st, e => (false, st, e)
  | k + 1, st, e =>
    if (Dmstatus.read d st e).1.halted then
      (true, (Dmstatus.read d st e).1, (Dmstatus.read d st e).2)
    else
      pollHalted d k (Dmstatus.read d st e).1 (Dmstatus.read d st e).2

/-- Modelled from the spec: `Dmi::haltHart` is missing.  Section 4.5: select the
hart, set `haltreq`, `write()`, then poll `dmstatus.halted` until set or a bound
is reached; report failure if the hart never reports halted.  The result is
`true` for success. -/
def haltHart {σ : Type} (d : IDtm σ) (bound : Nat) (self : Dmi) (h : Nat) (e : Env σ) :
    Bool × Dmi × Env σ :=
  let s1 := selectHart d self h e
  let s2 := s1.1.mDmcontrol.haltreq true s1.2
  let s3 := Dmcontrol.write d s2.1 s2.2
  let p := pollHalted d bound s1.1.mDmstatus s3.2
  (p.1, { s1.1 with mDmcontrol := s3.1, mDmstatus := p.2.1 }, p.2.2)

/-- A transport sets `dmstatus.halted` after the `haltreq` write: in whatever
state, once a value with `haltreq` (bit 31) set is written to `dmcontrol`, the
next read of `dmstatus` has `allhalted` (bit 9) or `anyhalted` (bit 8) set. -/
def HaltsOnHaltreq {σ : Type} (d : IDtm σ) : Prop :=
  ∀ (t : σ) (v : Nat), v.testBit 31 = true →
    ((d.dmiRead (d.dmiWrite t Dmcontrol.DMI_ADDR v).2 Dmstatus.DMI_ADDR).1.testBit 9 = true
      ∨ (d.dmiRead (d.dmiWrite t Dmcontrol.DMI_ADDR v).2 Dmstatus.DMI_ADDR).1.testBit 8 = true)

/-- A transport never sets `dmstatus.halted`: in whatever state, a read of
`dmstatus` has `allhalted` and `anyhalted` clear. -/
def NeverHalts {σ : Type} (d : IDtm σ) : Prop :=
  ∀ (t : σ), (d.dmiRead t Dmstatus.DMI_ADDR).1.testBit 9 = false
    ∧ (d.dmiRead t Dmstatus.DMI_ADDR).1.testBit 8 = false

/-- A test double for the transport: its state says whether a halt has been
requested; a write to `dmcontrol` with `haltreq` set requests it, and from then
on `dmstatus` reads with `allhalted` and `anyhalted` set. -/
def haltingDtm : IDtm Bool where
  dmiRead := fun t address =>
    (if address = Dmstatus.DMI_ADDR then (if t then 0x00000300 else 0) else 0, t)
  dmiWrite := fun t address value =>
    (0, if address = Dmcontrol.DMI_ADDR then (t || value.testBit 31) else t)
  reset := fun _ => false

/-- The number of `dmiRead (address)` calls in a trace. -/
def readsOf (address : Nat) (trace : List DtmOp) : Nat :=
  trace.count (DtmOp.dmiRead address)

/-- The register objects as the constructor leaves them when every
`RESET_VALUE` is 0. -/
def fresh : Dmi := (Dmi.construct ⟨0, 0, 0, 0, 0, 0, 0, 0, 0⟩ (⟨(), [], []⟩ : Env Unit)).1

/-! ## The abstract command engine -/

/-- The busy bit of the shadow as the Debug Specification defines it:
abstractcs[12]. -/
def Abstractcs.busyBit (self : Abstractcs) : Bool := self.mAbstractcsReg.testBit 12

/-- Modelled from the spec: the polling loop of the abstract command engine is
missing.  Section 4.3 step 4: repeatedly `read()` `abstractcs` until
`busy == false`, bounded by a retry count.  The test of `busy` is the argument
`isBusy`; the result says whether `busy == false` was seen within `bound`
polls. -/
def pollBusyVia {σ : Type} (isBusy : Abstractcs → Bool) (d : IDtm σ) :
    Nat → Abstractcs → Env σ → Bool × Abstractcs × Env σ
  | 0, a, e => (false, a, e)
  | k + 1, a, e =>
    if isBusy (Abstractcs.read d a e).1 then
      pollBusyVia isBusy d k (Abstractcs.read d a e).1 (Abstractcs.read d a e).2
    else
      (true, (Abstractcs.read d a e).1, (Abstractcs.read d a e).2)

/-- How an abstract command ends: completed with `cmderr == NONE`, failed with a
`cmderr` value other than `NONE`, or still busy when the bound was reached. -/
inductive CmdOutcome where
  | done
  | failed (cmderr : Nat)
  | timeout
  deriving DecidableEq, Repr

/-- Modelled from the spec: the abstract command engine (`Dmi::readGpr` and its
siblings) is missing.  Section 4.3 steps 3 to 5: `command.cmdtype = 0`, the
payload `control`, `write()` the `command` register; poll `abstractcs` until not
busy or the bound is reached; read `abstractcs.cmderr` and classify. -/
def issueCommandVia {σ : Type} (isBusy : Abstractcs → Bool) (d : IDtm σ) (bound : Nat)
    (self : Dmi) (control : Nat) (e : Env σ) : CmdOutcome × Dmi × Env σ :=
  let c1 := self.mCommand.cmdtype_set 0 e
  let c2 := c1.1.control_set control c1.2
  let c3 := Command.write d c2.1 c2.2
  let p := pollBusyVia isBusy d bound self.mAbstractcs c3.2
  let s := { self with mCommand := c3.1, mAbstractcs := p.2.1 }
  if p.1 then
    if p.2.1.cmderr = 0 then (CmdOutcome.done, s, p.2.2)
    else (CmdOutcome.failed p.2.1.cmderr, s, p.2.2)
  else (CmdOutcome.timeout, s, p.2.2)

/-- The engine as it runs on the source: `busy` is read with
`Abstractcs::busy ()`. -/
def issueCommand {σ : Type} (d : IDtm σ) (bound : Nat) (self : Dmi) (control : Nat)
    (e : Env σ) : CmdOutcome × Dmi × Env σ :=
  issueCommandVia Abstractcs.busy d bound self control e

/-- A test double for the transport: its state counts the reads of `abstractcs`;
the first `N` of them return a value with the busy bit (12) set, the later ones
a value with it clear; `cmderr` is 0 throughout and `progbufsize` is `p`. -/
def busyDtm (N p : Nat) : IDtm Nat where
  dmiRead := fun t address =>
    if address = Abstractcs.DMI_ADDR then
      ((p <<< 24) ||| (if t < N then 0x00001000 else 0), t + 1)
    else (0, t)
  dmiWrite := fun t _ _ => (0, t)
  reset := fun _ => 0

/-! ## The system bus engine -/

/-- Modelled from the spec: `Dmi.h` is missing; the `sberror` value `NONE` of
the classification of section 4.4 (0 in the Debug Specification 0.13). -/
def Sbcs.SBERR_NONE : Nat := 0

/-- What a block transfer returns: the `sberror` value found after the last unit
handled, `SBERR_NONE` when every unit went through, or the distinct outcome of a
busy poll that reached its bound. -/
inductive SbResult where
  | sberror (val : Nat)
  | timeout
  deriving DecidableEq, Repr

/-- Modelled from the spec: the polling loop of the system bus engine is
missing.  Section 4.4 step 3: poll `sbcs.sbbusy` until clear, bounded.  One poll
is one `read ()` of `sbcs` followed by `sbbusy ()`. -/
def pollSbbusy {σ : Type} (d : IDtm σ) : Nat → Sbcs → Env σ → Bool × Sbcs × Env σ
  | 0, sb, e => (false, sb, e)
  | k + 1, sb, e =>
    if (Sbcs.read d sb e).1.sbbusy then
      pollSbbusy d k (Sbcs.read d sb e).1 (Sbcs.read d sb e).2
    else
      (true, (Sbcs.read d sb e).1, (Sbcs.read d sb e).2)

/-- Modelled from the spec: the unit loop of `Dmi::writeMem` is missing.  Section
4.4 steps 3 to 5, write path, one 8-bit unit after the other: poll `sbcs.sbbusy`,
write the unit to `sbdata0`, then check `sbcs.sberror`; a value other than
`NONE` ends the transfer and is returned with the count of units written before
it.  The reading of `sberror` from the `sbcs` object is the argument
`sberrorOf`. -/
def writeUnitsVia {σ : Type} (sberrorOf : Sbcs → Nat) (d : IDtm σ) (bound : Nat) :
    List Nat → Nat → Dmi → Env σ → SbResult × Nat × Dmi × Env σ
  | [], count, self, e => (SbResult.sberror Sbcs.SBERR_NONE, count, self, e)
  | u :: us, count, self, e =>
    let p := pollSbbusy d bound self.mSbcs e
    if p.1 then
      let w1 := self.mSbdata.sbdata_set 0 u p.2.2
      let w2 := Sbdata.write d w1.1 0 w1.2
      let c := Sbcs.read d p.2.1 w2.2
      let s := { self with mSbcs := c.1, mSbdata := w2.1 }
      if sberrorOf c.1 = Sbcs.SBERR_NONE then
        writeUnitsVia sberrorOf d bound us (count + 1) s c.2
      else
        (SbResult.sberror (sberrorOf c.1), count, s, c.2)
    else
      (SbResult.timeout, count, { self with mSbcs := p.2.1 }, p.2.2)

/-- Modelled from the spec: `Dmi::writeMem` is missing.  Section 4.4, write
path: configure `sbcs.sbaccess` (8-bit units) and `sbautoincrement` and `write()`
it, write the target address into `sbaddress0`, then transfer the first `nBytes`
octets of `buf` unit by unit.  The result carries the count of units written. -/
def writeMemVia {σ : Type} (sberrorOf : Sbcs → Nat) (d : IDtm σ) (bound : Nat) (self : Dmi)
    (addr nBytes : Nat) (buf : List Nat) (e : Env σ) : SbResult × Nat × Dmi × Env σ :=
  let a1 := self.mSbcs.sbaccess_set 0 e
  let a2 := a1.1.sbautoincrement_set true a1.2
  let a3 := a2.1.sbreadonaddr_set false a2.2
  let a4 := a3.1.sbreadondata_set false a3.2
  let a5 := Sbcs.write d a4.1 a4.2
  let b1 := self.mSbaddress.sbaddress_set 0 (addr % 2 ^ 32) a5.2
  let b2 := Sbaddress.write d b1.1 0 b1.2
  writeUnitsVia sberrorOf d bound (buf.take nBytes) 0
    { self with mSbcs := a5.1, mSbaddress := b2.1 } b2.2

/-- Modelled from the spec: the unit loop of `Dmi::readMem` is missing.  Section
4.4 steps 3 to 5, read path, one 8-bit unit after the other: poll `sbcs.sbbusy`,
fetch the unit from `sbdata0`, then check `sbcs.sberror`; a value other than
`NONE` ends the transfer and is returned with the units fetched before it. -/
def readUnitsVia {σ : Type} (sberrorOf : Sbcs → Nat) (d : IDtm σ) (bound : Nat) :
    Nat → List Nat → Dmi → Env σ → SbResult × List Nat × Dmi × Env σ
  | 0, got, self, e => (SbResult.sberror Sbcs.SBERR_NONE, got, self, e)
  | n + 1, got, self, e =>
    let p := pollSbbusy d bound self.mSbcs e
    if p.1 then
      let r := Sbdata.read d self.mSbdata 0 p.2.2
      let g := r.1.sbdata 0 r.2
      let c := Sbcs.read d p.2.1 g.2
      let s := { self with mSbcs := c.1, mSbdata := r.1 }
      if sberrorOf c.1 = Sbcs.SBERR_NONE then
        readUnitsVia sberrorOf d bound n (got ++ [toU8 g.1]) s c.2
      else
        (SbResult.sberror (sberrorOf c.1), got, s, c.2)
    else
      (SbResult.timeout, got, { self with mSbcs := p.2.1 }, p.2.2)

/-- Modelled from the spec: `Dmi::readMem` is missing.  Section 4.4, read path:
configure `sbcs.sbaccess` (8-bit units), `sbautoincrement`, `sbreadonaddr` and
`sbreadondata` and `write()` it, write the target address into `sbaddress0`,
then fetch `nBytes` units.  The result carries the octets fetched. -/
def readMemVia {σ : Type} (sberrorOf : Sbcs → Nat) (d : IDtm σ) (bound : Nat) (self : Dmi)
    (addr nBytes : Nat) (e : Env σ) : SbResult × List Nat × Dmi × Env σ :=
  let a1 := self.mSbcs.sbaccess_set 0 e
  let a2 := a1.1.sbautoincrement_set true a1.2
  let a3 := a2.1.sbreadonaddr_set true a2.2
  let a4 := a3.1.sbreadondata_set true a3.2
  let a5 := Sbcs.write d a4.1 a4.2
  let b1 := self.mSbaddress.sbaddress_set 0 (addr % 2 ^ 32) a5.2
  let b2 := Sbaddress.write d b1.1 0 b1.2
  readUnitsVia sberrorOf d bound nBytes []
    { self with mSbcs := a5.1, mSbaddress := b2.1 } b2.2

/-- The write path as it runs on the source: `sberror` is read with
`Sbcs::sberror ()`. -/
def writeMem {σ : Type} (d : IDtm σ) (bound : Nat) (self : Dmi) (addr nBytes : Nat)
    (buf : List Nat) (e : Env σ) : SbResult × Nat × Dmi × Env σ :=
  writeMemVia Sbcs.sberror d bound self addr nBytes buf e

/-- The read path as it runs on the source: `sberror` is read with
`Sbcs::sberror ()`. -/
def readMem {σ : Type} (d : IDtm σ) (bound : Nat) (self : Dmi) (addr nBytes : Nat)
    (e : Env σ) : SbResult × List Nat × Dmi × Env σ :=
  readMemVia Sbcs.sberror d bound self addr nBytes e

/-- The state of the test double `busDtm`: the `sbcs` and `sbaddress0` registers
of the hardware and the memory behind the bus, one octet per address. -/
structure BusState where
  sbcs : Nat
  sbaddress0 : Nat
  mem : Nat → Nat

/-- A test double for the transport: a bus that round-trips writes and reports
no error.  `sbcs` keeps the configuration bits written to it and never shows
`sbbusy`, `sbbusyerror` or `sberror`; a write of `sbdata0` stores the octet at
`sbaddress0`, a read of `sbdata0` returns the octet there, and both move
`sbaddress0` on by one when `sbautoincrement` (bit 16) is set. -/
def busDtm : IDtm BusState where
  dmiRead := fun t address =>
    if address = Sbcs.DMI_ADDR then (t.sbcs, t)
    else if address = Sbaddress.DMI_ADDR 0 then (t.sbaddress0, t)
    else if address = Sbdata.DMI_ADDR 0 then
      (t.mem t.sbaddress0,
       { t with sbaddress0 := if t.sbcs.testBit 16 then t.sbaddress0 + 1 else t.sbaddress0 })
    else (0, t)
  dmiWrite := fun t address value =>
    if address = Sbcs.DMI_ADDR then (t.sbcs, { t with sbcs := value &&& 0x001f8000 })
    else if address = Sbaddress.DMI_ADDR 0 then (t.sbaddress0, { t with sbaddress0 := value })
    else if address = Sbdata.DMI_ADDR 0 then
      (value,
       { t with mem := Function.update t.mem t.sbaddress0 (value % 256)
                sbaddress0 := if t.sbcs.testBit 16 then t.sbaddress0 + 1 else t.sbaddress0 })
    else (0, t)
  reset := fun t => t

/-- The `sberror` field of the shadow as the Debug Specification defines it:
sbcs[14:12]. -/
def Sbcs.sberrorBits (self : Sbcs) : Nat := Sbcs.sberrorField self.mSbcsReg

/-- The state of `busDtm` before any access: every register and every octet of
memory is 0. -/
def busStart : Env BusState := ⟨⟨0, 0, fun _ => 0⟩, [], []⟩

/-! ## Stream output of `abstractcs` -/

/-- The text of `oss << hex << setw (w) << setfill ('0') << x` for an unsigned
`x`: its lower-case hexadecimal digits, filled on the left with `0` up to `w`
characters. -/
def hexFill (w x : Nat) : String :=
  String.mk (List.replicate (w - (Nat.toDigits 16 x).length) '0' ++ Nat.toDigits 16 x)

namespace Abstractcs

/-- Modelled from the spec: `Dmi.h` is missing; `datacount` is
abstractcs[3:0]. -/
def DATACOUNT_MASK : Nat := 0x0000000f

/-- Modelled from the spec: `Dmi.h` is missing; bit offset of `datacount`. -/
def DATACOUNT_OFFSET : Nat := 0

/-- The getter `uint8_t Dmi::Abstractcs::datacount () const`. -/
def datacount (self : Abstractcs) : Nat :=
  toU8 ((self.mAbstractcsReg &&& DATACOUNT_MASK) >>> DATACOUNT_OFFSET)

/-- The conditional expression of the output operator that names a `cmderr`
value. -/
def cmderrText (c : Nat) : String :=
  if c = 0 then "none"
  else if c = 1 then "busy"
  else if c = 2 then "not supported"
  else if c = 3 then "exception"
  else if c = 4 then "halt/resume"
  else if c = 5 then "bus"
  else if c = 7 then "other"
  else "INVALID"

/-- The output operator
`operator<< (ostream &s, const unique_ptr<Dmi::Abstractcs> &p)`: the text
appended to the stream.  The numbers of the field list are written in decimal,
the plain value in eight hexadecimal digits. -/
def output (p : Abstractcs) : String :=
  if p.mPrettyPrint then
    "[ progbufsize = " ++ toString p.progbufsize
      ++ ", busy = " ++ (if p.busy then "true" else "false")
      ++ ", cmderr = " ++ toString p.cmderr ++ " ("
      ++ cmderrText p.cmderr
      ++ ")"
      ++ ", datacount = 0x" ++ toString p.datacount
      ++ " ]"
  else
    hexFill 8 p.mAbstractcsReg

end Abstractcs

/-! ## Stream output of the other registers -/

/-- The part of a `std::ostringstream` the output operators use: the text
written so far, the field width and the fill character.  The width set by
`setw` holds for the next insertion only: every insertion of a number or of a
string sets it back to 0. -/
structure OStringStream where
  str : String
  width : Nat
  fill : Char

namespace OStringStream

/-- A stream as `std::ostringstream oss;` creates it. -/
def empty : OStringStream := ⟨"", 0, ' '⟩

/-- The manipulator `setw (n)`. -/
def setw (o : OStringStream) (n : Nat) : OStringStream := { o with width := n }

/-- The manipulator `setfill (c)`. -/
def setfill (o : OStringStream) (c : Char) : OStringStream := { o with fill := c }

/-- The characters of one insertion: `cs`, filled on the left up to the field
width. -/
def field (o : OStringStream) (cs : List Char) : String :=
  String.mk (List.replicate (o.width - cs.length) o.fill ++ cs)

/-- The insertion `oss << s` of a string. -/
def putStr (o : OStringStream) (s : String) : OStringStream :=
  { o with str := o.str ++ o.field s.data, width := 0 }

/-- The insertion `oss << x` of an unsigned number while `hex` is in force. -/
def putHex (o : OStringStream) (x : Nat) : OStringStream :=
  { o with str := o.str ++ o.field (Nat.toDigits 16 x), width := 0 }

/-- The loop `for (size_t i = 0; i < NUM_REGS; i++)` of the output operator of a
register array, with `k` iterations left: insert `reg[i]`, then `", "` unless
`i` is the last index. -/
def putRegs (NUM_REGS : Nat) (reg : Nat → Nat) : Nat → OStringStream → OStringStream
  | 0, o => o
  | k + 1, o =>
    let i := NUM_REGS - (k + 1)
    let o1 := o.putHex (reg i)
    let o2 := if i ≠ NUM_REGS - 1 then o1.putStr ", " else o1
    putRegs NUM_REGS reg k o2

/-- The body shared by the output operators of the register arrays:
`oss << "[" << hex << setw (8) << setfill ('0');`, the loop over the slots, then
`oss << "]";`; the result is `oss.str ()`. -/
def putArray (NUM_REGS : Nat) (reg : Nat → Nat) : String :=
  ((putRegs NUM_REGS reg NUM_REGS
      (((empty.putStr "[").setw 8).setfill '0')).putStr "]").str

end OStringStream

/-- The slot `n` of an array of `N` registers, read by a loop index. -/
def slot {N : Nat} (reg : Fin N → Nat) (n : Nat) : Nat :=
  if h : n < N then reg ⟨n, h⟩ else 0

/-- The output operator
`operator<< (ostream &s, const unique_ptr<Dmi::Data> &p)`. -/
def Data.output (p : Data) : String :=
  OStringStream.putArray Data.NUM_REGS (slot p.mDataReg)

/-- The output operator
`operator<< (ostream &s, const unique_ptr<Dmi::Haltsum> &p)`. -/
def Haltsum.output (p : Haltsum) : String :=
  OStringStream.putArray Haltsum.NUM_REGS (slot p.mHaltsumReg)

/-- The output operator
`operator<< (ostream &s, const unique_ptr<Dmi::Confstrptr> &p)`. -/
def Confstrptr.output (p : Confstrptr) : String :=
  OStringStream.putArray Confstrptr.NUM_REGS (slot p.mConfstrptrReg)

/-- The output operator
`operator<< (ostream &s, const unique_ptr<Dmi::Progbuf> &p)`. -/
def Progbuf.output (p : Progbuf) : String :=
  OStringStream.putArray Progbuf.NUM_REGS (slot p.mProgbufReg)

/-- The output operator
`operator<< (ostream &s, const unique_ptr<Dmi::Sbaddress> &p)`. -/
def Sbaddress.output (p : Sbaddress) : String :=
  OStringStream.putArray Sbaddress.NUM_REGS (slot p.mSbaddressReg)

/-- The output operator
`operator<< (ostream &s, const unique_ptr<Dmi::Sbdata> &p)`. -/
def Sbdata.output (p : Sbdata) : String :=
  OStringStream.putArray Sbdata.NUM_REGS (slot p.mSbdataReg)

/-- The output operator
`operator<< (ostream &s, const unique_ptr<Dmi::Hawindow> &p)`:
`oss << hex << setw (8) << setfill ('0') << p->mHawindowReg;`. -/
def Hawindow.output (p : Hawindow) : String :=
  (((OStringStream.empty.setw 8).setfill '0').putHex p.mHawindowReg).str

/-- The text `b ? "true" : "false"` of the output operators. -/
def boolText (b : Bool) : String := if b then "true" else "false"

namespace Sbcs

/-- Modelled from the spec: `Dmi.h` is missing; `sbaccess128` is sbcs[4]. -/
def SBACCESS128_MASK : Nat := 0x00000010

/-- Modelled from the spec: `Dmi.h` is missing; `sbaccess64` is sbcs[3]. -/
def SBACCESS64_MASK : Nat := 0x00000008

/-- Modelled from the spec: `Dmi.h` is missing; `sbaccess32` is sbcs[2]. -/
def SBACCESS32_MASK : Nat := 0x00000004

/-- Modelled from the spec: `Dmi.h` is missing; `sbaccess16` is sbcs[1]. -/
def SBACCESS16_MASK : Nat := 0x00000002

/-- Modelled from the spec: `Dmi.h` is missing; `sbaccess8` is sbcs[0]. -/
def SBACCESS8_MASK : Nat := 0x00000001

/-- The method `void Dmi::Sbcs::prettyPrint (const bool flag)`. -/
def prettyPrint (self : Sbcs) (flag : Bool) : Sbcs := { self with mPrettyPrint := flag }

/-- The getter `bool Dmi::Sbcs::sbbusyerror () const`. -/
def sbbusyerror (self : Sbcs) : Bool :=
  (self.mSbcsReg &&& SBBUSYERROR_MASK) != 0

/-- The getter `bool Dmi::Sbcs::sbreadonaddr () const`. -/
def sbreadonaddr (self : Sbcs) : Bool :=
  (self.mSbcsReg &&& SBREADONADDR_MASK) != 0

/-- The getter `bool Dmi::Sbcs::sbautoincrement () const`. -/
def sbautoincrement (self : Sbcs) : Bool :=
  (self.mSbcsReg &&& SBAUTOINCREMENT_MASK) != 0

/-- The getter `bool Dmi::Sbcs::sbreadondata () const`. -/
def sbreadondata (self : Sbcs) : Bool :=
  (self.mSbcsReg &&& SBREADONDATA_MASK) != 0

/-- The getter `bool Dmi::Sbcs::sbaccess128 () const`. -/
def sbaccess128 (self : Sbcs) : Bool :=
  (self.mSbcsReg &&& SBACCESS128_MASK) != 0

/-- The getter `bool Dmi::Sbcs::sbaccess64 () const`. -/
def sbaccess64 (self : Sbcs) : Bool :=
  (self.mSbcsReg &&& SBACCESS64_MASK) != 0

/-- The getter `bool Dmi::Sbcs::sbaccess32 () const`. -/
def sbaccess32 (self : Sbcs) : Bool :=
  (self.mSbcsReg &&& SBACCESS32_MASK) != 0

/-- The getter `bool Dmi::Sbcs::sbaccess16 () const`. -/
def sbaccess16 (self : Sbcs) : Bool :=
  (self.mSbcsReg &&& SBACCESS16_MASK) != 0

/-- The getter `bool Dmi::Sbcs::sbaccess8 () const`. -/
def sbaccess8 (self : Sbcs) : Bool :=
  (self.mSbcsReg &&& SBACCESS8_MASK) != 0

/-- The conditional expression of the output operator that names an
`sbversion` value. -/
def sbversionText (v : Nat) : String :=
  if v = 0 then "pre 1 Jan 2019"
  else if v = 1 then "debug spec 0.13.2"
  else "RESERVED"

/-- The conditional expression of the output operator that names an `sbaccess`
value. -/
def sbaccessText (a : Nat) : String :=
  if a = 0 then "8-bit"
  else if a = 1 then "16-bit"
  else if a = 2 then "32-bit"
  else if a = 3 then "64-bit"
  else if a = 4 then "128-bit"
  else "INVALID"

/-- The conditional expression of the output operator that names an `sberror`
value. -/
def sberrorText (c : Nat) : String :=
  if c = 0 then "none"
  else if c = 1 then "timeout"
  else if c = 2 then "bad address"
  else if c = 3 then "alignment"
  else if c = 4 then "bad size"
  else if c = 7 then "other"
  else "INVALID"

/-- The output operator
`operator<< (ostream &s, const unique_ptr<Dmi::Sbcs> &p)`: the text appended to
the stream.  The numbers of the field list go to the stream as `uint16_t`, in
decimal; the plain value is written in eight hexadecimal digits. -/
def output (p : Sbcs) : String :=
  if p.mPrettyPrint then
    "[ sbversion = " ++ toString (toU16 p.sbversion) ++ " ("
      ++ sbversionText p.sbversion
      ++ ")"
      ++ ", sbbusyerror = " ++ boolText p.sbbusyerror
      ++ ", sbbusy = " ++ boolText p.sbbusy
      ++ ", sbreadonaddr = " ++ boolText p.sbreadonaddr
      ++ ", sbaccess = " ++ toString (toU16 p.sbaccess) ++ " ("
      ++ sbaccessText p.sbaccess
      ++ ")"
      ++ ", sbautoincrement = " ++ boolText p.sbautoincrement
      ++ ", sbreadondata = " ++ boolText p.sbreadondata
      ++ ", sberror = " ++ toString (toU16 p.sberror) ++ " ("
      ++ sberrorText p.sberror
      ++ ")"
      ++ ", sbasize = " ++ toString (toU16 p.sbasize)
      ++ ", sbaccess128 = " ++ boolText p.sbaccess128
      ++ ", sbaccess64 = " ++ boolText p.sbaccess64
      ++ ", sbaccess32 = " ++ boolText p.sbaccess32
      ++ ", sbaccess16 = " ++ boolText p.sbaccess16
      ++ ", sbaccess8 = " ++ boolText p.sbaccess8
      ++ " ]"
  else
    (((OStringStream.empty.setw 8).setfill '0').putHex p.mSbcsReg).str

end Sbcs

namespace Dmstatus

/-- Modelled from the spec: `Dmi.h` is missing; `impebreak` is dmstatus[22]. -/
def IMPEBREAK_MASK : Nat := 0x00400000

/-- Modelled from the spec: `Dmi.h` is missing; `allhavereset` is
dmstatus[19]. -/
def ALLHAVERESET_MASK : Nat := 0x00080000

/-- Modelled from the spec: `Dmi.h` is missing; `anyhavereset` is
dmstatus[18]. -/
def ANYHAVERESET_MASK : Nat := 0x00040000

/-- Modelled from the spec: `Dmi.h` is missing; `allnonexistent` is
dmstatus[15]. -/
def ALLNONEXISTENT_MASK : Nat := 0x00008000

/-- Modelled from the spec: `Dmi.h` is missing; `anynonexistent` is
dmstatus[14]. -/
def ANYNONEXISTENT_MASK : Nat := 0x00004000

/-- Modelled from the spec: `Dmi.h` is missing; `allunavail` is dmstatus[13]. -/
def ALLUNAVAIL_MASK : Nat := 0x00002000

/-- Modelled from the spec: `Dmi.h` is missing; `anyunavail` is dmstatus[12]. -/
def ANYUNAVAIL_MASK : Nat := 0x00001000

/-- Modelled from the spec: `Dmi.h` is missing; `allrunning` is dmstatus[11]. -/
def ALLRUNNING_MASK : Nat := 0x00000800

/-- Modelled from the spec: `Dmi.h` is missing; `anyrunning` is dmstatus[10]. -/
def ANYRUNNING_MASK : Nat := 0x00000400

/-- Modelled from the spec: `Dmi.h` is missing; `authenticated` is
dmstatus[7]. -/
def AUTHENTICATED_MASK : Nat := 0x00000080

/-- Modelled from the spec: `Dmi.h` is missing; `authbusy` is dmstatus[6]. -/
def AUTHBUSY_MASK : Nat := 0x00000040

/-- Modelled from the spec: `Dmi.h` is missing; `hasresethaltreq` is
dmstatus[5]. -/
def HASRESETHALTREQ_MASK : Nat := 0x00000020

/-- Modelled from the spec: `Dmi.h` is missing; `confstrptrvalid` is
dmstatus[4]. -/
def CONFSTRPTRVALID_MASK : Nat := 0x00000010

/-- Modelled from the spec: `Dmi.h` is missing; `version` is dmstatus[3:0]. -/
def VERSION_MASK : Nat := 0x0000000f

/-- Modelled from the spec: `Dmi.h` is missing; bit offset of `version`. -/
def VERSION_OFFSET : Nat := 0

/-- The method `void Dmi::Dmstatus::prettyPrint (const bool flag)`. -/
def prettyPrint (self : Dmstatus) (flag : Bool) : Dmstatus :=
  { self with mPrettyPrint := flag }

/-- The getter `bool Dmi::Dmstatus::impebreak () const`. -/
def impebreak (self : Dmstatus) : Bool :=
  (self.mDmstatusReg &&& IMPEBREAK_MASK) != 0

/-- The getter `bool Dmi::Dmstatus::havereset () const`. -/
def havereset (self : Dmstatus) : Bool :=
  (self.mDmstatusReg &&& (ALLHAVERESET_MASK ||| ANYHAVERESET_MASK)) != 0

/-- The getter `bool Dmi::Dmstatus::nonexistent () const`. -/
def nonexistent (self : Dmstatus) : Bool :=
  (self.mDmstatusReg &&& (ALLNONEXISTENT_MASK ||| ANYNONEXISTENT_MASK)) != 0

/-- The getter `bool Dmi::Dmstatus::unavail () const`. -/
def unavail (self : Dmstatus) : Bool :=
  (self.mDmstatusReg &&& (ALLUNAVAIL_MASK ||| ANYUNAVAIL_MASK)) != 0

/-- The getter `bool Dmi::Dmstatus::running () const`. -/
def running (self : Dmstatus) : Bool :=
  (self.mDmstatusReg &&& (ALLRUNNING_MASK ||| ANYRUNNING_MASK)) != 0

/-- The getter `bool Dmi::Dmstatus::authenticated () const`. -/
def authenticated (self : Dmstatus) : Bool :=
  (self.mDmstatusReg &&& AUTHENTICATED_MASK) != 0

/-- The getter `bool Dmi::Dmstatus::authbusy () const`. -/
def authbusy (self : Dmstatus) : Bool :=
  (self.mDmstatusReg &&& AUTHBUSY_MASK) != 0

/-- The getter `bool Dmi::Dmstatus::hasresethaltreq () const`. -/
def hasresethaltreq (self : Dmstatus) : Bool :=
  (self.mDmstatusReg &&& HASRESETHALTREQ_MASK) != 0

/-- The getter `bool Dmi::Dmstatus::confstrptrvalid () const`. -/
def confstrptrvalid (self : Dmstatus) : Bool :=
  (self.mDmstatusReg &&& CONFSTRPTRVALID_MASK) != 0

/-- The getter `uint8_t Dmi::Dmstatus::version () const`. -/
def version (self : Dmstatus) : Nat :=
  toU8 ((self.mDmstatusReg &&& VERSION_MASK) >>> VERSION_OFFSET)

/-- The output operator
`operator<< (ostream &s, const unique_ptr<Dmi::Dmstatus> &p)`: the text
appended to the stream. -/
def output (p : Dmstatus) : String :=
  if p.mPrettyPrint then
    "[ impebreak = " ++ boolText p.impebreak
      ++ ", havereset = " ++ boolText p.havereset
      ++ ", resumeack = " ++ boolText p.resumeack
      ++ ", nonexistent = " ++ boolText p.nonexistent
      ++ ", unavail = " ++ boolText p.unavail
      ++ ", running = " ++ boolText p.running
      ++ ", halted = " ++ boolText p.halted
      ++ ", authenticated = " ++ boolText p.authenticated
      ++ ", authbusy = " ++ boolText p.authbusy
      ++ ", hasresethaltreq = " ++ boolText p.hasresethaltreq
      ++ ", confstrptrvalid = " ++ boolText p.confstrptrvalid
      ++ ", version = " ++ toString (toU16 p.version)
      ++ " ]"
  else
    (((OStringStream.empty.setw 8).setfill '0').putHex p.mDmstatusReg).str

end Dmstatus

end Dmi

/-! # The JTAG test suite (`src/target/TestJtag.cpp`)

Text sent to `std::cout` is appended to a string that is passed along.  The
headers `TestJtag.h` and `Utils.h` are not among the sources.
-/

/-- The data members of `TestJtag` the methods below use.  `mDmstatus`,
`mHartinfo`, `mAbstractcs` and `mSbcs` are references to the register objects of
`mDmi`, so they are the components of `mDmi`. -/
structure TestJtag where
  mDmi : Dmi
  mNumHarts : Nat

namespace TestJtag

/-- The method `void TestJtag::haltHart (uint32_t h)`.  `Dmi::haltHart` is not
among the sources: it is the argument `dmiHaltHart`, called with the object
`mDmi`, the hart index and the environment. -/
def haltHart {σ : Type} (dmiHaltHart : Dmi → Nat → Env σ → Dmi × Env σ) (d : IDtm σ)
    (self : TestJtag) (h : Nat) (cout : String) (e : Env σ) : TestJtag × String × Env σ :=
  let s1 := dmiHaltHart self.mDmi 0 e
  let r := Dmi.Dmstatus.read d s1.1.mDmstatus s1.2
  if !r.1.halted then
    let st1 := r.1.prettyPrint false
    let c1 := cout ++ "Hart " ++ toString h ++ " failed to halt, dmstatus: 0x" ++ st1.output
    let st2 := st1.prettyPrint true
    let c2 := c1 ++ " " ++ st2.output ++ "\n"
    ({ self with mDmi := { s1.1 with mDmstatus := st2 } }, c2, r.2)
  else
    ({ self with mDmi := { s1.1 with mDmstatus := r.1 } }, cout, r.2)

/-- The table `static const char *regName[]` of `TestJtag::gprAbiName`. -/
def gprRegName : List String :=
  [ "zero", "ra", "sp", "gp", "tp",  "t0",  "t1", "t2", "s0/fp", "s1", "a0",
    "a1",   "a2", "a2", "a4", "a5",  "a6",  "a7", "s2", "s3",    "s4", "s5",
    "s6",   "s7", "s8", "s9", "s10", "s11", "t3", "t4", "t5",    "t6" ]

/-- The method `const char *TestJtag::gprAbiName (size_t regno)`. -/
def gprAbiName (regno : Nat) : String :=
  let numRegno := gprRegName.length
  if h : regno < numRegno then gprRegName.get ⟨regno, h⟩ else "(unknown)"

/-- The table `static const char *regName[]` of `TestJtag::fprAbiName`. -/
def fprRegName : List String :=
  [ "ft0", "ft1", "ft2",  "ft3",  "ft4", "ft5", "ft6",  "ft6",
    "fs0", "fs1", "fa0",  "fa1",  "fa2", "fa3", "fa4",  "fa5",
    "fa6", "fa7", "fs2",  "fs3",  "fs4", "fs5", "fs6",  "fs7",
    "fs8", "fs9", "fs10", "fs11", "ft8", "ft9", "ft10", "ft11" ]

/-- The method `const char *TestJtag::fprAbiName (size_t regno)`. -/
def fprAbiName (regno : Nat) : String :=
  let numRegno := fprRegName.length
  if h : regno < numRegno then fprRegName.get ⟨regno, h⟩ else "(unknown)"

/-- The names of the integer registers `x0` to `x31` in the RISC-V calling
convention: zero, ra, sp, gp, tp, t0-t2, s0/fp, s1, a0-a7, s2-s11, t3-t6.  The
reference `gprAbiName` is compared with. -/
def abiGprNames : List String :=
  ["zero", "ra", "sp", "gp", "tp", "t0", "t1", "t2", "s0/fp", "s1",
   "a0", "a1", "a2", "a3", "a4", "a5", "a6", "a7",
   "s2", "s3", "s4", "s5", "s6", "s7", "s8", "s9", "s10", "s11",
   "t3", "t4", "t5", "t6"]

/-- The names of the floating point registers `f0` to `f31` in the RISC-V
calling convention: ft0-ft7, fs0, fs1, fa0-fa7, fs2-fs11, ft8-ft11.  The
reference `fprAbiName` is compared with. -/
def abiFprNames : List String :=
  ["ft0", "ft1", "ft2", "ft3", "ft4", "ft5", "ft6", "ft7", "fs0", "fs1",
   "fa0", "fa1", "fa2", "fa3", "fa4", "fa5", "fa6", "fa7",
   "fs2", "fs3", "fs4", "fs5", "fs6", "fs7", "fs8", "fs9", "fs10", "fs11",
   "ft8", "ft9", "ft10", "ft11"]

/-- The two `uint32_t` arguments `baseAddr` and `len` of one call of
`TestJtag::testMemBlock`. -/
structure MemBlock where
  baseAddr : Nat
  len : Nat
  deriving DecidableEq, Repr

/-- The method `void TestJtag::testMem (const char *region, uint32_t baseAddr,
uint32_t len, size_t maxBlock, bool readOnly)`: the blocks it hands to
`testMemBlock`, in the order of the calls.  `Utils::rand` is declared in
`Utils.h`, which is missing: the result of its `k`-th call in this method, made
with the argument `n`, is `rand k n`.  `size_t` is taken to have 64 bits; the
arguments of `testMemBlock` are converted to `uint32_t`. -/
def testMem (rand : Nat → Nat → Nat) (baseAddr len maxBlock : Nat) : List MemBlock :=
  let b1 : MemBlock := ⟨baseAddr, (1 + rand 0 maxBlock) % 2 ^ 32⟩
  let midBlockStart :=
    (baseAddr + maxBlock + rand 1 ((len + 2 ^ 64 - maxBlock) % 2 ^ 64)) % 2 ^ 32
  let b2 : MemBlock := ⟨midBlockStart, (1 + rand 2 maxBlock) % 2 ^ 32⟩
  let endBlockLen := rand 3 maxBlock % 2 ^ 32
  let b3 : MemBlock := ⟨(baseAddr + len + 2 ^ 32 - endBlockLen) % 2 ^ 32, endBlockLen⟩
  [b1, b2, b3]

/-- The contract taken for `Utils::rand`: called with `n > 0` it returns a value
in `[0, n)`. -/
def RandInRange (rand : Nat → Nat → Nat) : Prop := ∀ k n : Nat, 0 < n → rand k n < n

/-- A block is not empty and lies inside the region `[baseAddr, baseAddr + len)`. -/
def MemBlock.Inside (b : MemBlock) (baseAddr len : Nat) : Prop :=
  0 < b.len ∧ baseAddr ≤ b.baseAddr ∧ b.baseAddr + b.len ≤ baseAddr + len

instance (b : MemBlock) (baseAddr len : Nat) : Decidable (b.Inside baseAddr len) :=
  inferInstanceAs (Decidable (0 < b.len ∧ baseAddr ≤ b.baseAddr ∧ b.baseAddr + b.len ≤ baseAddr + len))

end TestJtag

/-! # The target interface (`src/target/TEMPLATE.cpp`)
-/

/-- The data members of `TEMPLATE` (the transport `mDtm` has been moved into
`mDmi`). -/
structure TEMPLATE where
  mDmi : Dmi

namespace TEMPLATE

/-- The method `std::size_t TEMPLATE::read (const uint_addr_t addr, uint8_t
*buffer, const std::size_t size)`: the count returned and the `size` octets
copied to `buffer`.  `Dmi::readMem` is not among the sources: it is the argument
`dmiReadMem`, called with the object `mDmi`, `addr`, `size`, the content of
`buf` and the environment, and giving back its result and the content it leaves
in `buf`.  `fresh` is the content of the storage `new std::uint8_t[size]`
returns, which is not initialised. -/
def read {σ ρ : Type}
    (dmiReadMem : Dmi → Nat → Nat → List Nat → Env σ → ρ × List Nat × Dmi × Env σ)
    (self : TEMPLATE) (addr : Nat) (size : Nat) (fresh : List Nat) (e : Env σ) :
    Nat × List Nat × TEMPLATE × Env σ :=
  let buf := fresh.take size
  let r := dmiReadMem self.mDmi addr size buf e
  let buffer := r.2.1.take size
  (size, buffer, { self with mDmi := r.2.2.1 }, r.2.2.2)

/-- The method `std::size_t TEMPLATE::write (const uint_addr_t addr, const
uint8_t *buffer, const std::size_t size)`: the count returned.
`Dmi::writeMem` is not among the sources: it is the argument `dmiWriteMem`,
called with the object `mDmi`, `addr`, `size`, the content of `buf` and the
environment. -/
def write {σ ρ : Type}
    (dmiWriteMem : Dmi → Nat → Nat → List Nat → Env σ → ρ × Dmi × Env σ)
    (self : TEMPLATE) (addr : Nat) (buffer : List Nat) (size : Nat) (e : Env σ) :
    Nat × TEMPLATE × Env σ :=
  let buf := buffer.take size
  let r := dmiWriteMem self.mDmi addr size buf e
  (size, { self with mDmi := r.2.1 }, r.2.2)

end TEMPLATE

/-! # The command line (`src/target/Args.cpp`)

A `std::string` is a `String` whose characters are its `char` elements; the
header `Args.h` is not among the sources.
-/

/-- What `Args::Args` takes from the `cxxopts::ParseResult`: the value of
`--vcd` (`""` by default) and the counts of the four `--test-*` options. -/
structure ParseResult where
  vcd : String
  testStatus : Nat
  testGprs : Nat
  testFprs : Nat
  testCsrs : Nat

/-- The data members of `Args` that the filename and the test options reach. -/
structure Args where
  mVcd : String
  mTestStatus : Bool
  mTestGprs : Bool
  mTestFprs : Bool
  mTestCsrs : Bool
  deriving DecidableEq, Repr

namespace Args

/-- Whether `k` occurs in `s` at the index `i`. -/
def occursAt (s k : List Char) (i : Nat) : Bool := (s.drop i).take k.length == k

/-- The search of `std::string::rfind`: the highest index not above `i` at which
`k` occurs in `s`. -/
def rfindDown (s k : List Char) : Nat → Option Nat
  | 0 => if occursAt s k 0 then some 0 else none
  | i + 1 => if occursAt s k (i + 1) then some (i + 1) else rfindDown s k i

/-- The library function `s.rfind (k, pos)` of `std::string`: the highest index
not above `pos` at which `k` occurs in `s`; `none` is `npos`. -/
def rfind (s k : String) (pos : Nat) : Option Nat :=
  if k.length ≤ s.length then rfindDown s.data k.data (min pos (s.length - k.length))
  else none

/-- The constructor `Args::Args (int argc, char *argv[])` from the assignment of
`mVcd` on: the options have been parsed into `res` and none of the calls of
`exit` has been taken.  The constructor has no initialiser list: `init` is what
the members hold when the body starts.  The `return` inside the loop over the
keys leaves the constructor. -/
def construct (res : ParseResult) (init : Args) : Args :=
  let mVcd := res.vcd
  if mVcd.length > 4
      ∧ ([".vcd", ".VCD"].any fun k =>
            rfind mVcd k (mVcd.length - k.length) == some (mVcd.length - k.length)) = true then
    { init with mVcd := mVcd }
  else
    { mVcd := if ¬ mVcd.isEmpty then mVcd.append ".vcd" else mVcd
      mTestStatus := decide (res.testStatus > 0)
      mTestGprs := decide (res.testGprs > 0)
      mTestFprs := decide (res.testFprs > 0)
      mTestCsrs := decide (res.testCsrs > 0) }

/-- The getter `std::string Args::vcd () const`. -/
def vcd (self : Args) : String := self.mVcd

/-- The getter `bool Args::testStatus () const`. -/
def testStatus (self : Args) : Bool := self.mTestStatus

/-- The getter `bool Args::testGprs () const`. -/
def testGprs (self : Args) : Bool := self.mTestGprs

/-- The getter `bool Args::testFprs () const`. -/
def testFprs (self : Args) : Bool := self.mTestFprs

/-- The getter `bool Args::testCsrs () const`. -/
def testCsrs (self : Args) : Bool := self.mTestCsrs

end Args

/-! ## Bit-level lemmas -/

theorem testBit_fieldMask (w off i : Nat) :
    (fieldMask w off).testBit i = (decide (off ≤ i) && decide (i < off + w)) := by
  unfold fieldMask
  rw [Nat.testBit_shiftLeft, Nat.testBit_two_pow_sub_one]
  by_cases h : off ≤ i
  · simp [h]; omega
  · simp [h]

theorem testBit_not32 (x i : Nat) :
    (not32 x).testBit i = Bool.xor (decide (i < 32)) (x.testBit i) := by
  have h : (0xFFFFFFFF : Nat) = 2 ^ 32 - 1 := by norm_num
  unfold not32
  rw [h, Nat.testBit_xor, Nat.testBit_two_pow_sub_one]

theorem testBit_shl32 (x k i : Nat) :
    (shl32 x k).testBit i = (decide (i < 32) && (decide (k ≤ i) && x.testBit (i - k))) := by
  unfold shl32
  rw [Nat.testBit_mod_two_pow, Nat.testBit_shiftLeft]

theorem testBit_of_lt_two_pow {x n : Nat} (h : x < 2 ^ n) (i : Nat) :
    x.testBit i = (decide (i < n) && x.testBit i) := by
  conv_lhs => rw [← Nat.mod_eq_of_lt h]
  rw [Nat.testBit_mod_two_pow]

theorem getField_eq (s w off : Nat) :
    (s &&& fieldMask w off) >>> off = (s >>> off) % 2 ^ w := by
  apply Nat.eq_of_testBit_eq
  intro i
  simp only [Nat.testBit_shiftRight, Nat.testBit_and, testBit_fieldMask,
    Nat.testBit_mod_two_pow]
  by_cases h : i < w
  · simp [h]
  · simp [h]

theorem cerr_append_ne {σ : Type} (e : Env σ) (line : String) : (e.warn line).cerr ≠ e.cerr := by
  intro h
  have hl := congrArg List.length h
  simp [Env.warn] at hl

namespace Dmi

/-! ## `Dmcontrol`: the composite `hartsel` field -/

namespace Dmcontrol

theorem HARTSELLO_MASK_eq : HARTSELLO_MASK = fieldMask 10 16 := by decide

theorem HARTSELHI_MASK_eq : HARTSELHI_MASK = fieldMask 10 6 := by decide

theorem testBit_hartsel_set {σ : Type} (self : Dmcontrol) (v : Nat) (e : Env σ) (i : Nat) :
    (self.hartsel_set v e).1.mDmcontrolReg.testBit i =
      if 16 ≤ i ∧ i < 26 then v.testBit (i - 16)
      else if 6 ≤ i ∧ i < 16 then v.testBit (10 + (i - 6))
      else (decide (i < 32) && self.mDmcontrolReg.testBit i) := by
  simp only [hartsel_set, HARTSELLO_MASK_eq, HARTSELHI_MASK_eq, HARTSELLO_OFFSET,
    HARTSELHI_OFFSET, HARTSELLO_SIZE, Nat.testBit_and, Nat.testBit_or, testBit_not32,
    testBit_shl32, testBit_fieldMask, Nat.testBit_shiftRight]
  by_cases h1 : 16 ≤ i <;> by_cases h2 : i < 26 <;> by_cases h3 : 6 ≤ i <;>
    by_cases h4 : i < 16 <;> by_cases h5 : i < 32 <;>
    first | omega | (simp [h1, h2, h3, h4, h5]; try omega)

theorem hartsel_eq (self : Dmcontrol) :
    self.hartsel
      = hartselhiField self.mDmcontrolReg * 2 ^ 10 + hartselloField self.mDmcontrolReg := by
  have hlo : hartselloField self.mDmcontrolReg < 2 ^ 10 := Nat.mod_lt _ (by norm_num)
  have hhi : hartselhiField self.mDmcontrolReg < 2 ^ 10 := Nat.mod_lt _ (by norm_num)
  unfold hartsel
  simp only [HARTSELLO_MASK_eq, HARTSELHI_MASK_eq, HARTSELLO_OFFSET, HARTSELHI_OFFSET,
    HARTSELLO_SIZE, getField_eq, shl32]
  change (hartselhiField self.mDmcontrolReg <<< 10) % 2 ^ 32
    ||| hartselloField self.mDmcontrolReg = _
  rw [Nat.shiftLeft_eq, Nat.mod_eq_of_lt (by omega), Nat.mul_comm,
    ← Nat.mul_add_lt_is_or hlo, Nat.mul_comm]

theorem hartselloField_hartsel_set {σ : Type} (self : Dmcontrol) (v : Nat) (e : Env σ) :
    hartselloField (self.hartsel_set v e).1.mDmcontrolReg = v % 2 ^ 10 := by
  apply Nat.eq_of_testBit_eq
  intro i
  simp only [hartselloField, Nat.testBit_mod_two_pow, Nat.testBit_shiftRight,
    testBit_hartsel_set]
  by_cases h : i < 10
  · have h1 : 16 ≤ 16 + i ∧ 16 + i < 26 := by omega
    simp [h, h1]
  · simp [h]

theorem hartselhiField_hartsel_set {σ : Type} (self : Dmcontrol) (v : Nat) (e : Env σ) :
    hartselhiField (self.hartsel_set v e).1.mDmcontrolReg = (v >>> 10) % 2 ^ 10 := by
  apply Nat.eq_of_testBit_eq
  intro i
  simp only [hartselhiField, Nat.testBit_mod_two_pow, Nat.testBit_shiftRight,
    testBit_hartsel_set]
  by_cases h : i < 10
  · have h1 : ¬ (16 ≤ 6 + i ∧ 6 + i < 26) := by omega
    have h2 : 6 ≤ 6 + i ∧ 6 + i < 16 := by omega
    simp [h, h1, h2]
  · simp [h]

theorem hartsel_hartsel_set {σ : Type} (self : Dmcontrol) (v : Nat) (e : Env σ) :
    (self.hartsel_set v e).1.hartsel = v % 2 ^ 20 := by
  rw [hartsel_eq, hartselloField_hartsel_set, hartselhiField_hartsel_set,
    Nat.shiftRight_eq_div_pow]
  omega

theorem testBit_hartselMax {σ : Type} (self : Dmcontrol) (e : Env σ) (i : Nat) :
    (self.hartselMax e).1.mDmcontrolReg.testBit i =
      (self.mDmcontrolReg.testBit i || (decide (6 ≤ i) && decide (i < 26))) := by
  simp only [hartselMax, HARTSELLO_MASK_eq, HARTSELHI_MASK_eq, Nat.testBit_or,
    testBit_fieldMask]
  by_cases h1 : 16 ≤ i <;> by_cases h2 : i < 26 <;> by_cases h3 : 6 ≤ i <;>
    by_cases h4 : i < 16 <;>
    first | omega | (simp [h1, h2, h3, h4])

theorem hartselloField_hartselMax {σ : Type} (self : Dmcontrol) (e : Env σ) :
    hartselloField (self.hartselMax e).1.mDmcontrolReg = 0x3FF := by
  have h : (0x3FF : Nat) = 2 ^ 10 - 1 := by norm_num
  rw [h]
  apply Nat.eq_of_testBit_eq
  intro i
  simp only [hartselloField, Nat.testBit_mod_two_pow, Nat.testBit_shiftRight,
    testBit_hartselMax, Nat.testBit_two_pow_sub_one]
  by_cases h : i < 10
  · have h1 : 6 ≤ 16 + i := by omega
    have h2 : 16 + i < 26 := by omega
    simp [h, h1, h2]
  · simp [h]

theorem hartselhiField_hartselMax {σ : Type} (self : Dmcontrol) (e : Env σ) :
    hartselhiField (self.hartselMax e).1.mDmcontrolReg = 0x3FF := by
  have h : (0x3FF : Nat) = 2 ^ 10 - 1 := by norm_num
  rw [h]
  apply Nat.eq_of_testBit_eq
  intro i
  simp only [hartselhiField, Nat.testBit_mod_two_pow, Nat.testBit_shiftRight,
    testBit_hartselMax, Nat.testBit_two_pow_sub_one]
  by_cases h : i < 10
  · have h2 : 6 + i < 26 := by omega
    simp [h, h2]
  · simp [h]

end Dmcontrol

open Dmcontrol in
/-- C1: for every `v` below `2^20` and every prior state of the `dmcontrol`
shadow, the setter `hartsel (v)` followed by the getter `hartsel ()` returns
exactly `v`. -/
theorem C1_hartsel_set_then_get {σ : Type} (self : Dmcontrol) (v : Nat) (e : Env σ)
    (hv : v < 2 ^ 20) : (self.hartsel_set v e).1.hartsel = v := by
  rw [hartsel_hartsel_set, Nat.mod_eq_of_lt hv]

/-- C1 at the shadow value `0xFFFFFFFF` and `v = 0xABCDE`. -/
theorem C1_hartsel_set_then_get_witness :
    0xABCDE < 2 ^ 20 ∧
      (Dmcontrol.hartsel_set ⟨false, 0xFFFFFFFF⟩ 0xABCDE (⟨(), [], []⟩ : Env Unit)).1.hartsel
        = 0xABCDE :=
  ⟨by decide, C1_hartsel_set_then_get ⟨false, 0xFFFFFFFF⟩ 0xABCDE ⟨(), [], []⟩ (by decide)⟩

open Dmcontrol in
/-- C2: for every `v` below `2^20` and every prior shadow value, after the
setter `hartsel (v)` the field `hartsello` (dmcontrol[25:16]) is `v & 0x3FF` and
the field `hartselhi` (dmcontrol[15:6]) is `v >> 10`; for `v = 0xFFFFF` both
fields are `0x3FF`. -/
theorem C2_hartsel_set_fields {σ : Type} (self : Dmcontrol) (v : Nat) (e : Env σ)
    (hv : v < 2 ^ 20) :
    hartselloField (self.hartsel_set v e).1.mDmcontrolReg = v &&& 0x3FF
    ∧ hartselhiField (self.hartsel_set v e).1.mDmcontrolReg = v >>> 10
    ∧ hartselloField (self.hartsel_set 0xFFFFF e).1.mDmcontrolReg = 0x3FF
    ∧ hartselhiField (self.hartsel_set 0xFFFFF e).1.mDmcontrolReg = 0x3FF := by
  have hm : v &&& 0x3FF = v % 2 ^ 10 := Nat.and_pow_two_sub_one_eq_mod v 10
  have hd : v >>> 10 < 2 ^ 10 := by
    rw [Nat.shiftRight_eq_div_pow]; omega
  refine ⟨?_, ?_, ?_, ?_⟩
  · rw [hartselloField_hartsel_set, hm]
  · rw [hartselhiField_hartsel_set, Nat.mod_eq_of_lt hd]
  · rw [hartselloField_hartsel_set]; norm_num
  · rw [hartselhiField_hartsel_set]; decide

/-- C2 at the shadow value `0x80000001` and `v = 0x12345`. -/
theorem C2_hartsel_set_fields_witness :
    0x12345 < 2 ^ 20 ∧
      Dmcontrol.hartselloField
        (Dmcontrol.hartsel_set ⟨false, 0x80000001⟩ 0x12345
          (⟨(), [], []⟩ : Env Unit)).1.mDmcontrolReg = 0x12345 &&& 0x3FF :=
  ⟨by decide,
   (C2_hartsel_set_fields ⟨false, 0x80000001⟩ 0x12345 ⟨(), [], []⟩ (by decide)).1⟩

open Dmcontrol in
/-- C3: for every value `v` (also `v ≥ 2^20`) and every prior 32-bit shadow
value, the setter `hartsel (v)` returns, a following `hartsel ()` gives
`v mod 2^20`, every bit outside `hartsello` and `hartselhi` keeps its value, the
transport is not used, and a line goes to `cerr` exactly when `v ≥ 2^20`. -/
theorem C3_hartsel_set_truncates {σ : Type} (self : Dmcontrol) (v : Nat) (e : Env σ)
    (hs : self.mDmcontrolReg < 2 ^ 32) :
    (self.hartsel_set v e).1.hartsel = v % 2 ^ 20
    ∧ (∀ i, ¬ (6 ≤ i ∧ i < 26) →
        (self.hartsel_set v e).1.mDmcontrolReg.testBit i = self.mDmcontrolReg.testBit i)
    ∧ (self.hartsel_set v e).1.mPrettyPrint = self.mPrettyPrint
    ∧ (self.hartsel_set v e).2.dtm = e.dtm
    ∧ (self.hartsel_set v e).2.trace = e.trace
    ∧ ((self.hartsel_set v e).2.cerr ≠ e.cerr ↔ 2 ^ 20 ≤ v) := by
  refine ⟨hartsel_hartsel_set self v e, ?_, rfl, ?_, ?_, ?_⟩
  · intro i hi
    rw [testBit_hartsel_set, testBit_of_lt_two_pow hs i]
    have h1 : ¬ (16 ≤ i ∧ i < 26) := by omega
    have h2 : ¬ (6 ≤ i ∧ i < 16) := by omega
    simp [h1, h2]
  · unfold hartsel_set
    dsimp only
    split <;> rfl
  · unfold hartsel_set
    dsimp only
    split <;> rfl
  · have hc : (1 <<< (HARTSELLO_SIZE + HARTSELHI_SIZE) : Nat) = 2 ^ 20 := by decide
    unfold hartsel_set
    dsimp only
    rw [hc]
    by_cases h : v ≥ 2 ^ 20
    · rw [if_pos h]
      exact ⟨fun _ => h, fun _ => cerr_append_ne e _⟩
    · rw [if_neg h]
      exact ⟨fun hne => absurd rfl hne, fun hge => absurd hge h⟩

/-- C3 at the shadow value `0x80000003` and `v = 0x12345678`. -/
theorem C3_hartsel_set_truncates_witness :
    (0x80000003 : Nat) < 2 ^ 32 ∧
      (Dmcontrol.hartsel_set ⟨false, 0x80000003⟩ 0x12345678
        (⟨(), [], []⟩ : Env Unit)).1.hartsel = 0x12345678 % 2 ^ 20 :=
  ⟨by decide,
   (C3_hartsel_set_truncates ⟨false, 0x80000003⟩ 0x12345678 ⟨(), [], []⟩ (by decide)).1⟩

open Dmcontrol in
/-- C4: for every prior shadow value, after `hartselMax ()` the fields
`hartsello` and `hartselhi` are both all ones, `hartsel ()` returns `0xFFFFF`,
and every bit outside the two fields keeps its value. -/
theorem C4_hartselMax {σ : Type} (self : Dmcontrol) (e : Env σ) :
    hartselloField (self.hartselMax e).1.mDmcontrolReg = 0x3FF
    ∧ hartselhiField (self.hartselMax e).1.mDmcontrolReg = 0x3FF
    ∧ (self.hartselMax e).1.hartsel = 0xFFFFF
    ∧ (∀ i, ¬ (6 ≤ i ∧ i < 26) →
        (self.hartselMax e).1.mDmcontrolReg.testBit i = self.mDmcontrolReg.testBit i)
    ∧ (self.hartselMax e).1.mPrettyPrint = self.mPrettyPrint
    ∧ (self.hartselMax e).2 = e := by
  refine ⟨hartselloField_hartselMax self e, hartselhiField_hartselMax self e, ?_, ?_, rfl, rfl⟩
  · rw [hartsel_eq, hartselloField_hartselMax, hartselhiField_hartselMax]; norm_num
  · intro i hi
    rw [testBit_hartselMax]
    by_cases h1 : 6 ≤ i
    · have h2 : ¬ i < 26 := by omega
      simp [h2]
    · simp [h1]

end Dmi

theorem and_fieldMask_eq_zero_iff (s w off : Nat) :
    s &&& fieldMask w off = 0 ↔ (s >>> off) % 2 ^ w = 0 := by
  rw [← getField_eq]
  constructor
  · intro h
    rw [h, Nat.zero_shiftRight]
  · intro h
    apply Nat.eq_of_testBit_eq
    intro i
    have hi := congrArg (fun x => Nat.testBit x (i - off)) h
    simp only [Nat.testBit_shiftRight, Nat.testBit_and, testBit_fieldMask,
      Nat.zero_testBit] at hi ⊢
    by_cases h1 : off ≤ i
    · rw [Nat.add_sub_cancel' h1] at hi
      exact hi
    · simp [h1]

namespace Dmi

/-! ## `Abstractcs`: `busy` and `cmderr` -/

namespace Abstractcs

theorem PROGBUFSIZE_MASK_eq : PROGBUFSIZE_MASK = fieldMask 5 24 := by decide

theorem CMDERR_MASK_eq : CMDERR_MASK = fieldMask 3 8 := by decide

theorem busy_iff (self : Abstractcs) :
    self.busy = true ↔ (self.mAbstractcsReg >>> 24) % 2 ^ 5 ≠ 0 := by
  unfold busy
  rw [PROGBUFSIZE_MASK_eq, bne_iff_ne, Ne, and_fieldMask_eq_zero_iff]

theorem cmderr_eq (self : Abstractcs) : self.cmderr = cmderrField self.mAbstractcsReg := by
  unfold cmderr cmderrField toU8
  rw [CMDERR_MASK_eq, CMDERR_OFFSET, getField_eq]
  have h : (self.mAbstractcsReg >>> 8) % 2 ^ 3 < 2 ^ 3 := Nat.mod_lt _ (by norm_num)
  omega

theorem testBit_cmderrClear {σ : Type} (self : Abstractcs) (e : Env σ) (i : Nat) :
    (self.cmderrClear e).1.mAbstractcsReg.testBit i =
      (self.mAbstractcsReg.testBit i || (decide (8 ≤ i) && decide (i < 11))) := by
  simp only [cmderrClear, CMDERR_MASK_eq, Nat.testBit_or, testBit_fieldMask]

theorem cmderrField_or_mask (s : Nat) : cmderrField (s ||| CMDERR_MASK) = 7 := by
  have h : (7 : Nat) = 2 ^ 3 - 1 := by norm_num
  rw [h]
  apply Nat.eq_of_testBit_eq
  intro i
  simp only [cmderrField, CMDERR_MASK_eq, Nat.testBit_mod_two_pow, Nat.testBit_shiftRight,
    Nat.testBit_or, testBit_fieldMask, Nat.testBit_two_pow_sub_one]
  by_cases h : i < 3
  · have h2 : 8 + i < 8 + 3 := by omega
    simp [h, h2]
  · simp [h]

theorem cmderrField_mod (r : Nat) : cmderrField (r % 2 ^ 32) = cmderrField r := by
  apply Nat.eq_of_testBit_eq
  intro i
  simp only [cmderrField, Nat.testBit_mod_two_pow, Nat.testBit_shiftRight]
  by_cases h : i < 3
  · have h2 : 8 + i < 32 := by omega
    simp [h, h2]
  · simp [h]

theorem w1cDtm_isW1C : CmderrW1C w1cDtm := by
  intro t v
  have h7 : (7 : Nat) = 2 ^ 3 - 1 := by norm_num
  simp only [w1cDtm, if_true]
  rw [h7]
  apply Nat.eq_of_testBit_eq
  intro i
  simp only [cmderrField, CMDERR_MASK_eq, Nat.testBit_mod_two_pow, Nat.testBit_shiftRight,
    Nat.testBit_and, Nat.testBit_xor, testBit_not32, testBit_fieldMask,
    Nat.testBit_two_pow_sub_one]
  by_cases h : i < 3
  · have h2 : 8 + i < 8 + 3 := by omega
    have h3 : 8 + i < 32 := by omega
    simp [h, h2, h3]
  · simp [h]

end Abstractcs

/-- C5: the claim says `busy ()` is true exactly when bit 12 of the shadow is
set.  The getter tests the shadow against `PROGBUFSIZE_MASK`: it is true exactly
when the `progbufsize` bits (28:24) are not all zero, so a shadow with only the
busy bit set reports not busy and one with only `progbufsize` set reports
busy. -/
theorem C5_busy_tests_progbufsize :
    (∀ self : Abstractcs, self.busy = true ↔ (self.mAbstractcsReg >>> 24) % 2 ^ 5 ≠ 0)
    ∧ (Abstractcs.busy ⟨false, 0x00001000⟩ = false ∧ (0x00001000 : Nat).testBit 12 = true)
    ∧ (Abstractcs.busy ⟨false, 0x01000000⟩ = true ∧ (0x01000000 : Nat).testBit 12 = false) :=
  ⟨Abstractcs.busy_iff, by decide, by decide⟩

end Dmi

namespace Dmi

/-! ## `Sbcs`: `sbaccess` and `sberror` -/

namespace Sbcs

theorem SBACCESS_MASK_eq : SBACCESS_MASK = fieldMask 3 17 := by decide

theorem SBERROR_MASK_eq : SBERROR_MASK = fieldMask 3 12 := by decide

theorem or_fieldMask_low (s w off : Nat) :
    ((s ||| fieldMask w off) >>> off) % 2 ^ w = 2 ^ w - 1 := by
  apply Nat.eq_of_testBit_eq
  intro i
  simp only [Nat.testBit_mod_two_pow, Nat.testBit_shiftRight, Nat.testBit_or,
    testBit_fieldMask, Nat.testBit_two_pow_sub_one]
  by_cases h : i < w
  · simp [h]
  · simp [h]

theorem sberror_mod (self : Sbcs) : self.sberror % 8 = 7 := by
  have h := or_fieldMask_low self.mSbcsReg 3 12
  unfold sberror toU8
  rw [SBERROR_MASK_eq, SBERROR_OFFSET]
  omega

theorem sbaccess_mod (self : Sbcs) : self.sbaccess % 8 = 7 := by
  have h := or_fieldMask_low self.mSbcsReg 3 17
  unfold sbaccess toU8
  rw [SBACCESS_MASK_eq, SBACCESS_OFFSET]
  omega

theorem testBit_sbaccess_set {σ : Type} (self : Sbcs) (val : Nat) (e : Env σ) (i : Nat) :
    (self.sbaccess_set val e).1.mSbcsReg.testBit i =
      if 17 ≤ i ∧ i < 20 then val.testBit (i - 17)
      else (decide (i < 32) && self.mSbcsReg.testBit i) := by
  simp only [sbaccess_set, SBACCESS_MASK_eq, SBACCESS_OFFSET, Nat.testBit_and,
    Nat.testBit_or, testBit_not32, testBit_shl32, testBit_fieldMask]
  by_cases h1 : 17 ≤ i <;> by_cases h2 : i < 20 <;> by_cases h5 : i < 32 <;>
    first | omega | (simp [h1, h2, h5]; try omega)

theorem sbaccessField_sbaccess_set {σ : Type} (self : Sbcs) (val : Nat) (e : Env σ) :
    sbaccessField (self.sbaccess_set val e).1.mSbcsReg = val % 2 ^ 3 := by
  apply Nat.eq_of_testBit_eq
  intro i
  simp only [sbaccessField, Nat.testBit_mod_two_pow, Nat.testBit_shiftRight,
    testBit_sbaccess_set]
  by_cases h : i < 3
  · have h1 : 17 ≤ 17 + i ∧ 17 + i < 20 := by omega
    simp [h, h1]
  · simp [h]

end Sbcs

/-- C6: the claim says `sberror ()` returns the 3-bit field sbcs[14:12], so 0
when those bits are zero.  The getter ORs the shadow with `SBERROR_MASK` before
shifting: the low three bits of its result are always ones, it never returns 0,
and for the shadow value 0 it returns 7. -/
theorem C6_sberror_forces_field_bits :
    (∀ self : Sbcs, self.sberror % 8 = 7)
    ∧ Sbcs.sberrorField 0 = 0 ∧ Sbcs.sberror ⟨false, 0⟩ = 7
    ∧ Sbcs.sberrorField 0x00001000 = 1 ∧ Sbcs.sberror ⟨false, 0x00001000⟩ = 7 :=
  ⟨Sbcs.sberror_mod, by decide, by decide, by decide, by decide⟩

open Sbcs in
/-- C7: for every `val` and every prior 32-bit `sbcs` shadow value, after the
setter `sbaccess (val)` the field sbcs[19:17] holds `val & 0x7` (0 for
`val = 8`), every other bit of the shadow keeps its value, the transport is not
used, and a line goes to `cerr` exactly when `val ≥ 8`. -/
theorem C7_sbaccess_set_truncates {σ : Type} (self : Sbcs) (val : Nat) (e : Env σ)
    (hs : self.mSbcsReg < 2 ^ 32) :
    sbaccessField (self.sbaccess_set val e).1.mSbcsReg = val &&& 0x7
    ∧ sbaccessField (self.sbaccess_set 8 e).1.mSbcsReg = 0
    ∧ (∀ i, ¬ (17 ≤ i ∧ i < 20) →
        (self.sbaccess_set val e).1.mSbcsReg.testBit i = self.mSbcsReg.testBit i)
    ∧ (self.sbaccess_set val e).1.mPrettyPrint = self.mPrettyPrint
    ∧ (self.sbaccess_set val e).2.dtm = e.dtm
    ∧ (self.sbaccess_set val e).2.trace = e.trace
    ∧ ((self.sbaccess_set val e).2.cerr ≠ e.cerr ↔ 8 ≤ val) := by
  have hm : val &&& 0x7 = val % 2 ^ 3 := Nat.and_pow_two_sub_one_eq_mod val 3
  refine ⟨?_, ?_, ?_, rfl, ?_, ?_, ?_⟩
  · rw [sbaccessField_sbaccess_set, hm]
  · rw [sbaccessField_sbaccess_set]; norm_num
  · intro i hi
    rw [testBit_sbaccess_set, if_neg hi]
    exact (testBit_of_lt_two_pow hs i).symm
  · unfold sbaccess_set
    dsimp only
    split <;> rfl
  · unfold sbaccess_set
    dsimp only
    split <;> rfl
  · have hc : (1 <<< SBACCESS_SIZE : Nat) = 8 := by decide
    unfold sbaccess_set
    dsimp only
    rw [hc]
    by_cases h : val ≥ 8
    · rw [if_pos h]
      exact ⟨fun _ => h, fun _ => cerr_append_ne e _⟩
    · rw [if_neg h]
      exact ⟨fun hne => absurd rfl hne, fun hge => absurd hge h⟩

/-- C7 at the shadow value `0xFFFFFFFF` and `val = 8`. -/
theorem C7_sbaccess_set_truncates_witness :
    (0xFFFFFFFF : Nat) < 2 ^ 32 ∧
      Sbcs.sbaccessField
        (Sbcs.sbaccess_set ⟨false, 0xFFFFFFFF⟩ 8 (⟨(), [], []⟩ : Env Unit)).1.mSbcsReg
          = 8 &&& 0x7 :=
  ⟨by decide,
   (C7_sbaccess_set_truncates ⟨false, 0xFFFFFFFF⟩ 8 ⟨(), [], []⟩ (by decide)).1⟩

/-- C8: the claim says the setter `sbaccess (v)` followed by the getter
`sbaccess ()` returns `v` for `v` in 0..7, and that the getter returns
`(shadow & SBACCESS_MASK) >> SBACCESS_OFFSET`.  The getter ORs the shadow with
the mask: the low three bits of its result are always ones, so after
`sbaccess (0)` on a zero shadow it returns 7, and on the shadow 0 it returns 7
where the masked field is 0. -/
theorem C8_sbaccess_getter_forces_field_bits :
    (∀ (self : Sbcs) (v : Nat) (e : Env Unit), (self.sbaccess_set v e).1.sbaccess % 8 = 7)
    ∧ (Sbcs.sbaccess_set ⟨false, 0⟩ 0 (⟨(), [], []⟩ : Env Unit)).1.sbaccess = 7
    ∧ (Sbcs.sbaccess_set ⟨false, 0⟩ 5 (⟨(), [], []⟩ : Env Unit)).1.sbaccess = 7
    ∧ Sbcs.sbaccess ⟨false, 0⟩ = 7
    ∧ (0 &&& Sbcs.SBACCESS_MASK) >>> Sbcs.SBACCESS_OFFSET = 0 :=
  ⟨fun self v e => Sbcs.sbaccess_mod _, by decide, by decide, by decide, by decide⟩

open Abstractcs in
/-- C9: for every prior `abstractcs` shadow value, `cmderrClear ()` sets the
three `cmderr` bits (10:8) to 1, leaves every other bit as it was, leaves the
transport, its trace and `cerr` untouched, and is idempotent; `write ()` makes
one `dmiWrite` whose value is the shadow as it stands, `cmderr` bits
included. -/
theorem C9_cmderrClear {σ : Type} (d : IDtm σ) (self : Abstractcs) (e : Env σ) :
    cmderrField (self.cmderrClear e).1.mAbstractcsReg = 7
    ∧ (∀ i, ¬ (8 ≤ i ∧ i < 11) →
        (self.cmderrClear e).1.mAbstractcsReg.testBit i = self.mAbstractcsReg.testBit i)
    ∧ (self.cmderrClear e).1.mPrettyPrint = self.mPrettyPrint
    ∧ (self.cmderrClear e).2 = e
    ∧ (self.cmderrClear e).1.cmderrClear (self.cmderrClear e).2 = self.cmderrClear e
    ∧ (write d self e).2.trace = e.trace ++ [DtmOp.dmiWrite DMI_ADDR self.mAbstractcsReg]
    ∧ (write d self e).2.cerr = e.cerr := by
  refine ⟨cmderrField_or_mask _, ?_, rfl, rfl, ?_, rfl, rfl⟩
  · intro i hi
    rw [testBit_cmderrClear]
    by_cases h1 : 8 ≤ i
    · have h2 : ¬ i < 11 := by omega
      simp [h2]
    · simp [h1]
  · simp only [cmderrClear, Nat.or_assoc, Nat.or_self]

open Abstractcs in
/-- C10: against any transport that treats `abstractcs.cmderr` as
write-1-to-clear, in any transport state and from any shadow value, the sequence
`cmderrClear (); write (); read ();` ends with `cmderr () == 0`. -/
theorem C10_clear_write_read {σ : Type} (d : IDtm σ) (hd : CmderrW1C d)
    (self : Abstractcs) (e : Env σ) :
    (clearWriteRead d self e).1.cmderr = 0 := by
  rw [cmderr_eq]
  simp only [clearWriteRead, Abstractcs.read, Abstractcs.write, cmderrClear, Env.dmiRead,
    Env.dmiWrite]
  have h0 : (7 ^^^ 7 : Nat) = 0 := by decide
  rw [cmderrField_mod, hd, cmderrField_or_mask, h0, Nat.and_zero]

/-- C10 for the write-1-to-clear test double holding `cmderr = 3`: a read
before the sequence reports 3, the sequence ends with 0. -/
theorem C10_clear_write_read_witness :
    Abstractcs.CmderrW1C Abstractcs.w1cDtm
    ∧ (Abstractcs.read Abstractcs.w1cDtm ⟨false, 0⟩ ⟨0x00000300, [], []⟩).1.cmderr = 3
    ∧ (Abstractcs.clearWriteRead Abstractcs.w1cDtm ⟨false, 0⟩ ⟨0x00000300, [], []⟩).1.cmderr
        = 0 :=
  ⟨Abstractcs.w1cDtm_isW1C, by decide,
   C10_clear_write_read Abstractcs.w1cDtm Abstractcs.w1cDtm_isW1C ⟨false, 0⟩
     ⟨0x00000300, [], []⟩⟩

end Dmi

namespace Dmi

/-! ## `Sbcs`: clearing the sticky error fields -/

namespace Sbcs

theorem SBBUSYERROR_MASK_eq : SBBUSYERROR_MASK = fieldMask 1 22 := by decide

theorem testBit_sberrorClear {σ : Type} (self : Sbcs) (e : Env σ) (i : Nat) :
    (self.sberrorClear e).1.mSbcsReg.testBit i =
      (self.mSbcsReg.testBit i || (decide (12 ≤ i) && decide (i < 15))) := by
  simp only [sberrorClear, SBERROR_MASK_eq, Nat.testBit_or, testBit_fieldMask]

theorem testBit_sbbusyerrorClear {σ : Type} (self : Sbcs) (e : Env σ) (i : Nat) :
    (self.sbbusyerrorClear e).1.mSbcsReg.testBit i =
      (self.mSbcsReg.testBit i || (decide (22 ≤ i) && decide (i < 23))) := by
  simp only [sbbusyerrorClear, SBBUSYERROR_MASK_eq, Nat.testBit_or, testBit_fieldMask]

end Sbcs

open Sbcs in
/-- C11: for every prior `sbcs` shadow value, `sberrorClear ()` sets the three
`sberror` bits (14:12) to 1 and changes no other bit, `sbbusyerrorClear ()` sets
bit 22 to 1 and changes no other bit, both return the environment (transport,
trace, `cerr`) as it was, and applying them in either order gives the same
object. -/
theorem C11_sbcs_error_clears {σ : Type} (self : Sbcs) (e : Env σ) :
    sberrorField (self.sberrorClear e).1.mSbcsReg = 7
    ∧ (∀ i, ¬ (12 ≤ i ∧ i < 15) →
        (self.sberrorClear e).1.mSbcsReg.testBit i = self.mSbcsReg.testBit i)
    ∧ (self.sbbusyerrorClear e).1.mSbcsReg.testBit 22 = true
    ∧ (∀ i, i ≠ 22 →
        (self.sbbusyerrorClear e).1.mSbcsReg.testBit i = self.mSbcsReg.testBit i)
    ∧ (self.sberrorClear e).1.mPrettyPrint = self.mPrettyPrint
    ∧ (self.sbbusyerrorClear e).1.mPrettyPrint = self.mPrettyPrint
    ∧ (self.sberrorClear e).2 = e
    ∧ (self.sbbusyerrorClear e).2 = e
    ∧ (self.sberrorClear e).1.sbbusyerrorClear (self.sberrorClear e).2
        = (self.sbbusyerrorClear e).1.sberrorClear (self.sbbusyerrorClear e).2 := by
  refine ⟨?_, ?_, ?_, ?_, rfl, rfl, rfl, rfl, ?_⟩
  · have h := or_fieldMask_low self.mSbcsReg 3 12
    simp only [sberrorField, sberrorClear, SBERROR_MASK_eq]
    exact h
  · intro i hi
    rw [testBit_sberrorClear]
    by_cases h1 : 12 ≤ i
    · have h2 : ¬ i < 15 := by omega
      simp [h2]
    · simp [h1]
  · rw [testBit_sbbusyerrorClear]
    simp
  · intro i hi
    rw [testBit_sbbusyerrorClear]
    by_cases h1 : 22 ≤ i
    · have h2 : ¬ i < 23 := by omega
      simp [h2]
    · simp [h1]
  · simp only [sberrorClear, sbbusyerrorClear]
    rw [Nat.or_assoc, Nat.or_comm SBERROR_MASK, ← Nat.or_assoc]

/-- C17: for every `dmcontrol` object the getters `hartreset ()` and `hasel ()`
return false, and the setters `hartreset (flag)`, `hasel (flag)`,
`setresethaltreq ()` and `clrresethaltreq ()` return the object as it was for
either flag, leave the transport and its trace alone and write one line to
`cerr`. -/
theorem C17_dmcontrol_unsupported_fields {σ : Type} (self : Dmcontrol) (flag : Bool)
    (e : Env σ) :
    self.hartreset = false
    ∧ self.hasel = false
    ∧ ((self.hartreset_set flag e).1 = self
        ∧ (self.hartreset_set flag e).2.dtm = e.dtm
        ∧ (self.hartreset_set flag e).2.trace = e.trace
        ∧ (self.hartreset_set flag e).2.cerr.length = e.cerr.length + 1)
    ∧ ((self.hasel_set flag e).1 = self
        ∧ (self.hasel_set flag e).2.dtm = e.dtm
        ∧ (self.hasel_set flag e).2.trace = e.trace
        ∧ (self.hasel_set flag e).2.cerr.length = e.cerr.length + 1)
    ∧ ((self.setresethaltreq e).1 = self
        ∧ (self.setresethaltreq e).2.dtm = e.dtm
        ∧ (self.setresethaltreq e).2.trace = e.trace
        ∧ (self.setresethaltreq e).2.cerr.length = e.cerr.length + 1)
    ∧ ((self.clrresethaltreq e).1 = self
        ∧ (self.clrresethaltreq e).2.dtm = e.dtm
        ∧ (self.clrresethaltreq e).2.trace = e.trace
        ∧ (self.clrresethaltreq e).2.cerr.length = e.cerr.length + 1) := by
  simp [Dmcontrol.hartreset, Dmcontrol.hasel, Dmcontrol.hartreset_set, Dmcontrol.hasel_set,
    Dmcontrol.setresethaltreq, Dmcontrol.clrresethaltreq, Env.warn]

/-! ## `Dmstatus`: the combined flags -/

namespace Dmstatus

theorem halted_mask_eq : ALLHALTED_MASK ||| ANYHALTED_MASK = fieldMask 2 8 := by decide

theorem resumeack_mask_eq : ALLRESUMEACK_MASK ||| ANYRESUMEACK_MASK = fieldMask 2 16 := by
  decide

theorem two_bits_ne_zero_iff (s k : Nat) :
    (s >>> k) % 2 ^ 2 ≠ 0 ↔ (s.testBit (k + 1) = true ∨ s.testBit k = true) := by
  have h1 : s / 2 ^ (k + 1) = s / 2 ^ k / 2 := by
    rw [Nat.pow_succ, Nat.div_div_eq_div_mul]
  rw [Nat.testBit_to_div_mod, Nat.testBit_to_div_mod, Nat.shiftRight_eq_div_pow, h1]
  simp only [decide_eq_true_eq]
  omega

end Dmstatus

open Dmstatus in
/-- C19: for every `dmstatus` shadow value, `halted ()` is true exactly when bit
9 (`allhalted`) or bit 8 (`anyhalted`) is set, and `resumeack ()` is true exactly
when bit 17 (`allresumeack`) or bit 16 (`anyresumeack`) is set; so neither
depends on any other bit or on `mPrettyPrint`. -/
theorem C19_dmstatus_halted_resumeack (self : Dmstatus) :
    (self.halted = true ↔
        (self.mDmstatusReg.testBit 9 = true ∨ self.mDmstatusReg.testBit 8 = true))
    ∧ (self.resumeack = true ↔
        (self.mDmstatusReg.testBit 17 = true ∨ self.mDmstatusReg.testBit 16 = true)) := by
  constructor
  · unfold halted
    rw [halted_mask_eq, bne_iff_ne, Ne, and_fieldMask_eq_zero_iff]
    exact two_bits_ne_zero_iff self.mDmstatusReg 8
  · unfold resumeack
    rw [resumeack_mask_eq, bne_iff_ne, Ne, and_fieldMask_eq_zero_iff]
    exact two_bits_ne_zero_iff self.mDmstatusReg 16

end Dmi

namespace Dmi

/-! ## Every register: `read`, `write` and `reset` -/

theorem update_fin_same {N : Nat} (f : Fin N → Nat) (n : Fin N) (h : n.val < N) (v : Nat) :
    Function.update f ⟨n.val, h⟩ v n = v := by
  simp

theorem update_fin_other {N : Nat} (f : Fin N → Nat) (n m : Fin N) (h : n.val < N) (v : Nat)
    (hm : m ≠ n) : Function.update f ⟨n.val, h⟩ v m = f m := by
  simp [Function.update_apply, hm]

/-- C13: for every register class with a `read ()`, from every prior state,
`read ()` makes exactly one `dmiRead` at the address of the register and no other
transport call, and the shadow becomes the value the transport returned whatever
it held before; for the register arrays `read (n)` with `n` in range does so for
slot `n` at `DMI_ADDR[n]` and leaves the other slots alone. -/
theorem C13_read_overwrites_shadow {σ : Type} (d : IDtm σ) :
    ReadsThrough d (Dmcontrol.read d) Dmcontrol.mDmcontrolReg Dmcontrol.DMI_ADDR
    ∧ ReadsThrough d (Dmstatus.read d) Dmstatus.mDmstatusReg Dmstatus.DMI_ADDR
    ∧ ReadsThrough d (Hartinfo.read d) Hartinfo.mHartinfoReg Hartinfo.DMI_ADDR
    ∧ ReadsThrough d (Hawindowsel.read d) Hawindowsel.mHawindowselReg Hawindowsel.DMI_ADDR
    ∧ ReadsThrough d (Hawindow.read d) Hawindow.mHawindowReg Hawindow.DMI_ADDR
    ∧ ReadsThrough d (Abstractcs.read d) Abstractcs.mAbstractcsReg Abstractcs.DMI_ADDR
    ∧ ReadsThrough d (Abstractauto.read d) Abstractauto.mAbstractautoReg Abstractauto.DMI_ADDR
    ∧ ReadsThrough d (Nextdm.read d) Nextdm.mNextdmReg Nextdm.DMI_ADDR
    ∧ ReadsThrough d (Authdata.read d) Authdata.mAuthdataReg Authdata.DMI_ADDR
    ∧ ReadsThrough d (Sbcs.read d) Sbcs.mSbcsReg Sbcs.DMI_ADDR
    ∧ ReadsThroughAt Data.NUM_REGS d (Data.read d) Data.mDataReg Data.DMI_ADDR
    ∧ ReadsThroughAt Haltsum.NUM_REGS d (Haltsum.read d) Haltsum.mHaltsumReg Haltsum.DMI_ADDR
    ∧ ReadsThroughAt Confstrptr.NUM_REGS d (Confstrptr.read d) Confstrptr.mConfstrptrReg
        Confstrptr.DMI_ADDR
    ∧ ReadsThroughAt Progbuf.NUM_REGS d (Progbuf.read d) Progbuf.mProgbufReg Progbuf.DMI_ADDR
    ∧ ReadsThroughAt Sbaddress.NUM_REGS d (Sbaddress.read d) Sbaddress.mSbaddressReg
        Sbaddress.DMI_ADDR
    ∧ ReadsThroughAt Sbdata.NUM_REGS d (Sbdata.read d) Sbdata.mSbdataReg Sbdata.DMI_ADDR := by
  refine ⟨?_, ?_, ?_, ?_, ?_, ?_, ?_, ?_, ?_, ?_, ?_, ?_, ?_, ?_, ?_, ?_⟩
  · intro self e; exact ⟨rfl, rfl, rfl, fun _ => rfl⟩
  · intro self e; exact ⟨rfl, rfl, rfl, fun _ => rfl⟩
  · intro self e; exact ⟨rfl, rfl, rfl, fun _ => rfl⟩
  · intro self e; exact ⟨rfl, rfl, rfl, fun _ => rfl⟩
  · intro self e; exact ⟨rfl, rfl, rfl, fun _ => rfl⟩
  · intro self e; exact ⟨rfl, rfl, rfl, fun _ => rfl⟩
  · intro self e; exact ⟨rfl, rfl, rfl, fun _ => rfl⟩
  · intro self e; exact ⟨rfl, rfl, rfl, fun _ => rfl⟩
  · intro self e; exact ⟨rfl, rfl, rfl, fun _ => rfl⟩
  · intro self e; exact ⟨rfl, rfl, rfl, fun _ => rfl⟩
  · intro self n e
    simp only [Data.read, dif_pos n.isLt]
    exact ⟨rfl, rfl, update_fin_same _ n _ _, fun m hm => update_fin_other _ n m _ _ hm⟩
  · intro self n e
    simp only [Haltsum.read, dif_pos n.isLt]
    exact ⟨rfl, rfl, update_fin_same _ n _ _, fun m hm => update_fin_other _ n m _ _ hm⟩
  · intro self n e
    simp only [Confstrptr.read, dif_pos n.isLt]
    exact ⟨rfl, rfl, update_fin_same _ n _ _, fun m hm => update_fin_other _ n m _ _ hm⟩
  · intro self n e
    simp only [Progbuf.read, dif_pos n.isLt]
    exact ⟨rfl, rfl, update_fin_same _ n _ _, fun m hm => update_fin_other _ n m _ _ hm⟩
  · intro self n e
    simp only [Sbaddress.read, dif_pos n.isLt]
    exact ⟨rfl, rfl, update_fin_same _ n _ _, fun m hm => update_fin_other _ n m _ _ hm⟩
  · intro self n e
    simp only [Sbdata.read, dif_pos n.isLt]
    exact ⟨rfl, rfl, update_fin_same _ n _ _, fun m hm => update_fin_other _ n m _ _ hm⟩

end Dmi

namespace Dmi

/-- C12: for every register class with a `write ()`, from every state,
`write ()` makes exactly one `dmiWrite` at the address of the register carrying
the shadow value and no other transport call, and the shadow becomes the value
the transport returned; for the register arrays `write (n)` with `n` in range
does so for slot `n`.  The value stored back can differ from the value sent: a
transport that answers 5 leaves 5 in a `dmcontrol` shadow that held 0. -/
theorem C12_write_stores_acknowledged_value {σ : Type} (d : IDtm σ) :
    WritesThrough d (Dmcontrol.write d) Dmcontrol.mDmcontrolReg Dmcontrol.DMI_ADDR
    ∧ WritesThrough d (Hawindowsel.write d) Hawindowsel.mHawindowselReg Hawindowsel.DMI_ADDR
    ∧ WritesThrough d (Hawindow.write d) Hawindow.mHawindowReg Hawindow.DMI_ADDR
    ∧ WritesThrough d (Abstractcs.write d) Abstractcs.mAbstractcsReg Abstractcs.DMI_ADDR
    ∧ WritesThrough d (Command.write d) Command.mCommandReg Command.DMI_ADDR
    ∧ WritesThrough d (Abstractauto.write d) Abstractauto.mAbstractautoReg
        Abstractauto.DMI_ADDR
    ∧ WritesThrough d (Authdata.write d) Authdata.mAuthdataReg Authdata.DMI_ADDR
    ∧ WritesThrough d (Sbcs.write d) Sbcs.mSbcsReg Sbcs.DMI_ADDR
    ∧ WritesThroughAt Data.NUM_REGS d (Data.write d) Data.mDataReg Data.DMI_ADDR
    ∧ WritesThroughAt Progbuf.NUM_REGS d (Progbuf.write d) Progbuf.mProgbufReg Progbuf.DMI_ADDR
    ∧ WritesThroughAt Sbaddress.NUM_REGS d (Sbaddress.write d) Sbaddress.mSbaddressReg
        Sbaddress.DMI_ADDR
    ∧ WritesThroughAt Sbdata.NUM_REGS d (Sbdata.write d) Sbdata.mSbdataReg Sbdata.DMI_ADDR
    ∧ (Dmcontrol.write (constDtm 5) ⟨false, 0⟩ ⟨(), [], []⟩).1.mDmcontrolReg = 5
    ∧ (Dmcontrol.write (constDtm 5) ⟨false, 0⟩ ⟨(), [], []⟩).2.trace
        = [DtmOp.dmiWrite 0x10 0] := by
  refine ⟨?_, ?_, ?_, ?_, ?_, ?_, ?_, ?_, ?_, ?_, ?_, ?_, by decide, by decide⟩
  · intro self e; exact ⟨rfl, rfl, rfl⟩
  · intro self e; exact ⟨rfl, rfl, rfl⟩
  · intro self e; exact ⟨rfl, rfl, rfl⟩
  · intro self e; exact ⟨rfl, rfl, rfl⟩
  · intro self e; exact ⟨rfl, rfl, rfl⟩
  · intro self e; exact ⟨rfl, rfl, rfl⟩
  · intro self e; exact ⟨rfl, rfl, rfl⟩
  · intro self e; exact ⟨rfl, rfl, rfl⟩
  · intro self n e
    simp only [Data.write, dif_pos n.isLt]
    exact ⟨rfl, rfl, update_fin_same _ n _ _, fun m hm => update_fin_other _ n m _ _ hm⟩
  · intro self n e
    simp only [Progbuf.write, dif_pos n.isLt]
    exact ⟨rfl, rfl, update_fin_same _ n _ _, fun m hm => update_fin_other _ n m _ _ hm⟩
  · intro self n e
    simp only [Sbaddress.write, dif_pos n.isLt]
    exact ⟨rfl, rfl, update_fin_same _ n _ _, fun m hm => update_fin_other _ n m _ _ hm⟩
  · intro self n e
    simp only [Sbdata.write, dif_pos n.isLt]
    exact ⟨rfl, rfl, update_fin_same _ n _ _, fun m hm => update_fin_other _ n m _ _ hm⟩

theorem update_fin_twice {N : Nat} (f : Fin N → Nat) (n : Fin N) (h : n.val < N) (v : Nat) :
    Function.update (Function.update f ⟨n.val, h⟩ v) ⟨n.val, h⟩ v
      = Function.update f ⟨n.val, h⟩ v := by
  simp

/-- C14: for every register class with a `reset ()`, from every prior state and
for every value of the constant `RESET_VALUE`, `reset ()` sets the shadow to
`RESET_VALUE`, leaves the transport and its trace as they were, and a second
`reset ()` gives the same object; for the register arrays `reset (n)` with `n`
in range sets slot `n` and leaves every other slot alone. -/
theorem C14_reset_is_local {σ : Type} (RESET_VALUE : Nat) :
    @ResetsLocally Dmcontrol σ (Dmcontrol.reset RESET_VALUE) Dmcontrol.mDmcontrolReg RESET_VALUE
    ∧ @ResetsLocally Hawindowsel σ (Hawindowsel.reset RESET_VALUE) Hawindowsel.mHawindowselReg
        RESET_VALUE
    ∧ @ResetsLocally Hawindow σ (Hawindow.reset RESET_VALUE) Hawindow.mHawindowReg RESET_VALUE
    ∧ @ResetsLocally Abstractcs σ (Abstractcs.reset RESET_VALUE) Abstractcs.mAbstractcsReg
        RESET_VALUE
    ∧ @ResetsLocally Command σ (Command.reset RESET_VALUE) Command.mCommandReg RESET_VALUE
    ∧ @ResetsLocally Abstractauto σ (Abstractauto.reset RESET_VALUE) Abstractauto.mAbstractautoReg
        RESET_VALUE
    ∧ @ResetsLocally Authdata σ (Authdata.reset RESET_VALUE) Authdata.mAuthdataReg RESET_VALUE
    ∧ @ResetsLocally Sbcs σ (Sbcs.reset RESET_VALUE) Sbcs.mSbcsReg RESET_VALUE
    ∧ @ResetsLocallyAt Data σ Data.NUM_REGS (Data.reset RESET_VALUE) Data.mDataReg
        RESET_VALUE
    ∧ @ResetsLocallyAt Progbuf σ Progbuf.NUM_REGS (Progbuf.reset RESET_VALUE)
        Progbuf.mProgbufReg RESET_VALUE
    ∧ @ResetsLocallyAt Sbaddress σ Sbaddress.NUM_REGS (Sbaddress.reset RESET_VALUE)
        Sbaddress.mSbaddressReg RESET_VALUE
    ∧ @ResetsLocallyAt Sbdata σ Sbdata.NUM_REGS (Sbdata.reset RESET_VALUE) Sbdata.mSbdataReg
        RESET_VALUE := by
  refine ⟨?_, ?_, ?_, ?_, ?_, ?_, ?_, ?_, ?_, ?_, ?_, ?_⟩
  · intro self e; exact ⟨rfl, rfl, rfl, rfl⟩
  · intro self e; exact ⟨rfl, rfl, rfl, rfl⟩
  · intro self e; exact ⟨rfl, rfl, rfl, rfl⟩
  · intro self e; exact ⟨rfl, rfl, rfl, rfl⟩
  · intro self e; exact ⟨rfl, rfl, rfl, rfl⟩
  · intro self e; exact ⟨rfl, rfl, rfl, rfl⟩
  · intro self e; exact ⟨rfl, rfl, rfl, rfl⟩
  · intro self e; exact ⟨rfl, rfl, rfl, rfl⟩
  · intro self n e
    simp only [Data.reset, dif_pos n.isLt]
    exact ⟨update_fin_same _ n _ _, fun m hm => update_fin_other _ n m _ _ hm, trivial,
      trivial, update_fin_twice _ n _ _⟩
  · intro self n e
    simp only [Progbuf.reset, dif_pos n.isLt]
    exact ⟨update_fin_same _ n _ _, fun m hm => update_fin_other _ n m _ _ hm, trivial,
      trivial, update_fin_twice _ n _ _⟩
  · intro self n e
    simp only [Sbaddress.reset, dif_pos n.isLt]
    exact ⟨update_fin_same _ n _ _, fun m hm => update_fin_other _ n m _ _ hm, trivial,
      trivial, update_fin_twice _ n _ _⟩
  · intro self n e
    simp only [Sbdata.reset, dif_pos n.isLt]
    exact ⟨update_fin_same _ n _ _, fun m hm => update_fin_other _ n m _ _ hm, trivial,
      trivial, update_fin_twice _ n _ _⟩

end Dmi

namespace Dmi

/-! ## The register arrays: indices out of range -/

/-- C15: for every index `n ≥ 12` and every state, the getter `Data::data (n)`
returns 0, only writes one line to `cerr` (a `const` method: the twelve slots are
not touched) and uses no transport; the same holds of the getters of `haltsum`
(`n ≥ 4`), `confstrptr` (`n ≥ 4`), `progbuf` (`n ≥ 16`), `sbaddress` (`n ≥ 3`)
and `sbdata` (`n ≥ 4`).  At index 12 a `data` array holding 7 in every slot
reads as 0. -/
theorem C15_getter_out_of_range_is_zero {σ : Type} :
    @ZeroOutOfRange σ Data 12 Data.data
    ∧ @ZeroOutOfRange σ Haltsum 4 Haltsum.haltsum
    ∧ @ZeroOutOfRange σ Confstrptr 4 Confstrptr.confstrptr
    ∧ @ZeroOutOfRange σ Progbuf 16 Progbuf.progbuf
    ∧ @ZeroOutOfRange σ Sbaddress 3 Sbaddress.sbaddress
    ∧ @ZeroOutOfRange σ Sbdata 4 Sbdata.sbdata
    ∧ (Data.data ⟨fun _ => 7⟩ 12 (⟨(), [], []⟩ : Env Unit)).1 = 0
    ∧ (Data.data ⟨fun _ => 7⟩ 11 (⟨(), [], []⟩ : Env Unit)).1 = 7 := by
  refine ⟨?_, ?_, ?_, ?_, ?_, ?_, by decide, by decide⟩
  · intro self n e hn
    simp [Data.data, Nat.not_lt.mpr hn, Env.warn]
  · intro self n e hn
    simp [Haltsum.haltsum, Nat.not_lt.mpr hn, Env.warn]
  · intro self n e hn
    simp [Confstrptr.confstrptr, Nat.not_lt.mpr hn, Env.warn]
  · intro self n e hn
    simp [Progbuf.progbuf, Nat.not_lt.mpr hn, Env.warn]
  · intro self n e hn
    simp [Sbaddress.sbaddress, Nat.not_lt.mpr hn, Env.warn]
  · intro self n e hn
    simp [Sbdata.sbdata, Nat.not_lt.mpr hn, Env.warn]

/-- C16: for every index `n ≥ NUM_REGS` and every state, each of `read (n)`,
`reset (n)`, `write (n)` and the setter of `Data`, `Progbuf`, `Sbaddress` and
`Sbdata` (and `read (n)` of `Haltsum` and `Confstrptr`) returns the array as it
was, uses no transport and writes one line to `cerr`.  The slots are indexed by
`Fin NUM_REGS`, so no slot outside the array exists to be read or written.  On a
`data` array, `write (12)` makes no transport call and leaves slot 11 alone, where
`write (11)` stores the answer of the transport. -/
theorem C16_out_of_range_is_no_op {σ : Type} (d : IDtm σ) (RESET_VALUE v : Nat) :
    (NoOpOutOfRange Data.NUM_REGS (Data.read d)
      ∧ NoOpOutOfRange Data.NUM_REGS (@Data.reset σ RESET_VALUE)
      ∧ NoOpOutOfRange Data.NUM_REGS (Data.write d)
      ∧ NoOpOutOfRange Data.NUM_REGS (fun self n (e : Env σ) => Data.data_set self n v e))
    ∧ (NoOpOutOfRange Progbuf.NUM_REGS (Progbuf.read d)
      ∧ NoOpOutOfRange Progbuf.NUM_REGS (@Progbuf.reset σ RESET_VALUE)
      ∧ NoOpOutOfRange Progbuf.NUM_REGS (Progbuf.write d)
      ∧ NoOpOutOfRange Progbuf.NUM_REGS
          (fun self n (e : Env σ) => Progbuf.progbuf_set self n v e))
    ∧ (NoOpOutOfRange Sbaddress.NUM_REGS (Sbaddress.read d)
      ∧ NoOpOutOfRange Sbaddress.NUM_REGS (@Sbaddress.reset σ RESET_VALUE)
      ∧ NoOpOutOfRange Sbaddress.NUM_REGS (Sbaddress.write d)
      ∧ NoOpOutOfRange Sbaddress.NUM_REGS
          (fun self n (e : Env σ) => Sbaddress.sbaddress_set self n v e))
    ∧ (NoOpOutOfRange Sbdata.NUM_REGS (Sbdata.read d)
      ∧ NoOpOutOfRange Sbdata.NUM_REGS (@Sbdata.reset σ RESET_VALUE)
      ∧ NoOpOutOfRange Sbdata.NUM_REGS (Sbdata.write d)
      ∧ NoOpOutOfRange Sbdata.NUM_REGS
          (fun self n (e : Env σ) => Sbdata.sbdata_set self n v e))
    ∧ NoOpOutOfRange Haltsum.NUM_REGS (Haltsum.read d)
    ∧ NoOpOutOfRange Confstrptr.NUM_REGS (Confstrptr.read d)
    ∧ (Data.write (constDtm 5) ⟨fun _ => 7⟩ 12 ⟨(), [], []⟩).2.trace = []
    ∧ (Data.write (constDtm 5) ⟨fun _ => 7⟩ 12 ⟨(), [], []⟩).1.mDataReg 11 = 7
    ∧ (Data.write (constDtm 5) ⟨fun _ => 7⟩ 11 ⟨(), [], []⟩).1.mDataReg 11 = 5 := by
  refine ⟨⟨?_, ?_, ?_, ?_⟩, ⟨?_, ?_, ?_, ?_⟩, ⟨?_, ?_, ?_, ?_⟩, ⟨?_, ?_, ?_, ?_⟩, ?_, ?_,
    by decide, by decide, by decide⟩
  · intro self n e hn
    simp [Data.read, Nat.not_lt.mpr hn, Env.warn]
  · intro self n e hn
    simp [Data.reset, Nat.not_lt.mpr hn, Env.warn]
  · intro self n e hn
    simp [Data.write, Nat.not_lt.mpr hn, Env.warn]
  · intro self n e hn
    simp [Data.data_set, Nat.not_lt.mpr hn, Env.warn]
  · intro self n e hn
    simp [Progbuf.read, Nat.not_lt.mpr hn, Env.warn]
  · intro self n e hn
    simp [Progbuf.reset, Nat.not_lt.mpr hn, Env.warn]
  · intro self n e hn
    simp [Progbuf.write, Nat.not_lt.mpr hn, Env.warn]
  · intro self n e hn
    simp [Progbuf.progbuf_set, Nat.not_lt.mpr hn, Env.warn]
  · intro self n e hn
    simp [Sbaddress.read, Nat.not_lt.mpr hn, Env.warn]
  · intro self n e hn
    simp [Sbaddress.reset, Nat.not_lt.mpr hn, Env.warn]
  · intro self n e hn
    simp [Sbaddress.write, Nat.not_lt.mpr hn, Env.warn]
  · intro self n e hn
    simp [Sbaddress.sbaddress_set, Nat.not_lt.mpr hn, Env.warn]
  · intro self n e hn
    simp [Sbdata.read, Nat.not_lt.mpr hn, Env.warn]
  · intro self n e hn
    simp [Sbdata.reset, Nat.not_lt.mpr hn, Env.warn]
  · intro self n e hn
    simp [Sbdata.write, Nat.not_lt.mpr hn, Env.warn]
  · intro self n e hn
    simp [Sbdata.sbdata_set, Nat.not_lt.mpr hn, Env.warn]
  · intro self n e hn
    simp [Haltsum.read, Nat.not_lt.mpr hn, Env.warn]
  · intro self n e hn
    simp [Confstrptr.read, Nat.not_lt.mpr hn, Env.warn]

end Dmi

namespace Dmi

/-! ## `Authdata` and `Abstractauto` -/

/-- C18, as stated, fails: after `read ()` against a transport that answers 5,
the getter `authdata ()` returns 5, not the fixed value zero. -/
theorem C18_authdata_getter_not_fixed_zero :
    (Authdata.authdata (Authdata.read (constDtm 5) ⟨0⟩ ⟨(), [], []⟩).1
        (Authdata.read (constDtm 5) ⟨0⟩ ⟨(), [], []⟩).2).1 = 5
    ∧ (Authdata.authdata (Authdata.read (constDtm 5) ⟨0⟩ ⟨(), [], []⟩).1
        (Authdata.read (constDtm 5) ⟨0⟩ ⟨(), [], []⟩).2).1 ≠ 0 := by
  decide

open Authdata in
/-- C18, amended: in every state of `Authdata` the getter `authdata ()` returns
the current shadow value and writes one line to `cerr`: the value the transport
returned after `read ()` or `write ()`, `RESET_VALUE` after `reset ()`.  The
setter `authdata (v)` returns the object as it was for every `v`, uses no
transport and writes one line to `cerr`. -/
theorem C18_authdata_getter_returns_shadow {σ : Type} (d : IDtm σ) (RESET_VALUE v : Nat)
    (self : Authdata) (e : Env σ) :
    (self.authdata e).1 = self.mAuthdataReg
    ∧ (self.authdata e).2.dtm = e.dtm
    ∧ (self.authdata e).2.trace = e.trace
    ∧ (self.authdata e).2.cerr.length = e.cerr.length + 1
    ∧ ((read d self e).1.authdata (read d self e).2).1
        = (d.dmiRead e.dtm DMI_ADDR).1 % 2 ^ 32
    ∧ ((write d self e).1.authdata (write d self e).2).1
        = (d.dmiWrite e.dtm DMI_ADDR self.mAuthdataReg).1 % 2 ^ 32
    ∧ ((reset RESET_VALUE self e).1.authdata (reset RESET_VALUE self e).2).1 = RESET_VALUE
    ∧ (self.authdata_set v e).1 = self
    ∧ (self.authdata_set v e).2.dtm = e.dtm
    ∧ (self.authdata_set v e).2.trace = e.trace
    ∧ (self.authdata_set v e).2.cerr.length = e.cerr.length + 1 := by
  simp [Authdata.authdata, Authdata.authdata_set, Authdata.read, Authdata.write,
    Authdata.reset, Env.warn, Env.dmiRead, Env.dmiWrite]

namespace Abstractauto

theorem AUTOEXECPROGBUF_MASK_eq : AUTOEXECPROGBUF_MASK = fieldMask 16 16 := by decide

theorem autoexecprogbuf_eq_zero (self : Abstractauto) : self.autoexecprogbuf = 0 := by
  apply Nat.eq_of_testBit_eq
  intro i
  simp only [autoexecprogbuf, toU16, AUTOEXECPROGBUF_MASK_eq, AUTOEXECPROGBUF_OFFSET,
    Nat.testBit_mod_two_pow, testBit_shl32, Nat.testBit_and, testBit_fieldMask,
    Nat.zero_testBit]
  by_cases h1 : i < 16
  · have h2 : ¬ 16 ≤ i := by omega
    simp [h2]
  · simp [h1]

theorem autoexecprogbufField_set {σ : Type} (self : Abstractauto) (v : Nat) (e : Env σ) :
    autoexecprogbufField (self.autoexecprogbuf_set v e).1.mAbstractautoReg = v % 2 ^ 16 := by
  apply Nat.eq_of_testBit_eq
  intro i
  simp only [autoexecprogbufField, autoexecprogbuf_set, AUTOEXECPROGBUF_MASK_eq,
    AUTOEXECPROGBUF_OFFSET, Nat.testBit_mod_two_pow, Nat.testBit_shiftRight, Nat.testBit_or,
    Nat.testBit_and, testBit_not32, testBit_shl32, testBit_fieldMask]
  by_cases h : i < 16
  · have h1 : 16 + i < 32 := by omega
    have h2 : 16 + i < 16 + 16 := by omega
    simp [h, h1, h2]
  · simp [h]

end Abstractauto

/-- C20: the claim says the setter `autoexecprogbuf (v)` followed by the getter
returns `v`, and that the getter returns bits 31:16 of the shadow.  The setter
does store `v` in bits 31:16, but the getter shifts the masked shadow left by
`AUTOEXECPROGBUF_OFFSET` instead of right: in 32 bits nothing is left, it
returns 0 for every shadow value, so after `autoexecprogbuf (1)` it returns 0,
and for the shadow `0x12340000` it returns 0 where the field is `0x1234`. -/
theorem C20_autoexecprogbuf_getter_shifts_left :
    (∀ self : Abstractauto, self.autoexecprogbuf = 0)
    ∧ (∀ (self : Abstractauto) (v : Nat) (e : Env Unit),
        Abstractauto.autoexecprogbufField (self.autoexecprogbuf_set v e).1.mAbstractautoReg
          = v % 2 ^ 16)
    ∧ (Abstractauto.autoexecprogbuf_set ⟨false, 0⟩ 1 (⟨(), [], []⟩ : Env Unit)).1.autoexecprogbuf
        = 0
    ∧ Abstractauto.autoexecprogbufField
        (Abstractauto.autoexecprogbuf_set ⟨false, 0⟩ 1
          (⟨(), [], []⟩ : Env Unit)).1.mAbstractautoReg = 1
    ∧ Abstractauto.autoexecprogbuf ⟨false, 0x12340000⟩ = 0
    ∧ Abstractauto.autoexecprogbufField 0x12340000 = 0x1234 :=
  ⟨Abstractauto.autoexecprogbuf_eq_zero, Abstractauto.autoexecprogbufField_set,
   by decide, by decide, by decide, by decide⟩

end Dmi

namespace Dmi

/-! ## `Dmcontrol`: the request bits -/

namespace Dmcontrol

theorem HALTREQ_MASK_eq : HALTREQ_MASK = fieldMask 1 31 := by decide

theorem RESUMEREQ_MASK_eq : RESUMEREQ_MASK = fieldMask 1 30 := by decide

theorem ACKHAVERESET_MASK_eq : ACKHAVERESET_MASK = fieldMask 1 28 := by decide

theorem testBit_or_bit (s k i : Nat) :
    (s ||| fieldMask 1 k).testBit i = (s.testBit i || decide (i = k)) := by
  rw [Nat.testBit_or, testBit_fieldMask]
  by_cases h : i = k
  · subst h; simp
  · have h' : ¬ (k ≤ i ∧ i < k + 1) := by omega
    by_cases h1 : k ≤ i
    · have h2 : ¬ i < k + 1 := by omega
      simp [h, h1, h2]
    · simp [h, h1]

theorem testBit_clear_bit (s k i : Nat) (hs : s < 2 ^ 32) (hk : k < 32) :
    (s &&& not32 (fieldMask 1 k)).testBit i = (s.testBit i && !decide (i = k)) := by
  rw [Nat.testBit_and, testBit_not32, testBit_fieldMask, testBit_of_lt_two_pow hs i]
  by_cases h : i = k
  · subst h; simp [hk]
  · by_cases h0 : i < 32
    · by_cases h1 : k ≤ i
      · have h2 : ¬ i < k + 1 := by omega
        simp [h, h0, h1, h2]
      · simp [h, h0, h1]
    · simp [h0]

theorem hartsel_congr (a b : Dmcontrol)
    (h : ∀ i, 6 ≤ i → i < 26 → a.mDmcontrolReg.testBit i = b.mDmcontrolReg.testBit i) :
    a.hartsel = b.hartsel := by
  have hlo : hartselloField a.mDmcontrolReg = hartselloField b.mDmcontrolReg := by
    apply Nat.eq_of_testBit_eq
    intro i
    simp only [hartselloField, Nat.testBit_mod_two_pow, Nat.testBit_shiftRight]
    by_cases hi : i < 10
    · rw [h (16 + i) (by omega) (by omega)]
    · simp [hi]
  have hhi : hartselhiField a.mDmcontrolReg = hartselhiField b.mDmcontrolReg := by
    apply Nat.eq_of_testBit_eq
    intro i
    simp only [hartselhiField, Nat.testBit_mod_two_pow, Nat.testBit_shiftRight]
    by_cases hi : i < 10
    · rw [h (6 + i) (by omega) (by omega)]
    · simp [hi]
  rw [hartsel_eq, hartsel_eq, hlo, hhi]

end Dmcontrol

open Dmcontrol in
/-- C26: for every 32-bit `dmcontrol` shadow value, `haltreq (true)` sets bit 31
and `haltreq (false)` clears it, `resumereq ()` sets bit 30 and `ackhavereset ()`
sets bit 28; each leaves every other bit as it was, so `hartsel ()` is unchanged,
and each returns the environment (transport, trace, `cerr`) as it was. -/
theorem C26_dmcontrol_request_bits {σ : Type} (self : Dmcontrol) (e : Env σ)
    (hs : self.mDmcontrolReg < 2 ^ 32) :
    ((self.haltreq true e).1.mDmcontrolReg.testBit 31 = true
      ∧ (∀ i, i ≠ 31 →
          (self.haltreq true e).1.mDmcontrolReg.testBit i = self.mDmcontrolReg.testBit i)
      ∧ (self.haltreq true e).1.hartsel = self.hartsel
      ∧ (self.haltreq true e).2 = e)
    ∧ ((self.haltreq false e).1.mDmcontrolReg.testBit 31 = false
      ∧ (∀ i, i ≠ 31 →
          (self.haltreq false e).1.mDmcontrolReg.testBit i = self.mDmcontrolReg.testBit i)
      ∧ (self.haltreq false e).1.hartsel = self.hartsel
      ∧ (self.haltreq false e).2 = e)
    ∧ ((self.resumereq e).1.mDmcontrolReg.testBit 30 = true
      ∧ (∀ i, i ≠ 30 →
          (self.resumereq e).1.mDmcontrolReg.testBit i = self.mDmcontrolReg.testBit i)
      ∧ (self.resumereq e).1.hartsel = self.hartsel
      ∧ (self.resumereq e).2 = e)
    ∧ ((self.ackhavereset e).1.mDmcontrolReg.testBit 28 = true
      ∧ (∀ i, i ≠ 28 →
          (self.ackhavereset e).1.mDmcontrolReg.testBit i = self.mDmcontrolReg.testBit i)
      ∧ (self.ackhavereset e).1.hartsel = self.hartsel
      ∧ (self.ackhavereset e).2 = e) := by
  have t1 : ∀ i, (self.haltreq true e).1.mDmcontrolReg.testBit i
      = (self.mDmcontrolReg.testBit i || decide (i = 31)) := by
    intro i
    simp only [haltreq, if_true, HALTREQ_MASK_eq]
    exact testBit_or_bit _ _ _
  have t2 : ∀ i, (self.haltreq false e).1.mDmcontrolReg.testBit i
      = (self.mDmcontrolReg.testBit i && !decide (i = 31)) := by
    intro i
    simp only [haltreq, Bool.false_eq_true, if_false, HALTREQ_MASK_eq]
    exact testBit_clear_bit _ _ _ hs (by omega)
  have t3 : ∀ i, (self.resumereq e).1.mDmcontrolReg.testBit i
      = (self.mDmcontrolReg.testBit i || decide (i = 30)) := by
    intro i
    simp only [resumereq, RESUMEREQ_MASK_eq]
    exact testBit_or_bit _ _ _
  have t4 : ∀ i, (self.ackhavereset e).1.mDmcontrolReg.testBit i
      = (self.mDmcontrolReg.testBit i || decide (i = 28)) := by
    intro i
    simp only [ackhavereset, ACKHAVERESET_MASK_eq]
    exact testBit_or_bit _ _ _
  refine ⟨⟨?_, ?_, ?_, rfl⟩, ⟨?_, ?_, ?_, rfl⟩, ⟨?_, ?_, ?_, rfl⟩, ⟨?_, ?_, ?_, rfl⟩⟩
  · rw [t1]; simp
  · intro i hi; rw [t1]; simp [hi]
  · apply hartsel_congr
    intro i h1 h2
    rw [t1]
    have : i ≠ 31 := by omega
    simp [this]
  · rw [t2]; simp
  · intro i hi; rw [t2]; simp [hi]
  · apply hartsel_congr
    intro i h1 h2
    rw [t2]
    have : i ≠ 31 := by omega
    simp [this]
  · rw [t3]; simp
  · intro i hi; rw [t3]; simp [hi]
  · apply hartsel_congr
    intro i h1 h2
    rw [t3]
    have : i ≠ 30 := by omega
    simp [this]
  · rw [t4]; simp
  · intro i hi; rw [t4]; simp [hi]
  · apply hartsel_congr
    intro i h1 h2
    rw [t4]
    have : i ≠ 28 := by omega
    simp [this]

/-- C26 at the shadow value `0x8ABCDE41` (hart `0x793AB` selected, `haltreq`
set): `haltreq (false)` keeps the selected hart. -/
theorem C26_dmcontrol_request_bits_witness :
    (0x8ABCDE41 : Nat) < 2 ^ 32
    ∧ (Dmcontrol.haltreq ⟨false, 0x8ABCDE41⟩ false (⟨(), [], []⟩ : Env Unit)).1.hartsel
        = Dmcontrol.hartsel ⟨false, 0x8ABCDE41⟩ :=
  ⟨by decide,
   (C26_dmcontrol_request_bits ⟨false, 0x8ABCDE41⟩ ⟨(), [], []⟩ (by decide)).2.1.2.2.1⟩

end Dmi

namespace Dmi

/-! ## `Command`, `Hawindowsel` and the remaining `Sbcs` getters -/

namespace Command

theorem CMDTYPE_MASK_eq : CMDTYPE_MASK = fieldMask 8 24 := by decide

theorem CONTROL_MASK_eq : CONTROL_MASK = fieldMask 24 0 := by decide

theorem testBit_cmdtype_set {σ : Type} (self : Command) (t : Nat) (e : Env σ) (i : Nat) :
    (self.cmdtype_set t e).1.mCommandReg.testBit i =
      if 24 ≤ i ∧ i < 32 then t.testBit (i - 24)
      else (decide (i < 32) && self.mCommandReg.testBit i) := by
  simp only [cmdtype_set, CMDTYPE_MASK_eq, CMDTYPE_OFFSET, Nat.testBit_and, Nat.testBit_or,
    testBit_not32, testBit_shl32, testBit_fieldMask]
  by_cases h1 : 24 ≤ i <;> by_cases h5 : i < 32 <;>
    first | omega | (simp [h1, h5]; try omega)

theorem testBit_control_set {σ : Type} (self : Command) (c : Nat) (e : Env σ) (i : Nat) :
    (self.control_set c e).1.mCommandReg.testBit i =
      if i < 24 then c.testBit i
      else (decide (i < 32) && self.mCommandReg.testBit i) := by
  simp only [control_set, CONTROL_MASK_eq, CONTROL_OFFSET, Nat.testBit_and, Nat.testBit_or,
    testBit_not32, testBit_shl32, testBit_fieldMask]
  by_cases h1 : i < 24 <;> by_cases h5 : i < 32 <;>
    first | omega | (simp [h1, h5]; try omega)

theorem testBit_combined (t c i : Nat) (ht : t < 2 ^ 8) :
    ((t <<< 24) ||| (c % 2 ^ 24)).testBit i =
      if 24 ≤ i ∧ i < 32 then t.testBit (i - 24) else (decide (i < 24) && c.testBit i) := by
  rw [Nat.testBit_or, Nat.testBit_shiftLeft, Nat.testBit_mod_two_pow,
    testBit_of_lt_two_pow ht (i - 24)]
  by_cases h1 : 24 ≤ i <;> by_cases h5 : i < 32 <;>
    first | omega | (simp [h1, h5]; try omega)

end Command

open Command in
/-- C27: for every 32-bit `command` shadow value, every 8-bit `t` and every `c`,
`cmdtype (t)` puts `t` in bits 31:24 and leaves bits 23:0 alone, `control (c)`
puts `c mod 2^24` in bits 23:0 and leaves bits 31:24 alone, and applying the two
in either order gives the shadow value `(t << 24) | (c mod 2^24)`. -/
theorem C27_command_setters_independent {σ : Type} (self : Command) (t c : Nat) (e : Env σ)
    (hs : self.mCommandReg < 2 ^ 32) (ht : t < 2 ^ 8) :
    ((self.cmdtype_set t e).1.mCommandReg >>> 24 = t
      ∧ (∀ i, i < 24 →
          (self.cmdtype_set t e).1.mCommandReg.testBit i = self.mCommandReg.testBit i))
    ∧ ((self.control_set c e).1.mCommandReg % 2 ^ 24 = c % 2 ^ 24
      ∧ (∀ i, 24 ≤ i →
          (self.control_set c e).1.mCommandReg.testBit i = self.mCommandReg.testBit i))
    ∧ ((self.cmdtype_set t e).1.control_set c (self.cmdtype_set t e).2).1.mCommandReg
        = (t <<< 24) ||| (c % 2 ^ 24)
    ∧ ((self.control_set c e).1.cmdtype_set t (self.control_set c e).2).1.mCommandReg
        = (t <<< 24) ||| (c % 2 ^ 24) := by
  refine ⟨⟨?_, ?_⟩, ⟨?_, ?_⟩, ?_, ?_⟩
  · apply Nat.eq_of_testBit_eq
    intro i
    rw [Nat.testBit_shiftRight, testBit_cmdtype_set, testBit_of_lt_two_pow ht i]
    by_cases h : i < 8
    · have h1 : 24 ≤ 24 + i ∧ 24 + i < 32 := by omega
      simp [h, h1]
    · have h1 : ¬ (24 ≤ 24 + i ∧ 24 + i < 32) := by omega
      have h2 : ¬ 24 + i < 32 := by omega
      simp [h, h1, h2]
  · intro i hi
    have h1 : ¬ (24 ≤ i ∧ i < 32) := by omega
    have h2 : i < 32 := by omega
    rw [testBit_cmdtype_set, if_neg h1]
    simp [h2]
  · apply Nat.eq_of_testBit_eq
    intro i
    rw [Nat.testBit_mod_two_pow, Nat.testBit_mod_two_pow, testBit_control_set]
    by_cases h : i < 24
    · simp [h]
    · simp [h]
  · intro i hi
    rw [testBit_control_set, if_neg (by omega)]
    exact (testBit_of_lt_two_pow hs i).symm
  · apply Nat.eq_of_testBit_eq
    intro i
    rw [testBit_control_set, testBit_cmdtype_set, testBit_combined t c i ht]
    by_cases h0 : i < 24
    · have h1 : ¬ (24 ≤ i ∧ i < 32) := by omega
      rw [if_pos h0, if_neg h1]
      simp [h0]
    · by_cases h5 : i < 32
      · have h1 : 24 ≤ i ∧ i < 32 := by omega
        rw [if_neg h0, if_pos h1, if_pos h1]
        simp [h5]
      · have h1 : ¬ (24 ≤ i ∧ i < 32) := by omega
        rw [if_neg h0, if_neg h1, if_neg h1]
        simp [h0, h5]
  · apply Nat.eq_of_testBit_eq
    intro i
    rw [testBit_cmdtype_set, testBit_control_set, testBit_combined t c i ht]
    by_cases h0 : i < 24
    · have h1 : ¬ (24 ≤ i ∧ i < 32) := by omega
      have h5 : i < 32 := by omega
      rw [if_neg h1, if_neg h1, if_pos h0]
      simp [h0, h5]
    · by_cases h5 : i < 32
      · have h1 : 24 ≤ i ∧ i < 32 := by omega
        rw [if_pos h1, if_pos h1]
      · have h1 : ¬ (24 ≤ i ∧ i < 32) := by omega
        rw [if_neg h1, if_neg h1]
        simp [h0, h5]

/-- C27 at the shadow value `0xFFFFFFFF`, `t = 0` and `c = 0x01221008`. -/
theorem C27_command_setters_independent_witness :
    (0xFFFFFFFF : Nat) < 2 ^ 32 ∧ 0 < 2 ^ 8
    ∧ (Command.control_set
        (Command.cmdtype_set ⟨false, 0xFFFFFFFF⟩ 0 (⟨(), [], []⟩ : Env Unit)).1 0x01221008
        (Command.cmdtype_set ⟨false, 0xFFFFFFFF⟩ 0 (⟨(), [], []⟩ : Env Unit)).2).1.mCommandReg
      = (0 <<< 24) ||| (0x01221008 % 2 ^ 24) :=
  ⟨by decide, by decide,
   (C27_command_setters_independent ⟨false, 0xFFFFFFFF⟩ 0 0x01221008 ⟨(), [], []⟩
     (by decide) (by decide)).2.2.1⟩

namespace Hawindowsel

theorem HAWINDOWSEL_MASK_eq : HAWINDOWSEL_MASK = fieldMask 15 0 := by decide

theorem testBit_hawindowsel_set {σ : Type} (self : Hawindowsel) (v : Nat) (e : Env σ)
    (i : Nat) :
    (self.hawindowsel_set v e).1.mHawindowselReg.testBit i =
      if i < 15 then v.testBit i
      else (decide (i < 32) && self.mHawindowselReg.testBit i) := by
  simp only [hawindowsel_set, HAWINDOWSEL_MASK_eq, HAWINDOWSEL_OFFSET, Nat.testBit_and,
    Nat.testBit_or, testBit_not32, testBit_shl32, testBit_fieldMask]
  by_cases h1 : i < 15 <;> by_cases h5 : i < 32 <;>
    first | omega | (simp [h1, h5]; try omega)

theorem hawindowsel_eq (self : Hawindowsel) :
    self.hawindowsel = self.mHawindowselReg % 2 ^ 15 := by
  unfold hawindowsel toU16
  rw [HAWINDOWSEL_MASK_eq, HAWINDOWSEL_OFFSET, getField_eq, Nat.shiftRight_zero]
  have h : self.mHawindowselReg % 2 ^ 15 < 2 ^ 15 := Nat.mod_lt _ (by norm_num)
  omega

end Hawindowsel

open Hawindowsel in
/-- C28: for every `v` and every prior 32-bit `hawindowsel` shadow value, after
the setter `hawindowsel (v)` the getter returns `v mod 2^15`, which is `v` when
`v < 2^15`; bits 15 and above of the shadow keep their values, the transport is
not used, and a line goes to `cerr` exactly when `v ≥ 2^15`. -/
theorem C28_hawindowsel_set_then_get {σ : Type} (self : Hawindowsel) (v : Nat) (e : Env σ)
    (hs : self.mHawindowselReg < 2 ^ 32) :
    (self.hawindowsel_set v e).1.hawindowsel = v % 2 ^ 15
    ∧ (v < 2 ^ 15 → (self.hawindowsel_set v e).1.hawindowsel = v)
    ∧ (∀ i, 15 ≤ i →
        (self.hawindowsel_set v e).1.mHawindowselReg.testBit i
          = self.mHawindowselReg.testBit i)
    ∧ (self.hawindowsel_set v e).2.dtm = e.dtm
    ∧ (self.hawindowsel_set v e).2.trace = e.trace
    ∧ ((self.hawindowsel_set v e).2.cerr ≠ e.cerr ↔ 2 ^ 15 ≤ v) := by
  have hget : (self.hawindowsel_set v e).1.hawindowsel = v % 2 ^ 15 := by
    rw [hawindowsel_eq]
    apply Nat.eq_of_testBit_eq
    intro i
    rw [Nat.testBit_mod_two_pow, Nat.testBit_mod_two_pow, testBit_hawindowsel_set]
    by_cases h : i < 15
    · simp [h]
    · simp [h]
  refine ⟨hget, ?_, ?_, ?_, ?_, ?_⟩
  · intro hv
    rw [hget, Nat.mod_eq_of_lt hv]
  · intro i hi
    rw [testBit_hawindowsel_set, if_neg (by omega)]
    exact (testBit_of_lt_two_pow hs i).symm
  · unfold hawindowsel_set
    dsimp only
    split <;> rfl
  · unfold hawindowsel_set
    dsimp only
    split <;> rfl
  · have hc : (1 <<< HAWINDOWSEL_SIZE : Nat) = 2 ^ 15 := by decide
    unfold hawindowsel_set
    dsimp only
    rw [hc]
    by_cases h : v ≥ 2 ^ 15
    · rw [if_pos h]
      exact ⟨fun _ => h, fun _ => cerr_append_ne e _⟩
    · rw [if_neg h]
      exact ⟨fun hne => absurd rfl hne, fun hge => absurd hge h⟩

/-- C28 at the shadow value `0xFFFF8000` and `v = 0xFFFF`. -/
theorem C28_hawindowsel_set_then_get_witness :
    (0xFFFF8000 : Nat) < 2 ^ 32
    ∧ (Hawindowsel.hawindowsel_set ⟨0xFFFF8000⟩ 0xFFFF
        (⟨(), [], []⟩ : Env Unit)).1.hawindowsel = 0xFFFF % 2 ^ 15 :=
  ⟨by decide,
   (C28_hawindowsel_set_then_get ⟨0xFFFF8000⟩ 0xFFFF ⟨(), [], []⟩ (by decide)).1⟩

namespace Sbcs

theorem SBVERSION_MASK_eq : SBVERSION_MASK = fieldMask 3 29 := by decide

theorem SBASIZE_MASK_eq : SBASIZE_MASK = fieldMask 7 5 := by decide

theorem sbversion_mod (self : Sbcs) : self.sbversion % 8 = 7 := by
  have h := or_fieldMask_low self.mSbcsReg 3 29
  unfold sbversion toU8
  rw [SBVERSION_MASK_eq, SBVERSION_OFFSET]
  omega

theorem sbasize_mod (self : Sbcs) : self.sbasize % 128 = 127 := by
  have h := or_fieldMask_low self.mSbcsReg 7 5
  unfold sbasize toU8
  rw [SBASIZE_MASK_eq, SBASIZE_OFFSET]
  omega

end Sbcs

/-- C29: the claim says `sbversion ()` returns the field sbcs[31:29] and
`sbasize ()` the field sbcs[11:5], both 0 for the shadow 0.  Both getters OR the
shadow with the mask before shifting: the low three bits of `sbversion ()` and
the low seven bits of `sbasize ()` are always ones, so for the shadow 0 they
return 7 and 127. -/
theorem C29_sbversion_sbasize_force_field_bits :
    (∀ self : Sbcs, self.sbversion % 8 = 7)
    ∧ (∀ self : Sbcs, self.sbasize % 128 = 127)
    ∧ Sbcs.sbversionField 0 = 0 ∧ Sbcs.sbversion ⟨false, 0⟩ = 7
    ∧ Sbcs.sbasizeField 0 = 0 ∧ Sbcs.sbasize ⟨false, 0⟩ = 127
    ∧ Sbcs.sbversionField 0x20000040 = 1 ∧ Sbcs.sbversion ⟨false, 0x20000040⟩ = 7
    ∧ Sbcs.sbasizeField 0x20000040 = 2 ∧ Sbcs.sbasize ⟨false, 0x20000040⟩ = 127 :=
  ⟨Sbcs.sbversion_mod, Sbcs.sbasize_mod, by decide, by decide, by decide, by decide,
   by decide, by decide, by decide, by decide⟩

end Dmi

namespace Dmi

/-! ## Construction and the `data` array -/

theorem update_const_same {N : Nat} (n : Nat) (h : n < N) (v : Nat) :
    Function.update (fun _ : Fin N => v) ⟨n, h⟩ v = fun _ => v := by
  funext m
  simp [Function.update_apply]

/-- C24: the constructor of `Dmi` makes no transport call and leaves every
register that has a `reset ()` holding its reset value: on the fresh objects
`reset ()`, and `reset (n)` for every `n` in range on the arrays, returns the
same object and makes no transport call.  The reset values of the single
registers are arbitrary (`rv`); those of the arrays are 0, as the constructors
store `0x0`. -/
theorem C24_fresh_registers_hold_reset_value {σ : Type} (rv : ResetValues) (e e1 : Env σ) :
    (Dmi.construct rv e).2 = e
    ∧ ((Dmi.construct rv e).1.mDmcontrol.mDmcontrolReg = rv.dmcontrol
      ∧ (Dmcontrol.reset rv.dmcontrol (Dmi.construct rv e).1.mDmcontrol e1)
          = ((Dmi.construct rv e).1.mDmcontrol, e1))
    ∧ ((Dmi.construct rv e).1.mHawindowsel.mHawindowselReg = rv.hawindowsel
      ∧ (Hawindowsel.reset rv.hawindowsel (Dmi.construct rv e).1.mHawindowsel e1)
          = ((Dmi.construct rv e).1.mHawindowsel, e1))
    ∧ ((Dmi.construct rv e).1.mHawindow.mHawindowReg = rv.hawindow
      ∧ (Hawindow.reset rv.hawindow (Dmi.construct rv e).1.mHawindow e1)
          = ((Dmi.construct rv e).1.mHawindow, e1))
    ∧ ((Dmi.construct rv e).1.mAbstractcs.mAbstractcsReg = rv.abstractcs
      ∧ (Abstractcs.reset rv.abstractcs (Dmi.construct rv e).1.mAbstractcs e1)
          = ((Dmi.construct rv e).1.mAbstractcs, e1))
    ∧ ((Dmi.construct rv e).1.mCommand.mCommandReg = rv.command
      ∧ (Command.reset rv.command (Dmi.construct rv e).1.mCommand e1)
          = ((Dmi.construct rv e).1.mCommand, e1))
    ∧ ((Dmi.construct rv e).1.mAbstractauto.mAbstractautoReg = rv.abstractauto
      ∧ (Abstractauto.reset rv.abstractauto (Dmi.construct rv e).1.mAbstractauto e1)
          = ((Dmi.construct rv e).1.mAbstractauto, e1))
    ∧ ((Dmi.construct rv e).1.mAuthdata.mAuthdataReg = rv.authdata
      ∧ (Authdata.reset rv.authdata (Dmi.construct rv e).1.mAuthdata e1).1
          = (Dmi.construct rv e).1.mAuthdata
      ∧ (Authdata.reset rv.authdata (Dmi.construct rv e).1.mAuthdata e1).2.dtm = e1.dtm
      ∧ (Authdata.reset rv.authdata (Dmi.construct rv e).1.mAuthdata e1).2.trace = e1.trace)
    ∧ ((Dmi.construct rv e).1.mSbcs.mSbcsReg = rv.sbcs
      ∧ (Sbcs.reset rv.sbcs (Dmi.construct rv e).1.mSbcs e1)
          = ((Dmi.construct rv e).1.mSbcs, e1))
    ∧ (∀ n, n < Data.NUM_REGS →
        Data.reset Data.RESET_VALUE (Dmi.construct rv e).1.mData n e1
          = ((Dmi.construct rv e).1.mData, e1))
    ∧ (∀ n, n < Progbuf.NUM_REGS →
        Progbuf.reset Progbuf.RESET_VALUE (Dmi.construct rv e).1.mProgbuf n e1
          = ((Dmi.construct rv e).1.mProgbuf, e1))
    ∧ (∀ n, n < Sbaddress.NUM_REGS →
        Sbaddress.reset Sbaddress.RESET_VALUE (Dmi.construct rv e).1.mSbaddress n e1
          = ((Dmi.construct rv e).1.mSbaddress, e1))
    ∧ (∀ n, n < Sbdata.NUM_REGS →
        Sbdata.reset Sbdata.RESET_VALUE (Dmi.construct rv e).1.mSbdata n e1
          = ((Dmi.construct rv e).1.mSbdata, e1)) := by
  refine ⟨rfl, ⟨rfl, rfl⟩, ⟨rfl, rfl⟩, ⟨rfl, rfl⟩, ⟨rfl, rfl⟩, ⟨rfl, rfl⟩, ⟨rfl, rfl⟩,
    ⟨rfl, rfl, rfl, rfl⟩, ⟨rfl, rfl⟩, ?_, ?_, ?_, ?_⟩
  · intro n hn
    simp only [Data.reset, dif_pos hn, Dmi.construct, Data.construct, Data.RESET_VALUE,
      update_const_same]
  · intro n hn
    simp only [Progbuf.reset, dif_pos hn, Dmi.construct, Progbuf.construct,
      Progbuf.RESET_VALUE, update_const_same]
  · intro n hn
    simp only [Sbaddress.reset, dif_pos hn, Dmi.construct, Sbaddress.construct,
      Sbaddress.RESET_VALUE, update_const_same]
  · intro n hn
    simp only [Sbdata.reset, dif_pos hn, Dmi.construct, Sbdata.construct,
      Sbdata.RESET_VALUE, update_const_same]

theorem Data.DMI_ADDR_eq (n : Nat) (hn : n < Data.NUM_REGS) : Data.DMI_ADDR n = 0x04 + n := by
  have h : n < 12 := hn
  interval_cases n <;> rfl

/-- C25: for every index `n < 12`, every value `v` and every state of the `data`
array, after the setter `data (n, v)` the getter `data (n)` returns `v` and
`data (m)` returns what it returned before for every other `m`; `read (n)`,
`reset (n)` and `write (n)` leave `data (m)` alone for every other `m` in range,
`reset (n)` and the setter make no transport call, and `read (n)` and `write (n)`
make exactly one, at `DMI_ADDR[n]`. -/
theorem C25_data_slots_independent {σ : Type} (d : IDtm σ) (RESET_VALUE : Nat) (self : Data)
    (n v : Nat) (e e1 : Env σ) (hn : n < Data.NUM_REGS) :
    ((Data.data (Data.data_set self n v e).1 n e1).1 = v
      ∧ (∀ m, m ≠ n → (Data.data (Data.data_set self n v e).1 m e1).1 = (Data.data self m e1).1)
      ∧ (Data.data_set self n v e).2 = e)
    ∧ ((∀ m, m ≠ n → (Data.data (Data.read d self n e).1 m e1).1 = (Data.data self m e1).1)
      ∧ (Data.read d self n e).2.trace = e.trace ++ [DtmOp.dmiRead (Data.DMI_ADDR n)])
    ∧ ((∀ m, m ≠ n →
          (Data.data (Data.reset RESET_VALUE self n e).1 m e1).1 = (Data.data self m e1).1)
      ∧ (Data.reset RESET_VALUE self n e).2 = e)
    ∧ ((∀ m, m ≠ n → (Data.data (Data.write d self n e).1 m e1).1 = (Data.data self m e1).1)
      ∧ (Data.write d self n e).2.trace
          = e.trace ++ [DtmOp.dmiWrite (Data.DMI_ADDR n) (Data.data self n e1).1])
    ∧ Data.DMI_ADDR n = 0x04 + n := by
  have hne : ∀ m (hm : m < Data.NUM_REGS), m ≠ n → (⟨m, hm⟩ : Fin Data.NUM_REGS) ≠ ⟨n, hn⟩ := by
    intro m hm h hc
    exact h (Fin.mk.inj hc)
  have frame : ∀ (x : Nat) (m : Nat), m ≠ n →
      (Data.data ⟨Function.update self.mDataReg ⟨n, hn⟩ x⟩ m e1).1 = (Data.data self m e1).1 := by
    intro x m hm
    by_cases h : m < Data.NUM_REGS
    · simp only [Data.data, dif_pos h]
      exact Function.update_noteq (hne m h hm) _ _
    · simp only [Data.data, dif_neg h]
  refine ⟨⟨?_, ?_, ?_⟩, ⟨?_, ?_⟩, ⟨?_, ?_⟩, ⟨?_, ?_⟩, Data.DMI_ADDR_eq n hn⟩
  · simp only [Data.data_set, Data.data, dif_pos hn, Function.update_same]
  · intro m hm
    simp only [Data.data_set, dif_pos hn]
    exact frame v m hm
  · simp only [Data.data_set, dif_pos hn]
  · intro m hm
    simp only [Data.read, dif_pos hn]
    exact frame _ m hm
  · simp only [Data.read, dif_pos hn]
    rfl
  · intro m hm
    simp only [Data.reset, dif_pos hn]
    exact frame _ m hm
  · simp only [Data.reset, dif_pos hn]
  · intro m hm
    simp only [Data.write, dif_pos hn]
    exact frame _ m hm
  · simp only [Data.write, Data.data, dif_pos hn]
    rfl

/-- C25 at slot 3 of an array holding 7 everywhere, with `v = 9`: slot 4 still
reads 7. -/
theorem C25_data_slots_independent_witness :
    3 < Data.NUM_REGS
    ∧ (Data.data (Data.data_set ⟨fun _ => 7⟩ 3 9 (⟨(), [], []⟩ : Env Unit)).1 3
        (⟨(), [], []⟩ : Env Unit)).1 = 9
    ∧ (Data.data (Data.data_set ⟨fun _ => 7⟩ 3 9 (⟨(), [], []⟩ : Env Unit)).1 4
        (⟨(), [], []⟩ : Env Unit)).1 = 7 :=
  ⟨by decide,
   (C25_data_slots_independent (constDtm 0) 0 ⟨fun _ => 7⟩ 3 9 ⟨(), [], []⟩ ⟨(), [], []⟩
     (by decide)).1.1,
   by decide⟩

end Dmi

namespace Dmi

/-! ## Halting a hart -/

theorem testBit_mod32 (x i : Nat) (hi : i < 32) : (x % 2 ^ 32).testBit i = x.testBit i := by
  rw [Nat.testBit_mod_two_pow]
  simp [hi]

theorem Dmstatus.halted_iff_bits (self : Dmstatus) :
    self.halted = true ↔
      (self.mDmstatusReg.testBit 9 = true ∨ self.mDmstatusReg.testBit 8 = true) := by
  unfold Dmstatus.halted
  rw [Dmstatus.halted_mask_eq, bne_iff_ne, Ne, and_fieldMask_eq_zero_iff]
  exact Dmstatus.two_bits_ne_zero_iff self.mDmstatusReg 8

theorem Dmstatus.halted_read_iff {σ : Type} (d : IDtm σ) (st : Dmstatus) (e : Env σ) :
    (Dmstatus.read d st e).1.halted = true ↔
      ((d.dmiRead e.dtm Dmstatus.DMI_ADDR).1.testBit 9 = true
        ∨ (d.dmiRead e.dtm Dmstatus.DMI_ADDR).1.testBit 8 = true) := by
  rw [Dmstatus.halted_iff_bits]
  simp only [Dmstatus.read, Env.dmiRead]
  rw [testBit_mod32 _ 9 (by omega), testBit_mod32 _ 8 (by omega)]

theorem pollHalted_trace {σ : Type} (d : IDtm σ) (bound : Nat) :
    ∀ (st : Dmstatus) (e : Env σ), ∃ k, k ≤ bound
      ∧ (pollHalted d bound st e).2.2.trace
          = e.trace ++ List.replicate k (DtmOp.dmiRead Dmstatus.DMI_ADDR)
      ∧ (pollHalted d bound st e).2.2.cerr = e.cerr := by
  induction bound with
  | zero =>
    intro st e
    exact ⟨0, Nat.le_refl 0, by simp [pollHalted], rfl⟩
  | succ k ih =>
    intro st e
    by_cases h : (Dmstatus.read d st e).1.halted = true
    · refine ⟨1, by omega, ?_, ?_⟩
      · simp only [pollHalted, if_pos h]
        rfl
      · simp only [pollHalted, if_pos h]
        rfl
    · obtain ⟨j, hj, htr, hce⟩ := ih (Dmstatus.read d st e).1 (Dmstatus.read d st e).2
      refine ⟨j + 1, by omega, ?_, ?_⟩
      · simp only [pollHalted, if_neg h]
        rw [htr]
        simp [Dmstatus.read, Env.dmiRead, List.replicate_succ]
      · simp only [pollHalted, if_neg h]
        rw [hce]
        rfl

theorem pollHalted_never {σ : Type} (d : IDtm σ) (hd : NeverHalts d) (bound : Nat) :
    ∀ (st : Dmstatus) (e : Env σ), (pollHalted d bound st e).1 = false
      ∧ (pollHalted d bound st e).2.2.trace
          = e.trace ++ List.replicate bound (DtmOp.dmiRead Dmstatus.DMI_ADDR) := by
  induction bound with
  | zero =>
    intro st e
    exact ⟨rfl, by simp [pollHalted]⟩
  | succ k ih =>
    intro st e
    have h : ¬ (Dmstatus.read d st e).1.halted = true := by
      rw [Dmstatus.halted_read_iff]
      have := hd e.dtm
      simp [this.1, this.2]
    obtain ⟨hr, htr⟩ := ih (Dmstatus.read d st e).1 (Dmstatus.read d st e).2
    refine ⟨?_, ?_⟩
    · simp only [pollHalted, if_neg h]
      exact hr
    · simp only [pollHalted, if_neg h]
      rw [htr]
      simp [Dmstatus.read, Env.dmiRead, List.replicate_succ]

theorem Dmcontrol.hartsel_set_trace {σ : Type} (self : Dmcontrol) (v : Nat) (e : Env σ) :
    (self.hartsel_set v e).2.trace = e.trace ∧ (self.hartsel_set v e).2.dtm = e.dtm := by
  unfold Dmcontrol.hartsel_set
  dsimp only
  split <;> exact ⟨rfl, rfl⟩

theorem haltHart_writes_trace {σ : Type} (d : IDtm σ) (self : Dmi) (h : Nat) (e : Env σ) :
    (Dmcontrol.write d
        ((selectHart d self h e).1.mDmcontrol.haltreq true (selectHart d self h e).2).1
        ((selectHart d self h e).1.mDmcontrol.haltreq true (selectHart d self h e).2).2).2.trace
      = e.trace ++ [DtmOp.dmiWrite Dmcontrol.DMI_ADDR (self.mDmcontrol.hartsel_set h e).1.mDmcontrolReg,
          DtmOp.dmiWrite Dmcontrol.DMI_ADDR
            ((selectHart d self h e).1.mDmcontrol.haltreq true
              (selectHart d self h e).2).1.mDmcontrolReg] := by
  simp only [Dmcontrol.write, Env.dmiWrite, Dmcontrol.haltreq, if_true, selectHart,
    (Dmcontrol.hartsel_set_trace self.mDmcontrol h e).1, List.append_assoc, List.singleton_append]


/-- C23: `haltHart (0)` returns for every transport, bound and state (the model
is a total function), after two writes of `dmcontrol` and at most `bound` reads
of `dmstatus`.  Against a transport that sets `dmstatus.halted` after the
`haltreq` write it reports success after one poll when `bound > 0`; against a
transport that never sets `halted` it reports failure after exactly `bound`
polls.  With `bound = 3` the two test doubles give success after 1 poll and
failure after 3. -/
theorem C23_haltHart_terminates {σ : Type} (d : IDtm σ) (bound : Nat) (self : Dmi)
    (e : Env σ) :
    (∃ v1 v2 k, k ≤ bound
      ∧ (haltHart d bound self 0 e).2.2.trace
          = e.trace ++ [DtmOp.dmiWrite Dmcontrol.DMI_ADDR v1, DtmOp.dmiWrite Dmcontrol.DMI_ADDR v2]
              ++ List.replicate k (DtmOp.dmiRead Dmstatus.DMI_ADDR))
    ∧ (HaltsOnHaltreq d → 0 < bound →
        (haltHart d bound self 0 e).1 = true
        ∧ readsOf Dmstatus.DMI_ADDR (haltHart d bound self 0 e).2.2.trace
            = readsOf Dmstatus.DMI_ADDR e.trace + 1)
    ∧ (NeverHalts d →
        (haltHart d bound self 0 e).1 = false
        ∧ readsOf Dmstatus.DMI_ADDR (haltHart d bound self 0 e).2.2.trace
            = readsOf Dmstatus.DMI_ADDR e.trace + bound)
    ∧ ((haltHart haltingDtm 3 fresh 0 ⟨false, [], []⟩).1 = true
        ∧ readsOf Dmstatus.DMI_ADDR (haltHart haltingDtm 3 fresh 0 ⟨false, [], []⟩).2.2.trace = 1)
    ∧ ((haltHart (constDtm 0) 3 fresh 0 ⟨(), [], []⟩).1 = false
        ∧ readsOf Dmstatus.DMI_ADDR (haltHart (constDtm 0) 3 fresh 0 ⟨(), [], []⟩).2.2.trace
            = 3) := by
  refine ⟨?_, ?_, ?_, by decide, by decide⟩
  · obtain ⟨k, hk, htr, _⟩ := pollHalted_trace d bound
      (selectHart d self 0 e).1.mDmstatus
      (Dmcontrol.write d
        ((selectHart d self 0 e).1.mDmcontrol.haltreq true (selectHart d self 0 e).2).1
        ((selectHart d self 0 e).1.mDmcontrol.haltreq true (selectHart d self 0 e).2).2).2
    refine ⟨(self.mDmcontrol.hartsel_set 0 e).1.mDmcontrolReg,
      ((selectHart d self 0 e).1.mDmcontrol.haltreq true
        (selectHart d self 0 e).2).1.mDmcontrolReg, k, hk, ?_⟩
    simp only [haltHart]
    rw [htr, haltHart_writes_trace]
  · intro hd hb
    obtain ⟨b, rfl⟩ : ∃ b, bound = b + 1 := ⟨bound - 1, by omega⟩
    have hbit : ∀ x : Nat, (x ||| Dmcontrol.HALTREQ_MASK).testBit 31 = true := by
      intro x
      rw [Dmcontrol.HALTREQ_MASK_eq, Dmcontrol.testBit_or_bit]
      simp
    have hh : (Dmstatus.read d (selectHart d self 0 e).1.mDmstatus
        (Dmcontrol.write d
          ((selectHart d self 0 e).1.mDmcontrol.haltreq true (selectHart d self 0 e).2).1
          ((selectHart d self 0 e).1.mDmcontrol.haltreq true
            (selectHart d self 0 e).2).2).2).1.halted = true := by
      rw [Dmstatus.halted_read_iff]
      simp only [Dmcontrol.write, Env.dmiWrite, Dmcontrol.haltreq, if_true]
      exact hd _ _ (hbit _)
    have hw := haltHart_writes_trace d self 0 e
    simp only [haltHart, pollHalted, if_pos hh]
    refine ⟨trivial, ?_⟩
    simp only [Dmstatus.read, Env.dmiRead]
    rw [hw]
    simp [readsOf, List.count_append, List.count_cons]
  · intro hd
    obtain ⟨hr, htr⟩ := pollHalted_never d hd bound
      (selectHart d self 0 e).1.mDmstatus
      (Dmcontrol.write d
        ((selectHart d self 0 e).1.mDmcontrol.haltreq true (selectHart d self 0 e).2).1
        ((selectHart d self 0 e).1.mDmcontrol.haltreq true (selectHart d self 0 e).2).2).2
    refine ⟨?_, ?_⟩
    · simp only [haltHart]
      exact hr
    · simp only [haltHart]
      rw [htr, haltHart_writes_trace]
      simp [readsOf, List.count_append, List.count_cons, List.count_replicate]

end Dmi

namespace Dmi

/-! ## Polling `abstractcs.busy` -/

theorem busyDtm_read (N p t : Nat) (a : Abstractcs) (tr : List DtmOp) (ce : List String) :
    Abstractcs.read (busyDtm N p) a ⟨t, tr, ce⟩
      = (⟨a.mPrettyPrint, ((p <<< 24) ||| (if t < N then 0x00001000 else 0)) % 2 ^ 32⟩,
         ⟨t + 1, tr ++ [DtmOp.dmiRead Abstractcs.DMI_ADDR], ce⟩) := by
  simp [Abstractcs.read, Env.dmiRead, busyDtm]

theorem busyBit_busyDtm_value (p x : Nat) (a : Bool) (hx : x = 0x00001000 ∨ x = 0) :
    Abstractcs.busyBit ⟨a, ((p <<< 24) ||| x) % 2 ^ 32⟩ = decide (x = 0x00001000) := by
  unfold Abstractcs.busyBit
  simp only
  have h1 : Nat.testBit 0x00001000 12 = true := by decide
  have h2 : Nat.testBit 0 12 = false := by decide
  rw [testBit_mod32 _ 12 (by omega), Nat.testBit_or, Nat.testBit_shiftLeft]
  rcases hx with rfl | rfl
  · simp [h1]
  · simp [h2]

theorem cmderr_busyDtm_value (p x : Nat) (a : Bool) (hx : x = 0x00001000 ∨ x = 0) :
    Abstractcs.cmderr ⟨a, ((p <<< 24) ||| x) % 2 ^ 32⟩ = 0 := by
  rw [Abstractcs.cmderr_eq]
  simp only
  rw [Abstractcs.cmderrField_mod]
  apply Nat.eq_of_testBit_eq
  intro i
  simp only [Abstractcs.cmderrField, Nat.testBit_mod_two_pow, Nat.testBit_shiftRight,
    Nat.testBit_or, Nat.testBit_shiftLeft, Nat.zero_testBit]
  by_cases h : i < 3
  · have h1 : ¬ 24 ≤ 8 + i := by omega
    rcases hx with rfl | rfl
    · have h2 : (0x00001000 : Nat).testBit (8 + i) = false := by
        interval_cases i <;> decide
      simp [h1, h2]
    · simp [h1]
  · simp [h]

/-- With the busy bit of the Debug Specification in the place of `busy ()`, the
polling loop of the model ends after exactly `N + 1` reads against `busyDtm`. -/
theorem pollBusyVia_busyBit (N p : Nat) :
    ∀ (k t bound : Nat) (a : Abstractcs) (tr : List DtmOp) (ce : List String),
      t + k = N → k < bound →
      pollBusyVia Abstractcs.busyBit (busyDtm N p) bound a ⟨t, tr, ce⟩
        = (true, ⟨a.mPrettyPrint, ((p <<< 24) ||| 0) % 2 ^ 32⟩,
           ⟨N + 1, tr ++ List.replicate (k + 1) (DtmOp.dmiRead Abstractcs.DMI_ADDR), ce⟩) := by
  intro k
  induction k with
  | zero =>
    intro t bound a tr ce ht hb
    obtain ⟨b, rfl⟩ : ∃ b, bound = b + 1 := ⟨bound - 1, by omega⟩
    have htN : ¬ t < N := by omega
    have ht' : t = N := by omega
    simp only [pollBusyVia, busyDtm_read, if_neg htN,
      busyBit_busyDtm_value p 0 a.mPrettyPrint (Or.inr rfl)]
    simp [ht']
  | succ k ih =>
    intro t bound a tr ce ht hb
    obtain ⟨b, rfl⟩ : ∃ b, bound = b + 1 := ⟨bound - 1, by omega⟩
    have htN : t < N := by omega
    simp only [pollBusyVia, busyDtm_read, if_pos htN,
      busyBit_busyDtm_value p 0x00001000 a.mPrettyPrint (Or.inl rfl)]
    simp only [decide_True, if_true]
    rw [ih (t + 1) b _ _ ce (by omega) (by omega)]
    simp [List.replicate_succ]

theorem busy_busyDtm_zero (x : Nat) (a : Bool) (hx : x = 0x00001000 ∨ x = 0) :
    Abstractcs.busy ⟨a, ((0 <<< 24) ||| x) % 2 ^ 32⟩ = false := by
  rcases hx with rfl | rfl <;> cases a <;> decide

theorem busy_busyDtm_eight (x : Nat) (a : Bool) (hx : x = 0x00001000 ∨ x = 0) :
    Abstractcs.busy ⟨a, ((8 <<< 24) ||| x) % 2 ^ 32⟩ = true := by
  rcases hx with rfl | rfl <;> cases a <;> decide

theorem pollBusyVia_busy_eight (N : Nat) :
    ∀ (bound t : Nat) (a : Abstractcs) (tr : List DtmOp) (ce : List String),
      (pollBusyVia Abstractcs.busy (busyDtm N 8) bound a ⟨t, tr, ce⟩).1 = false
      ∧ (pollBusyVia Abstractcs.busy (busyDtm N 8) bound a ⟨t, tr, ce⟩).2.2.trace
          = tr ++ List.replicate bound (DtmOp.dmiRead Abstractcs.DMI_ADDR) := by
  intro bound
  induction bound with
  | zero =>
    intro t a tr ce
    simp [pollBusyVia]
  | succ b ih =>
    intro t a tr ce
    have hb : Abstractcs.busy
        ⟨a.mPrettyPrint, ((8 <<< 24) ||| (if t < N then 0x00001000 else 0)) % 2 ^ 32⟩ = true := by
      apply busy_busyDtm_eight
      by_cases h : t < N
      · simp [h]
      · simp [h]
    simp only [pollBusyVia, busyDtm_read, hb, if_true]
    obtain ⟨h1, h2⟩ := ih (t + 1)
      ⟨a.mPrettyPrint, ((8 <<< 24) ||| (if t < N then 0x00001000 else 0)) % 2 ^ 32⟩
      (tr ++ [DtmOp.dmiRead Abstractcs.DMI_ADDR]) ce
    refine ⟨h1, ?_⟩
    rw [h2]
    simp [List.replicate_succ]

theorem issue_command_env {σ : Type} (d : IDtm σ) (self : Dmi) (control : Nat) (e : Env σ) :
    (Command.write d ((self.mCommand.cmdtype_set 0 e).1.control_set control
        (self.mCommand.cmdtype_set 0 e).2).1
      ((self.mCommand.cmdtype_set 0 e).1.control_set control
        (self.mCommand.cmdtype_set 0 e).2).2).2.trace
      = e.trace ++ [DtmOp.dmiWrite Command.DMI_ADDR
          ((self.mCommand.cmdtype_set 0 e).1.control_set control
            (self.mCommand.cmdtype_set 0 e).2).1.mCommandReg] := by
  simp only [Command.write, Env.dmiWrite, Command.control_set, Command.cmdtype_set]
  split <;> rfl

end Dmi

namespace Dmi

theorem issue_command_busyDtm (N p : Nat) (self : Dmi) (control : Nat) (e : Env Nat) :
    ∃ (w : Nat) (ce : List String),
      (Command.write (busyDtm N p) ((self.mCommand.cmdtype_set 0 e).1.control_set control
          (self.mCommand.cmdtype_set 0 e).2).1
        ((self.mCommand.cmdtype_set 0 e).1.control_set control
          (self.mCommand.cmdtype_set 0 e).2).2).2
        = ⟨e.dtm, e.trace ++ [DtmOp.dmiWrite Command.DMI_ADDR w], ce⟩ := by
  simp only [Command.write, Env.dmiWrite, Command.control_set, Command.cmdtype_set, busyDtm]
  split
  · exact ⟨_, _, rfl⟩
  · exact ⟨_, _, rfl⟩

theorem pollBusyVia_busy_zero (N : Nat) (b t : Nat) (a : Abstractcs) (tr : List DtmOp)
    (ce : List String) :
    pollBusyVia Abstractcs.busy (busyDtm N 0) (b + 1) a ⟨t, tr, ce⟩
      = (true,
         ⟨a.mPrettyPrint, ((0 <<< 24) ||| (if t < N then 0x00001000 else 0)) % 2 ^ 32⟩,
         ⟨t + 1, tr ++ [DtmOp.dmiRead Abstractcs.DMI_ADDR], ce⟩) := by
  have hb : Abstractcs.busy
      ⟨a.mPrettyPrint, ((0 <<< 24) ||| (if t < N then 0x00001000 else 0)) % 2 ^ 32⟩ = false := by
    apply busy_busyDtm_zero
    by_cases h : t < N
    · simp [h]
    · simp [h]
  simp only [pollBusyVia, busyDtm_read, hb, Bool.false_eq_true, if_false]

/-- With the busy bit of the Debug Specification in the place of `busy ()`, the
engine of the model does what C22 says: against a transport that reports busy
for the first `N` polls, with `N` below the bound, the command completes after
exactly `N + 1` reads of `abstractcs`. -/
theorem issueCommandVia_busyBit (N p bound : Nat) (self : Dmi) (control : Nat)
    (tr : List DtmOp) (ce : List String) (hN : N < bound) :
    (issueCommandVia Abstractcs.busyBit (busyDtm N p) bound self control ⟨0, tr, ce⟩).1
      = CmdOutcome.done
    ∧ readsOf Abstractcs.DMI_ADDR
        (issueCommandVia Abstractcs.busyBit (busyDtm N p) bound self control
          ⟨0, tr, ce⟩).2.2.trace
      = readsOf Abstractcs.DMI_ADDR tr + (N + 1) := by
  obtain ⟨w, ce1, hw⟩ := issue_command_busyDtm N p self control ⟨0, tr, ce⟩
  have hc := cmderr_busyDtm_value p 0 self.mAbstractcs.mPrettyPrint (Or.inr rfl)
  simp only [issueCommandVia]
  rw [hw, pollBusyVia_busyBit N p N 0 bound _ _ _ (by omega) hN]
  simp only [if_true, hc]
  refine ⟨trivial, ?_⟩
  simp [readsOf, List.count_append, List.count_cons, List.count_replicate]

/-- C22: the claim says a command issued while `abstractcs` reports busy for the
first `N` polls completes after exactly `N + 1` reads of `abstractcs`.  The
engine of section 4.3 polls through `Abstractcs::busy ()`, which tests the
`progbufsize` bits and not the busy bit: with `progbufsize = 0` the command is
taken as complete after the first read for every `N`, while the hardware is
still busy, and with `progbufsize = 8` it never completes and every poll up to
the bound is spent (for `N = 2` and a bound of 10: 1 read and 10 reads, where the
claim says 3). -/
theorem C22_poll_follows_progbufsize :
    (∀ (N bound : Nat) (self : Dmi) (control : Nat) (tr : List DtmOp) (ce : List String),
      0 < bound →
        (issueCommand (busyDtm N 0) bound self control ⟨0, tr, ce⟩).1 = CmdOutcome.done
        ∧ readsOf Abstractcs.DMI_ADDR
            (issueCommand (busyDtm N 0) bound self control ⟨0, tr, ce⟩).2.2.trace
          = readsOf Abstractcs.DMI_ADDR tr + 1)
    ∧ (∀ (N bound : Nat) (self : Dmi) (control : Nat) (tr : List DtmOp) (ce : List String),
        (issueCommand (busyDtm N 8) bound self control ⟨0, tr, ce⟩).1 = CmdOutcome.timeout
        ∧ readsOf Abstractcs.DMI_ADDR
            (issueCommand (busyDtm N 8) bound self control ⟨0, tr, ce⟩).2.2.trace
          = readsOf Abstractcs.DMI_ADDR tr + bound)
    ∧ ((issueCommand (busyDtm 2 0) 10 fresh 0x00221008 ⟨0, [], []⟩).1 = CmdOutcome.done
        ∧ readsOf Abstractcs.DMI_ADDR
            (issueCommand (busyDtm 2 0) 10 fresh 0x00221008 ⟨0, [], []⟩).2.2.trace = 1)
    ∧ ((issueCommand (busyDtm 2 8) 10 fresh 0x00221008 ⟨0, [], []⟩).1 = CmdOutcome.timeout
        ∧ readsOf Abstractcs.DMI_ADDR
            (issueCommand (busyDtm 2 8) 10 fresh 0x00221008 ⟨0, [], []⟩).2.2.trace = 10)
    ∧ ((issueCommandVia Abstractcs.busyBit (busyDtm 2 8) 10 fresh 0x00221008
          ⟨0, [], []⟩).1 = CmdOutcome.done
        ∧ readsOf Abstractcs.DMI_ADDR
            (issueCommandVia Abstractcs.busyBit (busyDtm 2 8) 10 fresh 0x00221008
              ⟨0, [], []⟩).2.2.trace = 3) := by
  refine ⟨?_, ?_, by decide, by decide, by decide⟩
  · intro N bound self control tr ce hb
    obtain ⟨b, rfl⟩ : ∃ b, bound = b + 1 := ⟨bound - 1, by omega⟩
    obtain ⟨w, ce1, hw⟩ := issue_command_busyDtm N 0 self control ⟨0, tr, ce⟩
    have hc : Abstractcs.cmderr ⟨self.mAbstractcs.mPrettyPrint,
        ((0 <<< 24) ||| (if 0 < N then 0x00001000 else 0)) % 2 ^ 32⟩ = 0 := by
      apply cmderr_busyDtm_value
      by_cases h : 0 < N
      · simp [h]
      · simp [h]
    simp only [issueCommand, issueCommandVia]
    rw [hw, pollBusyVia_busy_zero]
    simp only [if_true, hc]
    refine ⟨trivial, ?_⟩
    simp [readsOf, List.count_append, List.count_cons]
  · intro N bound self control tr ce
    obtain ⟨w, ce1, hw⟩ := issue_command_busyDtm N 8 self control ⟨0, tr, ce⟩
    obtain ⟨h1, h2⟩ := pollBusyVia_busy_eight N bound 0 self.mAbstractcs
      (tr ++ [DtmOp.dmiWrite Command.DMI_ADDR w]) ce1
    simp only [issueCommand, issueCommandVia]
    rw [hw]
    simp only [h1, Bool.false_eq_true, if_false, h2]
    refine ⟨trivial, ?_⟩
    simp [readsOf, List.count_append, List.count_cons, List.count_replicate]

end Dmi

namespace Dmi

/-! ## Block transfers over the system bus -/

theorem Sbcs.sberror_ne_none (self : Sbcs) : self.sberror ≠ Sbcs.SBERR_NONE := by
  intro h
  have h7 := Sbcs.sberror_mod self
  rw [h] at h7
  simp [Sbcs.SBERR_NONE] at h7

theorem writeUnitsVia_sberror_cons {σ : Type} (d : IDtm σ) (bound u : Nat) (us : List Nat)
    (count : Nat) (self : Dmi) (e : Env σ) :
    (writeUnitsVia Sbcs.sberror d bound (u :: us) count self e).1
        ≠ SbResult.sberror Sbcs.SBERR_NONE
    ∧ (writeUnitsVia Sbcs.sberror d bound (u :: us) count self e).2.1 = count := by
  simp only [writeUnitsVia]
  split
  · rw [if_neg (Sbcs.sberror_ne_none _)]
    refine ⟨?_, rfl⟩
    intro h
    exact Sbcs.sberror_ne_none _ (SbResult.sberror.inj h)
  · exact ⟨fun h => SbResult.noConfusion h, rfl⟩

theorem readUnitsVia_sberror_succ {σ : Type} (d : IDtm σ) (bound n : Nat) (got : List Nat)
    (self : Dmi) (e : Env σ) :
    (readUnitsVia Sbcs.sberror d bound (n + 1) got self e).1
        ≠ SbResult.sberror Sbcs.SBERR_NONE
    ∧ (readUnitsVia Sbcs.sberror d bound (n + 1) got self e).2.1 = got := by
  simp only [readUnitsVia]
  split
  · rw [if_neg (Sbcs.sberror_ne_none _)]
    refine ⟨?_, rfl⟩
    intro h
    exact Sbcs.sberror_ne_none _ (SbResult.sberror.inj h)
  · exact ⟨fun h => SbResult.noConfusion h, rfl⟩

/-- With the `sberror` field of the Debug Specification in the place of
`sberror ()`, the engine of the model round-trips four octets at `0x1000`
against `busDtm`, with `SBERR_NONE` both times. -/
theorem writeMemVia_readMemVia_sberrorBits :
    (writeMemVia Sbcs.sberrorBits busDtm 10 fresh 0x1000 4 [0xDE, 0xAD, 0xBE, 0xEF]
        busStart).1 = SbResult.sberror Sbcs.SBERR_NONE
    ∧ (writeMemVia Sbcs.sberrorBits busDtm 10 fresh 0x1000 4 [0xDE, 0xAD, 0xBE, 0xEF]
        busStart).2.1 = 4
    ∧ (readMemVia Sbcs.sberrorBits busDtm 10
        (writeMemVia Sbcs.sberrorBits busDtm 10 fresh 0x1000 4 [0xDE, 0xAD, 0xBE, 0xEF]
          busStart).2.2.1 0x1000 4
        (writeMemVia Sbcs.sberrorBits busDtm 10 fresh 0x1000 4 [0xDE, 0xAD, 0xBE, 0xEF]
          busStart).2.2.2).1 = SbResult.sberror Sbcs.SBERR_NONE
    ∧ (readMemVia Sbcs.sberrorBits busDtm 10
        (writeMemVia Sbcs.sberrorBits busDtm 10 fresh 0x1000 4 [0xDE, 0xAD, 0xBE, 0xEF]
          busStart).2.2.1 0x1000 4
        (writeMemVia Sbcs.sberrorBits busDtm 10 fresh 0x1000 4 [0xDE, 0xAD, 0xBE, 0xEF]
          busStart).2.2.2).2.1 = [0xDE, 0xAD, 0xBE, 0xEF] := by
  refine ⟨by decide, by decide, by decide, by decide⟩

end Dmi

namespace Dmi

/-- C21: the claim says `writeMem (addr, len, P)` followed by
`readMem (addr, len, buf)` returns `SBERR_NONE` both times and gives `P` back.
The engine of section 4.4 checks `sbcs.sberror` after each unit through
`Sbcs::sberror ()`, whose low three bits are always ones: for every transport,
bound, address and non-empty transfer neither `writeMem` nor `readMem` returns
`SBERR_NONE`, and no unit is counted.  Against a bus that round-trips writes and
reports no error, writing four octets at `0x1000` stores the first octet and
stops with the value 23 and 0 units written although the `sberror` field of the
hardware is 0, and a `readMem` of one octet there stops with the value 31 and no
octet delivered. -/
theorem C21_mem_transfer_never_reports_none {σ : Type} (d : IDtm σ) (bound : Nat) (self : Dmi)
    (addr nBytes : Nat) (buf : List Nat) (e : Env σ) :
    (buf.take nBytes ≠ [] →
      (writeMem d bound self addr nBytes buf e).1 ≠ SbResult.sberror Sbcs.SBERR_NONE
      ∧ (writeMem d bound self addr nBytes buf e).2.1 = 0)
    ∧ (0 < nBytes →
      (readMem d bound self addr nBytes e).1 ≠ SbResult.sberror Sbcs.SBERR_NONE
      ∧ (readMem d bound self addr nBytes e).2.1 = [])
    ∧ ((writeMem busDtm 10 fresh 0x1000 4 [0xDE, 0xAD, 0xBE, 0xEF] busStart).1
          = SbResult.sberror 23
        ∧ (writeMem busDtm 10 fresh 0x1000 4 [0xDE, 0xAD, 0xBE, 0xEF] busStart).2.1 = 0
        ∧ (writeMem busDtm 10 fresh 0x1000 4 [0xDE, 0xAD, 0xBE, 0xEF]
            busStart).2.2.2.dtm.mem 0x1000 = 0xDE
        ∧ Sbcs.sberrorField (writeMem busDtm 10 fresh 0x1000 4 [0xDE, 0xAD, 0xBE, 0xEF]
            busStart).2.2.2.dtm.sbcs = 0)
    ∧ ((readMem busDtm 10 fresh 0x1000 1 busStart).1 = SbResult.sberror 31
        ∧ (readMem busDtm 10 fresh 0x1000 1 busStart).2.1 = []) := by
  refine ⟨?_, ?_, by decide, by decide⟩
  · intro hne
    obtain ⟨u, us, hu⟩ : ∃ u us, buf.take nBytes = u :: us := by
      cases h : buf.take nBytes with
      | nil => exact absurd h hne
      | cons u us => exact ⟨u, us, rfl⟩
    simp only [writeMem, writeMemVia]
    rw [hu]
    exact writeUnitsVia_sberror_cons d bound u us 0 _ _
  · intro hn
    obtain ⟨n, rfl⟩ : ∃ n, nBytes = n + 1 := ⟨nBytes - 1, by omega⟩
    simp only [readMem, readMemVia]
    exact readUnitsVia_sberror_succ d bound n [] _ _

end Dmi

namespace Dmi

/-! ## The field list of `abstractcs` -/

theorem Abstractcs.cmderr_lt (self : Abstractcs) : self.cmderr < 8 := by
  rw [Abstractcs.cmderr_eq]
  exact Nat.mod_lt _ (by norm_num)

open Abstractcs in
/-- C30: in pretty-print mode the output operator of `abstractcs` writes
`cmderr = ` followed by the value of `cmderr ()` in decimal and, in brackets, its
name; `cmderr ()` is one of 0 to 7 and the names are `none`, `busy`,
`not supported`, `exception`, `halt/resume`, `bus` for 0 to 5, `other` for 7 and
`INVALID` for the remaining value 6, eight different names. -/
theorem C30_abstractcs_output_names_cmderr :
    (∀ self : Abstractcs, self.cmderr < 8)
    ∧ (cmderrText 0 = "none" ∧ cmderrText 1 = "busy" ∧ cmderrText 2 = "not supported"
        ∧ cmderrText 3 = "exception" ∧ cmderrText 4 = "halt/resume" ∧ cmderrText 5 = "bus"
        ∧ cmderrText 6 = "INVALID" ∧ cmderrText 7 = "other")
    ∧ (∀ a : Fin 8, ∀ b : Fin 8, cmderrText a.val = cmderrText b.val → a = b)
    ∧ (∀ self : Abstractcs, self.mPrettyPrint = true →
        self.output
          = "[ progbufsize = " ++ toString self.progbufsize
            ++ ", busy = " ++ (if self.busy then "true" else "false")
            ++ ", cmderr = " ++ toString self.cmderr ++ " (" ++ cmderrText self.cmderr ++ ")"
            ++ ", datacount = 0x" ++ toString self.datacount ++ " ]")
    ∧ output ⟨true, 0x00000602⟩
        = "[ progbufsize = 0, busy = false, cmderr = 6 (INVALID), datacount = 0x2 ]"
    ∧ output ⟨true, 0x00000302⟩
        = "[ progbufsize = 0, busy = false, cmderr = 3 (exception), datacount = 0x2 ]" := by
  refine ⟨Abstractcs.cmderr_lt, by decide, by decide, ?_, by decide, by decide⟩
  intro self h
  simp only [output, h, if_true, String.append_assoc]

end Dmi

namespace Dmi

theorem haltingDtm_haltsOnHaltreq : HaltsOnHaltreq haltingDtm := by
  intro t v hv
  left
  simp only [haltingDtm, hv, Bool.or_true, if_true]
  decide

theorem constDtm_zero_neverHalts : NeverHalts (constDtm 0) := by
  intro t
  simp only [constDtm]
  exact ⟨Nat.zero_testBit 9, Nat.zero_testBit 8⟩

/-- C23 on the two test doubles with a bound of 3: the transport that halts on
request gives success, the one that never halts gives failure. -/
theorem C23_haltHart_terminates_witness :
    HaltsOnHaltreq haltingDtm ∧ 0 < 3 ∧ NeverHalts (constDtm 0)
    ∧ (haltHart haltingDtm 3 fresh 0 ⟨false, [], []⟩).1 = true
    ∧ (haltHart (constDtm 0) 3 fresh 0 ⟨(), [], []⟩).1 = false :=
  ⟨haltingDtm_haltsOnHaltreq, by decide, constDtm_zero_neverHalts,
   ((C23_haltHart_terminates haltingDtm 3 fresh ⟨false, [], []⟩).2.1
      haltingDtm_haltsOnHaltreq (by decide)).1,
   ((C23_haltHart_terminates (constDtm 0) 3 fresh ⟨(), [], []⟩).2.2.1
      constDtm_zero_neverHalts).1⟩

end Dmi

namespace Dmi

theorem hexFill_zero_width (x : Nat) : hexFill 0 x = String.mk (Nat.toDigits 16 x) := by
  simp [hexFill]

theorem toDigits_hex_length_le (x : Nat) (h : x < 2 ^ 32) : (Nat.toDigits 16 x).length ≤ 8 := by
  have h16 : x < 16 ^ 8 := by
    have e : (16 : Nat) ^ 8 = 2 ^ 32 := by norm_num
    omega
  exact Nat.toDigitsCore_length 16 (by decide) (x + 1) x 8 h16 (by decide)

theorem hexFill_length (x : Nat) (h : x < 2 ^ 32) : (hexFill 8 x).length = 8 := by
  have hl := toDigits_hex_length_le x h
  simp only [hexFill, String.length, List.length_append, List.length_replicate]
  omega

end Dmi

namespace Dmi

open Sbcs in
theorem Sbcs.sberrorText_sberror (self : Sbcs) :
    sberrorText self.sberror = if self.sberror = 7 then "other" else "INVALID" := by
  have h := sberror_mod self
  have h0 : self.sberror ≠ 0 := by omega
  have h1 : self.sberror ≠ 1 := by omega
  have h2 : self.sberror ≠ 2 := by omega
  have h3 : self.sberror ≠ 3 := by omega
  have h4 : self.sberror ≠ 4 := by omega
  simp only [sberrorText, if_neg h0, if_neg h1, if_neg h2, if_neg h3, if_neg h4]

theorem Sbcs.sberror_lt (self : Sbcs) : self.sberror < 256 := by
  unfold Sbcs.sberror toU8
  exact Nat.mod_lt _ (by decide)

open Sbcs in
set_option maxRecDepth 20000 in
/-- C31 (refuted): in pretty-print mode the output operator of `sbcs` writes
`sberror = `, the value of `sberror ()` in decimal and the name the nested
conditional gives it.  The conditional itself names 0, 1, 2, 3, 4 and 7 as
none, timeout, bad address, alignment, bad size and other; but `sberror ()` has
its low three bits set whatever the shadow, so the number written is never 0
and the name written is `other` or `INVALID`.  The shadows whose `sberror` bits
are 0, 1 and 2 (all other bits clear) all print `sberror = 7 (other)`; with
`sbreadondata` (bit 15) set and the `sberror` bits 0 the text is
`sberror = 15 (INVALID)`. -/
theorem C31_sbcs_output_never_names_sberror_none :
    (∀ self : Sbcs, self.mPrettyPrint = true →
      self.output
        = "[ sbversion = " ++ toString (toU16 self.sbversion) ++ " ("
          ++ sbversionText self.sbversion ++ ")"
          ++ ", sbbusyerror = " ++ boolText self.sbbusyerror
          ++ ", sbbusy = " ++ boolText self.sbbusy
          ++ ", sbreadonaddr = " ++ boolText self.sbreadonaddr
          ++ ", sbaccess = " ++ toString (toU16 self.sbaccess) ++ " ("
          ++ sbaccessText self.sbaccess ++ ")"
          ++ ", sbautoincrement = " ++ boolText self.sbautoincrement
          ++ ", sbreadondata = " ++ boolText self.sbreadondata
          ++ ", sberror = " ++ toString (toU16 self.sberror) ++ " ("
          ++ sberrorText self.sberror ++ ")"
          ++ ", sbasize = " ++ toString (toU16 self.sbasize)
          ++ ", sbaccess128 = " ++ boolText self.sbaccess128
          ++ ", sbaccess64 = " ++ boolText self.sbaccess64
          ++ ", sbaccess32 = " ++ boolText self.sbaccess32
          ++ ", sbaccess16 = " ++ boolText self.sbaccess16
          ++ ", sbaccess8 = " ++ boolText self.sbaccess8 ++ " ]")
    ∧ (sberrorText 0 = "none" ∧ sberrorText 1 = "timeout" ∧ sberrorText 2 = "bad address"
        ∧ sberrorText 3 = "alignment" ∧ sberrorText 4 = "bad size"
        ∧ sberrorText 5 = "INVALID" ∧ sberrorText 6 = "INVALID" ∧ sberrorText 7 = "other")
    ∧ (∀ self : Sbcs, toU16 self.sberror = self.sberror ∧ self.sberror % 8 = 7
        ∧ self.sberror ≠ 0
        ∧ sberrorText self.sberror = (if self.sberror = 7 then "other" else "INVALID"))
    ∧ sberrorBits ⟨true, 0x00000000⟩ = 0
    ∧ output ⟨true, 0x00000000⟩
        = "[ sbversion = 7 (RESERVED), sbbusyerror = false, sbbusy = false, "
          ++ "sbreadonaddr = false, sbaccess = 7 (INVALID), sbautoincrement = false, "
          ++ "sbreadondata = false, sberror = 7 (other), sbasize = 127, "
          ++ "sbaccess128 = false, sbaccess64 = false, sbaccess32 = false, "
          ++ "sbaccess16 = false, sbaccess8 = false ]"
    ∧ sberrorBits ⟨true, 0x00001000⟩ = 1
    ∧ output ⟨true, 0x00001000⟩
        = "[ sbversion = 7 (RESERVED), sbbusyerror = false, sbbusy = false, "
          ++ "sbreadonaddr = false, sbaccess = 7 (INVALID), sbautoincrement = false, "
          ++ "sbreadondata = false, sberror = 7 (other), sbasize = 255, "
          ++ "sbaccess128 = false, sbaccess64 = false, sbaccess32 = false, "
          ++ "sbaccess16 = false, sbaccess8 = false ]"
    ∧ sberrorBits ⟨true, 0x00002000⟩ = 2
    ∧ output ⟨true, 0x00002000⟩
        = "[ sbversion = 7 (RESERVED), sbbusyerror = false, sbbusy = false, "
          ++ "sbreadonaddr = false, sbaccess = 7 (INVALID), sbautoincrement = false, "
          ++ "sbreadondata = false, sberror = 7 (other), sbasize = 127, "
          ++ "sbaccess128 = false, sbaccess64 = false, sbaccess32 = false, "
          ++ "sbaccess16 = false, sbaccess8 = false ]"
    ∧ sberrorBits ⟨true, 0x00008000⟩ = 0
    ∧ output ⟨true, 0x00008000⟩
        = "[ sbversion = 7 (RESERVED), sbbusyerror = false, sbbusy = false, "
          ++ "sbreadonaddr = false, sbaccess = 7 (INVALID), sbautoincrement = false, "
          ++ "sbreadondata = true, sberror = 15 (INVALID), sbasize = 127, "
          ++ "sbaccess128 = false, sbaccess64 = false, sbaccess32 = false, "
          ++ "sbaccess16 = false, sbaccess8 = false ]" := by
  refine ⟨?_, by decide, ?_, by decide, by decide, by decide, by decide, by decide, by decide,
    by decide, by decide⟩
  · intro self h
    simp only [output, h, if_true, String.append_assoc]
  · intro self
    have hm := sberror_mod self
    have hl := Sbcs.sberror_lt self
    refine ⟨?_, hm, by omega, Sbcs.sberrorText_sberror self⟩
    unfold toU16
    exact Nat.mod_eq_of_lt (by omega)

end Dmi

namespace Dmi

/-- C32 (refuted): the output operator of a register array sets the field width
once, before the loop, and the width holds for one insertion only: the slot 0 is
written as 8 zero-filled hexadecimal digits, every other slot as its plain
hexadecimal digits without fill.  A `Data` array of all zeros prints one group
`00000000` followed by eleven single `0`.  The output operator of the single
register `hawindow` does write exactly 8 digits for every 32-bit value. -/
theorem C32_array_output_pads_first_slot_only :
    (∀ p : Data, p.output
      = "[" ++ hexFill 8 (p.mDataReg 0) ++ ", " ++ hexFill 0 (p.mDataReg 1)
          ++ ", " ++ hexFill 0 (p.mDataReg 2) ++ ", " ++ hexFill 0 (p.mDataReg 3)
          ++ ", " ++ hexFill 0 (p.mDataReg 4) ++ ", " ++ hexFill 0 (p.mDataReg 5)
          ++ ", " ++ hexFill 0 (p.mDataReg 6) ++ ", " ++ hexFill 0 (p.mDataReg 7)
          ++ ", " ++ hexFill 0 (p.mDataReg 8) ++ ", " ++ hexFill 0 (p.mDataReg 9)
          ++ ", " ++ hexFill 0 (p.mDataReg 10) ++ ", " ++ hexFill 0 (p.mDataReg 11) ++ "]")
    ∧ (∀ p : Haltsum, p.output
      = "[" ++ hexFill 8 (p.mHaltsumReg 0) ++ ", " ++ hexFill 0 (p.mHaltsumReg 1)
          ++ ", " ++ hexFill 0 (p.mHaltsumReg 2) ++ ", " ++ hexFill 0 (p.mHaltsumReg 3)
          ++ "]")
    ∧ (∀ p : Confstrptr, p.output
      = "[" ++ hexFill 8 (p.mConfstrptrReg 0) ++ ", " ++ hexFill 0 (p.mConfstrptrReg 1)
          ++ ", " ++ hexFill 0 (p.mConfstrptrReg 2)
          ++ ", " ++ hexFill 0 (p.mConfstrptrReg 3) ++ "]")
    ∧ (∀ p : Progbuf, p.output
      = "[" ++ hexFill 8 (p.mProgbufReg 0) ++ ", " ++ hexFill 0 (p.mProgbufReg 1)
          ++ ", " ++ hexFill 0 (p.mProgbufReg 2) ++ ", " ++ hexFill 0 (p.mProgbufReg 3)
          ++ ", " ++ hexFill 0 (p.mProgbufReg 4) ++ ", " ++ hexFill 0 (p.mProgbufReg 5)
          ++ ", " ++ hexFill 0 (p.mProgbufReg 6) ++ ", " ++ hexFill 0 (p.mProgbufReg 7)
          ++ ", " ++ hexFill 0 (p.mProgbufReg 8) ++ ", " ++ hexFill 0 (p.mProgbufReg 9)
          ++ ", " ++ hexFill 0 (p.mProgbufReg 10) ++ ", " ++ hexFill 0 (p.mProgbufReg 11)
          ++ ", " ++ hexFill 0 (p.mProgbufReg 12) ++ ", " ++ hexFill 0 (p.mProgbufReg 13)
          ++ ", " ++ hexFill 0 (p.mProgbufReg 14) ++ ", " ++ hexFill 0 (p.mProgbufReg 15)
          ++ "]")
    ∧ (∀ p : Sbaddress, p.output
      = "[" ++ hexFill 8 (p.mSbaddressReg 0) ++ ", " ++ hexFill 0 (p.mSbaddressReg 1)
          ++ ", " ++ hexFill 0 (p.mSbaddressReg 2) ++ "]")
    ∧ (∀ p : Sbdata, p.output
      = "[" ++ hexFill 8 (p.mSbdataReg 0) ++ ", " ++ hexFill 0 (p.mSbdataReg 1)
          ++ ", " ++ hexFill 0 (p.mSbdataReg 2) ++ ", " ++ hexFill 0 (p.mSbdataReg 3)
          ++ "]")
    ∧ (∀ x : Nat, hexFill 0 x = String.mk (Nat.toDigits 16 x))
    ∧ Data.output Data.construct = "[00000000, 0, 0, 0, 0, 0, 0, 0, 0, 0, 0, 0]"
    ∧ Haltsum.output Haltsum.construct = "[00000000, 0, 0, 0]"
    ∧ Confstrptr.output Confstrptr.construct = "[00000000, 0, 0, 0]"
    ∧ Progbuf.output Progbuf.construct
        = "[00000000, 0, 0, 0, 0, 0, 0, 0, 0, 0, 0, 0, 0, 0, 0, 0]"
    ∧ Sbaddress.output Sbaddress.construct = "[00000000, 0, 0]"
    ∧ Sbdata.output ⟨fun i => 0xabc + i.val⟩ = "[00000abc, abd, abe, abf]"
    ∧ (∀ p : Hawindow, p.output = hexFill 8 p.mHawindowReg)
    ∧ (∀ p : Hawindow, p.mHawindowReg < 2 ^ 32 → p.output.length = 8)
    ∧ Hawindow.output ⟨0⟩ = "00000000" := by
  refine ⟨fun _ => rfl, fun _ => rfl, fun _ => rfl, fun _ => rfl, fun _ => rfl, fun _ => rfl,
    hexFill_zero_width, by decide, by decide, by decide, by decide, by decide, by decide,
    fun _ => rfl, ?_, by decide⟩
  intro p h
  exact hexFill_length p.mHawindowReg h

end Dmi

namespace TestJtag

set_option maxRecDepth 20000 in
/-- C33 (refuted): `TestJtag::haltHart (h)` calls `Dmi::haltHart` with the
index 0, not `h`.  Whatever `Dmi::haltHart` does, the register objects and the
transport end up as after halting hart 0 and reading `dmstatus`, for every `h`;
only the text of the failure report depends on `h`.  With a transport that never
reports `halted`, `haltHart (1)` reports `Hart 1 failed to halt` although the
request went to hart 0. -/
theorem C33_haltHart_passes_index_zero :
    (∀ (σ : Type) (dmiHaltHart : Dmi → Nat → Env σ → Dmi × Env σ) (d : IDtm σ)
        (self : TestJtag) (h : Nat) (cout : String) (e : Env σ),
        (haltHart dmiHaltHart d self h cout e).2.2
            = (Dmi.Dmstatus.read d (dmiHaltHart self.mDmi 0 e).1.mDmstatus
                (dmiHaltHart self.mDmi 0 e).2).2
          ∧ (haltHart dmiHaltHart d self h cout e).1
            = (haltHart dmiHaltHart d self 0 cout e).1
          ∧ (haltHart dmiHaltHart d self h cout e).2.2
            = (haltHart dmiHaltHart d self 0 cout e).2.2)
    ∧ (∀ (σ : Type) (f g : Dmi → Nat → Env σ → Dmi × Env σ) (d : IDtm σ)
        (self : TestJtag) (h : Nat) (cout : String) (e : Env σ),
        f self.mDmi 0 e = g self.mDmi 0 e →
          haltHart f d self h cout e = haltHart g d self h cout e)
    ∧ (haltHart (fun s _ e => (s, e)) (Dmi.constDtm 0) ⟨Dmi.fresh, 2⟩ 1 "" ⟨(), [], []⟩).2.1
        = "Hart 1 failed to halt, dmstatus: 0x00000000 [ impebreak = false, "
          ++ "havereset = false, resumeack = false, nonexistent = false, unavail = false, "
          ++ "running = false, halted = false, authenticated = false, authbusy = false, "
          ++ "hasresethaltreq = false, confstrptrvalid = false, version = 0 ]\n" := by
  refine ⟨?_, ?_, by decide⟩
  · intro σ f d self h cout e
    refine ⟨?_, ?_, ?_⟩
    · simp only [haltHart]
      split <;> rfl
    · simp only [haltHart]
      split <;> rfl
    · simp only [haltHart]
      split <;> rfl
  · intro σ f g d self h cout e hfg
    simp only [haltHart, hfg]

end TestJtag

namespace TestJtag

/-- The transport accesses of `TestJtag::haltHart (1)` when `Dmi::haltHart` is
the engine written down from the specification: `dmcontrol` is written with
`hartsel` 0, where halting hart 1 writes `hartsel` 1 (bit 16). -/
theorem haltHart_engine_example :
    (haltHart (fun s h e => (Dmi.haltHart (Dmi.constDtm 0) 2 s h e).2) (Dmi.constDtm 0)
        ⟨Dmi.fresh, 2⟩ 1 "" ⟨(), [], []⟩).2.2.trace
      = [DtmOp.dmiWrite 0x10 0, DtmOp.dmiWrite 0x10 0x80000000, DtmOp.dmiRead 0x11,
         DtmOp.dmiRead 0x11, DtmOp.dmiRead 0x11]
    ∧ (Dmi.haltHart (Dmi.constDtm 0) 2 Dmi.fresh 1 ⟨(), [], []⟩).2.2.trace
      = [DtmOp.dmiWrite 0x10 0x10000, DtmOp.dmiWrite 0x10 0x80000000, DtmOp.dmiRead 0x11,
         DtmOp.dmiRead 0x11] := by
  decide

theorem gprAbiName_unknown (regno : Nat) (h : 32 ≤ regno) : gprAbiName regno = "(unknown)" := by
  have hl : gprRegName.length = 32 := by decide
  simp only [gprAbiName, hl]
  rw [dif_neg (by omega)]

theorem fprAbiName_unknown (regno : Nat) (h : 32 ≤ regno) : fprAbiName regno = "(unknown)" := by
  have hl : fprRegName.length = 32 := by decide
  simp only [fprAbiName, hl]
  rw [dif_neg (by omega)]

set_option maxRecDepth 20000 in
/-- C34 (refuted): the table of `TestJtag::gprAbiName` holds `a2` at index 13,
where the ABI name of `x13` is `a3`: `gprAbiName (13)` returns `a2`, the name
`gprAbiName (12)` returns as well, so the names of distinct registers are not
distinct.  For every other register number below 32 the result is the ABI name,
two numbers below 32 share a name only if they are 12 and 13, and for every
number from 32 on the result is `(unknown)`. -/
theorem C34_gprAbiName_repeats_a2 :
    gprAbiName 13 = "a2" ∧ abiGprNames.getD 13 "" = "a3"
    ∧ gprAbiName 12 = gprAbiName 13
    ∧ ¬ (∀ a b : Fin 32, gprAbiName a.val = gprAbiName b.val → a = b)
    ∧ (∀ regno : Fin 32, regno.val ≠ 13 → gprAbiName regno.val = abiGprNames.getD regno.val "")
    ∧ (∀ a b : Fin 32, gprAbiName a.val = gprAbiName b.val →
        a = b ∨ (a.val = 12 ∧ b.val = 13) ∨ (a.val = 13 ∧ b.val = 12))
    ∧ (∀ regno : Nat, 32 ≤ regno → gprAbiName regno = "(unknown)") := by
  refine ⟨by decide, by decide, by decide, by decide, by decide, by decide, gprAbiName_unknown⟩

set_option maxRecDepth 20000 in
/-- C35 (refuted): the table of `TestJtag::fprAbiName` holds `ft6` at index 7,
where the ABI name of `f7` is `ft7`: `fprAbiName (7)` returns `ft6`, the name
`fprAbiName (6)` returns as well, so the names of distinct registers are not
distinct.  For every other register number below 32 the result is the ABI name,
two numbers below 32 share a name only if they are 6 and 7, and for every number
from 32 on the result is `(unknown)`. -/
theorem C35_fprAbiName_repeats_ft6 :
    fprAbiName 7 = "ft6" ∧ abiFprNames.getD 7 "" = "ft7"
    ∧ fprAbiName 6 = fprAbiName 7
    ∧ ¬ (∀ a b : Fin 32, fprAbiName a.val = fprAbiName b.val → a = b)
    ∧ (∀ regno : Fin 32, regno.val ≠ 7 → fprAbiName regno.val = abiFprNames.getD regno.val "")
    ∧ (∀ a b : Fin 32, fprAbiName a.val = fprAbiName b.val →
        a = b ∨ (a.val = 6 ∧ b.val = 7) ∨ (a.val = 7 ∧ b.val = 6))
    ∧ (∀ regno : Nat, 32 ≤ regno → fprAbiName regno = "(unknown)") := by
  refine ⟨by decide, by decide, by decide, by decide, by decide, by decide, fprAbiName_unknown⟩

end TestJtag

namespace TestJtag

theorem testMem_exact (rand : Nat → Nat → Nat) (baseAddr len maxBlock : Nat)
    (hr : RandInRange rand) (hmax : 0 < maxBlock) (hlen : maxBlock < len)
    (hfit : baseAddr + len < 2 ^ 32) :
    testMem rand baseAddr len maxBlock
      = [⟨baseAddr, 1 + rand 0 maxBlock⟩,
         ⟨baseAddr + maxBlock + rand 1 (len - maxBlock), 1 + rand 2 maxBlock⟩,
         ⟨baseAddr + len - rand 3 maxBlock, rand 3 maxBlock⟩] := by
  have h1 := hr 0 maxBlock hmax
  have h2 := hr 1 (len - maxBlock) (by omega)
  have h3 := hr 2 maxBlock hmax
  have h4 := hr 3 maxBlock hmax
  have e64 : (len + 2 ^ 64 - maxBlock) % 2 ^ 64 = len - maxBlock := by omega
  have a1 : (1 + rand 0 maxBlock) % 2 ^ 32 = 1 + rand 0 maxBlock := by omega
  have a2 : (baseAddr + maxBlock + rand 1 (len - maxBlock)) % 2 ^ 32
      = baseAddr + maxBlock + rand 1 (len - maxBlock) := by omega
  have a3 : (1 + rand 2 maxBlock) % 2 ^ 32 = 1 + rand 2 maxBlock := by omega
  have a4 : rand 3 maxBlock % 2 ^ 32 = rand 3 maxBlock := by omega
  have a5 : (baseAddr + len + 2 ^ 32 - rand 3 maxBlock) % 2 ^ 32
      = baseAddr + len - rand 3 maxBlock := by omega
  simp only [testMem, e64, a1, a2, a3, a4, a5]

/-- C36 (refuted): for a region that ends below `2^32`, with `0 < maxBlock < len`
and `Utils::rand (n)` in `[0, n)`, the three blocks `TestJtag::testMem` hands to
`testMemBlock` are computed without wrap-around.  The first block starts at
`baseAddr`, is not empty and lies inside the region; the middle block is not
empty and starts inside the region; the last block starts after `baseAddr` and
ends exactly at `baseAddr + len`.  But the last block has the length
`Utils::rand (maxBlock)` without the `1 +` of the other two: when that call
returns 0 the block is empty; and the middle block lies inside the region only
if the two values drawn for it add up to less than `len - maxBlock`: when
`Utils::rand (n)` returns `n - 1` and `maxBlock >= 2` it runs past the end of the
region. -/
theorem C36_testMem_blocks_may_leave_region (baseAddr len maxBlock : Nat)
    (hmax : 0 < maxBlock) (hlen : maxBlock < len) (hfit : baseAddr + len < 2 ^ 32) :
    (∀ rand : Nat → Nat → Nat, RandInRange rand →
        testMem rand baseAddr len maxBlock
          = [⟨baseAddr, 1 + rand 0 maxBlock⟩,
             ⟨baseAddr + maxBlock + rand 1 (len - maxBlock), 1 + rand 2 maxBlock⟩,
             ⟨baseAddr + len - rand 3 maxBlock, rand 3 maxBlock⟩]
        ∧ MemBlock.Inside ⟨baseAddr, 1 + rand 0 maxBlock⟩ baseAddr len
        ∧ baseAddr + maxBlock ≤ baseAddr + maxBlock + rand 1 (len - maxBlock)
        ∧ baseAddr + maxBlock + rand 1 (len - maxBlock) < baseAddr + len
        ∧ 1 + rand 2 maxBlock ≤ maxBlock
        ∧ (MemBlock.Inside
              ⟨baseAddr + maxBlock + rand 1 (len - maxBlock), 1 + rand 2 maxBlock⟩ baseAddr len
            ↔ rand 1 (len - maxBlock) + rand 2 maxBlock < len - maxBlock)
        ∧ baseAddr < baseAddr + len - rand 3 maxBlock
        ∧ (baseAddr + len - rand 3 maxBlock) + rand 3 maxBlock = baseAddr + len
        ∧ (MemBlock.Inside ⟨baseAddr + len - rand 3 maxBlock, rand 3 maxBlock⟩ baseAddr len
            ↔ 0 < rand 3 maxBlock))
    ∧ (RandInRange (fun _ _ => 0)
        ∧ testMem (fun _ _ => 0) baseAddr len maxBlock
            = [⟨baseAddr, 1⟩, ⟨baseAddr + maxBlock, 1⟩, ⟨baseAddr + len, 0⟩]
        ∧ ¬ MemBlock.Inside ⟨baseAddr + len, 0⟩ baseAddr len)
    ∧ (2 ≤ maxBlock →
        RandInRange (fun _ n => n - 1)
        ∧ testMem (fun _ n => n - 1) baseAddr len maxBlock
            = [⟨baseAddr, maxBlock⟩, ⟨baseAddr + len - 1, maxBlock⟩,
               ⟨baseAddr + len - (maxBlock - 1), maxBlock - 1⟩]
        ∧ baseAddr + len < (baseAddr + len - 1) + maxBlock
        ∧ ¬ MemBlock.Inside ⟨baseAddr + len - 1, maxBlock⟩ baseAddr len) := by
  have hz : RandInRange (fun _ _ => 0) := fun _ _ hn => hn
  have hp : RandInRange (fun _ n => n - 1) := fun _ n hn => by
    show n - 1 < n
    omega
  refine ⟨?_, ⟨hz, ?_, ?_⟩, ?_⟩
  · intro rand hr
    have h1 := hr 0 maxBlock hmax
    have h2 := hr 1 (len - maxBlock) (by omega)
    have h3 := hr 2 maxBlock hmax
    have h4 := hr 3 maxBlock hmax
    refine ⟨testMem_exact rand baseAddr len maxBlock hr hmax hlen hfit, ?_, by omega, by omega,
      by omega, ?_, by omega, by omega, ?_⟩
    · simp only [MemBlock.Inside]
      omega
    · simp only [MemBlock.Inside]
      omega
    · simp only [MemBlock.Inside]
      omega
  · rw [testMem_exact _ baseAddr len maxBlock hz hmax hlen hfit]
    simp only [Nat.add_zero, Nat.sub_zero]
  · simp only [MemBlock.Inside]
    omega
  · intro h2
    refine ⟨hp, ?_, by omega, ?_⟩
    · rw [testMem_exact _ baseAddr len maxBlock hp hmax hlen hfit]
      have e1 : 1 + (maxBlock - 1) = maxBlock := by omega
      have e2 : baseAddr + maxBlock + (len - maxBlock - 1) = baseAddr + len - 1 := by omega
      simp only [e1, e2]
    · simp only [MemBlock.Inside]
      omega

/-- C36 on the region of 16 octets at `0x1000` with `maxBlock = 8`: with
`Utils::rand` returning 0 the last block is `(0x1010, 0)`, with `Utils::rand (n)`
returning `n - 1` the middle block is `(0x100f, 8)`. -/
theorem C36_testMem_blocks_may_leave_region_witness :
    (0 < 8 ∧ 8 < 16 ∧ 0x1000 + 16 < 2 ^ 32)
    ∧ testMem (fun _ _ => 0) 0x1000 16 8 = [⟨0x1000, 1⟩, ⟨0x1000 + 8, 1⟩, ⟨0x1000 + 16, 0⟩]
    ∧ testMem (fun _ n => n - 1) 0x1000 16 8
        = [⟨0x1000, 8⟩, ⟨0x1000 + 16 - 1, 8⟩, ⟨0x1000 + 16 - (8 - 1), 8 - 1⟩] :=
  ⟨by decide,
   (C36_testMem_blocks_may_leave_region 0x1000 16 8 (by decide) (by decide) (by decide)).2.1.2.1,
   ((C36_testMem_blocks_may_leave_region 0x1000 16 8 (by decide) (by decide) (by decide)).2.2
      (by decide)).2.1⟩

end TestJtag

namespace TEMPLATE

/-- `TEMPLATE::write` on a freshly constructed `Dmi` when `Dmi::writeMem` is the
engine written down from the specification, against the bus that round-trips
writes: the engine stops with an `sberror` value other than `NONE` and a count
of 0 units, and `write` returns 4. -/
theorem write_engine_example :
    (Dmi.writeMem Dmi.busDtm 4 Dmi.fresh 0x1000 4 [0xDE, 0xAD, 0xBE, 0xEF] Dmi.busStart).1
      = Dmi.SbResult.sberror 23
    ∧ (Dmi.writeMem Dmi.busDtm 4 Dmi.fresh 0x1000 4 [0xDE, 0xAD, 0xBE, 0xEF] Dmi.busStart).2.1
      = 0
    ∧ (write
        (fun s a n buf e =>
          ((Dmi.writeMem Dmi.busDtm 4 s a n buf e).1, (Dmi.writeMem Dmi.busDtm 4 s a n buf e).2.2))
        ⟨Dmi.fresh⟩ 0x1000 [0xDE, 0xAD, 0xBE, 0xEF] 4 Dmi.busStart).1 = 4 := by
  refine ⟨by decide, by decide, rfl⟩

/-- C37 (refuted): `TEMPLATE::read` and `TEMPLATE::write` discard what
`Dmi::readMem` and `Dmi::writeMem` return and return `size`: whatever the
transfer functions do and report, the count returned is `size`.  With a
`readMem` that reports the `sberror` value 2 and transfers nothing, `read` of 4
octets returns 4 and hands the caller the 4 octets the buffer held before; with
a `writeMem` that reports 2 after writing nothing, `write` of 4 octets
returns 4. -/
theorem C37_read_write_always_return_size :
    (∀ (σ ρ : Type)
        (dmiReadMem : Dmi → Nat → Nat → List Nat → Env σ → ρ × List Nat × Dmi × Env σ)
        (self : TEMPLATE) (addr size : Nat) (fresh : List Nat) (e : Env σ),
        (read dmiReadMem self addr size fresh e).1 = size)
    ∧ (∀ (σ ρ : Type) (dmiWriteMem : Dmi → Nat → Nat → List Nat → Env σ → ρ × Dmi × Env σ)
        (self : TEMPLATE) (addr : Nat) (buffer : List Nat) (size : Nat) (e : Env σ),
        (write dmiWriteMem self addr buffer size e).1 = size)
    ∧ (read (fun s _ _ buf e => (Dmi.SbResult.sberror 2, buf, s, e)) ⟨Dmi.fresh⟩ 0x1000 4
          [0xAA, 0xBB, 0xCC, 0xDD] (⟨(), [], []⟩ : Env Unit)).1 = 4
    ∧ (read (fun s _ _ buf e => (Dmi.SbResult.sberror 2, buf, s, e)) ⟨Dmi.fresh⟩ 0x1000 4
          [0xAA, 0xBB, 0xCC, 0xDD] (⟨(), [], []⟩ : Env Unit)).2.1 = [0xAA, 0xBB, 0xCC, 0xDD]
    ∧ (write (fun s _ _ _ e => (Dmi.SbResult.sberror 2, s, e)) ⟨Dmi.fresh⟩ 0x1000
          [0xDE, 0xAD, 0xBE, 0xEF] 4 (⟨(), [], []⟩ : Env Unit)).1 = 4
    ∧ Dmi.SbResult.sberror 2 ≠ Dmi.SbResult.sberror Dmi.Sbcs.SBERR_NONE := by
  refine ⟨fun _ _ _ _ _ _ _ _ => rfl, fun _ _ _ _ _ _ _ _ => rfl, rfl, rfl, rfl, by decide⟩

end TEMPLATE

namespace Args

theorem rfindDown_le (s k : List Char) : ∀ (i j : Nat), rfindDown s k i = some j → j ≤ i
  | 0, j, h => by
    simp only [rfindDown] at h
    split at h
    · cases h
      exact Nat.le_refl 0
    · cases h
  | i + 1, j, h => by
    simp only [rfindDown] at h
    split at h
    · cases h
      exact Nat.le_refl _
    · exact Nat.le_succ_of_le (rfindDown_le s k i j h)

theorem rfindDown_eq_self (s k : List Char) (i : Nat) :
    rfindDown s k i = some i ↔ occursAt s k i = true := by
  cases i with
  | zero =>
    simp only [rfindDown]
    split <;> simp_all
  | succ i =>
    simp only [rfindDown]
    split
    · simp_all
    · rename_i hocc
      constructor
      · intro h
        have := rfindDown_le s k i (i + 1) h
        omega
      · intro h
        exact absurd h hocc

theorem occursAt_end (s k : List Char) (h : k.length ≤ s.length) :
    occursAt s k (s.length - k.length) = true ↔ k <:+ s := by
  have hl : (s.drop (s.length - k.length)).length = k.length := by
    rw [List.length_drop]
    omega
  have ht : (s.drop (s.length - k.length)).take k.length = s.drop (s.length - k.length) :=
    List.take_of_length_le (Nat.le_of_eq hl)
  simp only [occursAt, ht, beq_iff_eq]
  rw [List.suffix_iff_eq_drop]
  exact eq_comm

theorem rfind_end (s k : String) (h : k.length ≤ s.length) :
    rfind s k (s.length - k.length) = some (s.length - k.length) ↔ k.data <:+ s.data := by
  simp only [rfind, if_pos h, Nat.min_self]
  rw [rfindDown_eq_self]
  exact occursAt_end s.data k.data h

/-- The test the constructor makes on the filename: it has more than 4
characters and ends in `.vcd` or `.VCD`. -/
theorem keys_any (s : String) (h : 4 < s.length) :
    ([".vcd", ".VCD"].any fun k =>
        rfind s k (s.length - k.length) == some (s.length - k.length)) = true
      ↔ (".vcd".data <:+ s.data ∨ ".VCD".data <:+ s.data) := by
  have h1 : ".vcd".length ≤ s.length := by
    have : ".vcd".length = 4 := by decide
    omega
  have h2 : ".VCD".length ≤ s.length := by
    have : ".VCD".length = 4 := by decide
    omega
  simp only [List.any_cons, List.any_nil, Bool.or_false, Bool.or_eq_true, beq_iff_eq]
  rw [rfind_end s ".vcd" h1, rfind_end s ".VCD" h2]

end Args

namespace Args

theorem construct_vcd (res : ParseResult) (init : Args) :
    (construct res init).vcd
      = if 4 < res.vcd.length ∧ (".vcd".data <:+ res.vcd.data ∨ ".VCD".data <:+ res.vcd.data)
        then res.vcd
        else if res.vcd = "" then "" else res.vcd ++ ".vcd" := by
  by_cases h4 : 4 < res.vcd.length
  · by_cases hs : (".vcd".data <:+ res.vcd.data ∨ ".VCD".data <:+ res.vcd.data)
    · have hk := (keys_any res.vcd h4).2 hs
      have hc : res.vcd.length > 4
          ∧ ([".vcd", ".VCD"].any fun k =>
              rfind res.vcd k (res.vcd.length - k.length)
                == some (res.vcd.length - k.length)) = true := ⟨h4, hk⟩
      rw [if_pos ⟨h4, hs⟩]
      simp only [construct, vcd, if_pos hc]
    · have hk : ¬ (([".vcd", ".VCD"].any fun k =>
              rfind res.vcd k (res.vcd.length - k.length)
                == some (res.vcd.length - k.length)) = true) :=
        fun hk => hs ((keys_any res.vcd h4).1 hk)
      have hc : ¬ (res.vcd.length > 4
          ∧ ([".vcd", ".VCD"].any fun k =>
              rfind res.vcd k (res.vcd.length - k.length)
                == some (res.vcd.length - k.length)) = true) := fun hc => hk hc.2
      have hne : res.vcd ≠ "" := by
        intro he
        rw [he] at h4
        exact absurd h4 (by decide)
      have hie : ¬ (res.vcd.isEmpty = true) := fun hi => hne ((String.isEmpty_iff _).1 hi)
      rw [if_neg (fun hx => hs hx.2), if_neg hne]
      simp only [construct, vcd, if_neg hc, hie, not_false_eq_true, if_true]
      rfl
  · have hc : ¬ (res.vcd.length > 4
        ∧ ([".vcd", ".VCD"].any fun k =>
            rfind res.vcd k (res.vcd.length - k.length)
              == some (res.vcd.length - k.length)) = true) := fun hc => h4 hc.1
    rw [if_neg (fun hx => h4 hx.1)]
    by_cases hne : res.vcd = ""
    · have hie : res.vcd.isEmpty = true := (String.isEmpty_iff _).2 hne
      rw [if_pos hne]
      simp only [construct, vcd, if_neg hc, hie, not_true_eq_false, if_false]
      exact hne
    · have hie : ¬ (res.vcd.isEmpty = true) := fun hi => hne ((String.isEmpty_iff _).1 hi)
      rw [if_neg hne]
      simp only [construct, vcd, if_neg hc, hie, not_false_eq_true, if_true]
      rfl

theorem construct_flags_returned (res : ParseResult) (init : Args)
    (h4 : 4 < res.vcd.length)
    (hs : ".vcd".data <:+ res.vcd.data ∨ ".VCD".data <:+ res.vcd.data) :
    construct res init = { init with mVcd := res.vcd } := by
  have hk := (keys_any res.vcd h4).2 hs
  have hc : res.vcd.length > 4
      ∧ ([".vcd", ".VCD"].any fun k =>
          rfind res.vcd k (res.vcd.length - k.length)
            == some (res.vcd.length - k.length)) = true := ⟨h4, hk⟩
  simp only [construct, if_pos hc]

theorem construct_flags_assigned (res : ParseResult) (init : Args)
    (h : ¬ (4 < res.vcd.length
      ∧ (".vcd".data <:+ res.vcd.data ∨ ".VCD".data <:+ res.vcd.data))) :
    (construct res init).testStatus = decide (res.testStatus > 0)
    ∧ (construct res init).testGprs = decide (res.testGprs > 0)
    ∧ (construct res init).testFprs = decide (res.testFprs > 0)
    ∧ (construct res init).testCsrs = decide (res.testCsrs > 0) := by
  have hc : ¬ (res.vcd.length > 4
      ∧ ([".vcd", ".VCD"].any fun k =>
          rfind res.vcd k (res.vcd.length - k.length)
            == some (res.vcd.length - k.length)) = true) :=
    fun hc => h ⟨hc.1, (keys_any res.vcd hc.1).1 hc.2⟩
  refine ⟨?_, ?_, ?_, ?_⟩ <;>
    simp only [construct, if_neg hc, testStatus, testGprs, testFprs, testCsrs]

/-- C38 (refuted): `Args::vcd ()` is the filename unchanged when it has more than
4 characters and ends in `.vcd` or `.VCD`, the empty string when the filename is
empty, and the filename followed by `.vcd` otherwise; every result that is not
empty ends in `.vcd` or `.VCD`.  The test of the suffix is made only for names
of more than 4 characters, so the name `.vcd` itself gets the suffix a second
time: the result is `.vcd.vcd`, and `.VCD` gives `.VCD.vcd`. -/
theorem C38_vcd_suffix_doubled_for_bare_extension :
    (∀ (res : ParseResult) (init : Args),
        (construct res init).vcd
          = if 4 < res.vcd.length
                ∧ (".vcd".data <:+ res.vcd.data ∨ ".VCD".data <:+ res.vcd.data)
            then res.vcd
            else if res.vcd = "" then "" else res.vcd ++ ".vcd")
    ∧ (∀ (res : ParseResult) (init : Args), (construct res init).vcd ≠ "" →
        (".vcd".data <:+ (construct res init).vcd.data
          ∨ ".VCD".data <:+ (construct res init).vcd.data))
    ∧ (∀ (t g f c : Nat) (init : Args), (construct ⟨".vcd", t, g, f, c⟩ init).vcd = ".vcd.vcd")
    ∧ (∀ (t g f c : Nat) (init : Args), (construct ⟨".VCD", t, g, f, c⟩ init).vcd = ".VCD.vcd")
    ∧ (∀ (t g f c : Nat) (init : Args),
        (construct ⟨"trace.vcd", t, g, f, c⟩ init).vcd = "trace.vcd")
    ∧ (∀ (t g f c : Nat) (init : Args), (construct ⟨"trace", t, g, f, c⟩ init).vcd = "trace.vcd")
    ∧ (∀ (t g f c : Nat) (init : Args), (construct ⟨"", t, g, f, c⟩ init).vcd = "") := by
  refine ⟨construct_vcd, ?_, ?_, ?_, ?_, ?_, ?_⟩
  · intro res init hne
    rw [construct_vcd] at hne ⊢
    split
    · rename_i h
      exact h.2
    · rename_i h
      rw [if_neg h] at hne
      split
      · rename_i he
        rw [if_pos he] at hne
        exact absurd rfl hne
      · left
        rw [String.data_append]
        exact List.suffix_append _ _
  · intro t g f c init
    rw [construct_vcd]
    dsimp only
    decide
  · intro t g f c init
    rw [construct_vcd]
    dsimp only
    decide
  · intro t g f c init
    rw [construct_vcd]
    dsimp only
    decide
  · intro t g f c init
    rw [construct_vcd]
    dsimp only
    decide
  · intro t g f c init
    rw [construct_vcd]
    dsimp only
    decide

/-- C39 (refuted): when the filename has more than 4 characters and ends in
`.vcd` or `.VCD` the constructor returns before the four assignments, so
`testStatus ()`, `testGprs ()`, `testFprs ()` and `testCsrs ()` return what the
members held before, whatever options were given; for every other filename they
return whether the option was given.  With `--vcd trace.vcd` and all four
options given, members that held `false` still hold `false`. -/
theorem C39_test_flags_skipped_after_vcd_suffix :
    (∀ (res : ParseResult) (init : Args), 4 < res.vcd.length →
        (".vcd".data <:+ res.vcd.data ∨ ".VCD".data <:+ res.vcd.data) →
        (construct res init).testStatus = init.mTestStatus
        ∧ (construct res init).testGprs = init.mTestGprs
        ∧ (construct res init).testFprs = init.mTestFprs
        ∧ (construct res init).testCsrs = init.mTestCsrs)
    ∧ (∀ (res : ParseResult) (init : Args),
        ¬ (4 < res.vcd.length
            ∧ (".vcd".data <:+ res.vcd.data ∨ ".VCD".data <:+ res.vcd.data)) →
        ((construct res init).testStatus = true ↔ 0 < res.testStatus)
        ∧ ((construct res init).testGprs = true ↔ 0 < res.testGprs)
        ∧ ((construct res init).testFprs = true ↔ 0 < res.testFprs)
        ∧ ((construct res init).testCsrs = true ↔ 0 < res.testCsrs))
    ∧ construct ⟨"trace.vcd", 1, 1, 1, 1⟩ ⟨"", false, false, false, false⟩
        = ⟨"trace.vcd", false, false, false, false⟩
    ∧ construct ⟨"trace.VCD", 0, 0, 0, 0⟩ ⟨"", true, true, true, true⟩
        = ⟨"trace.VCD", true, true, true, true⟩
    ∧ construct ⟨"trace", 1, 0, 1, 0⟩ ⟨"", false, true, false, true⟩
        = ⟨"trace.vcd", true, false, true, false⟩ := by
  refine ⟨?_, ?_, by decide, by decide, by decide⟩
  · intro res init h4 hs
    rw [construct_flags_returned res init h4 hs]
    exact ⟨rfl, rfl, rfl, rfl⟩
  · intro res init h
    obtain ⟨h1, h2, h3, h4⟩ := construct_flags_assigned res init h
    rw [h1, h2, h3, h4]
    exact ⟨decide_eq_true_iff, decide_eq_true_iff, decide_eq_true_iff, decide_eq_true_iff⟩

end Args
